import Mathlib

/-!
# Qt WebEngine integration layer: a shallow embedding of the adapter code

Each section embeds one adapter of `src/core` as pure functions over explicit
state.  Calls that leave the adapter (mojo remotes, task runners, the profile
adapter) are recorded as effects in the order in which the C++ issues them, so
that "is never called" and "is run exactly once" become statements about the
returned effect list.
-/

namespace QtWebEngineCore

/-! ## `net/proxying_restricted_cookie_manager_qt.cpp` -/

/-- A `GURL`, kept as its spec string. -/
abbrev GURL := String

/-- A `QUrl`, kept as its string form. -/
abbrev QUrl := String

/-- The part of `net::SiteForCookies` the proxy reads. -/
structure SiteForCookies where
  first_party_url : GURL
  deriving DecidableEq, Repr

/-- The arguments the proxy only passes through to the underlying manager
(`top_frame_origin`, `storage_access_api_status`, options, flags). -/
structure ForwardedArgs where
  top_frame_origin : String
  storage_access_api_status : Nat
  options : Nat
  is_ad_tagged : Bool
  force_disable_third_party_cookies : Bool
  get_version_shared_memory : Bool
  deriving DecidableEq, Repr

/-- A mojo callback, identified by a handle. -/
abbrev CallbackId := Nat

/-- Simplified `net::CookieWithAccessResult`: only its identity matters here. -/
abbrev CookieWithAccessResult := String

/-- A `base::ReadOnlySharedMemoryRegion`; `none` is the default-constructed
(empty, invalid) region. -/
abbrev ReadOnlySharedMemoryRegion := Option Nat

/-- `ProfileIODataQt` as seen from the proxy: the cookie filter
`canGetCookies(firstPartyUrl, url)`. -/
structure ProfileIODataQt where
  canGetCookies : QUrl → QUrl → Bool

/-- Declarations used by the proxy whose definitions live outside the adapter:
the `toQt` URL conversion of `type_conversion.h` and the mojom constant
`network::mojom::kInvalidCookieVersion`. -/
structure CookieDeps where
  toQt : GURL → QUrl
  kInvalidCookieVersion : Nat

/-- What a method of the proxy does to the outside world. -/
inductive CookieEffect where
  | underlyingGetAllForUrl (url : GURL) (site : SiteForCookies) (args : ForwardedArgs)
      (callback : CallbackId)
  | underlyingSetCanonicalCookie (cookie : String) (url : GURL) (site : SiteForCookies)
      (args : ForwardedArgs) (status : Nat) (callback : CallbackId)
  | underlyingAddChangeListener (url : GURL) (site : SiteForCookies) (args : ForwardedArgs)
      (listener : Nat) (callback : CallbackId)
  | underlyingSetCookieFromString (url : GURL) (site : SiteForCookies) (args : ForwardedArgs)
      (cookie : String) (callback : CallbackId)
  | underlyingGetCookiesString (url : GURL) (site : SiteForCookies) (args : ForwardedArgs)
      (callback : CallbackId)
  | runGetAllForUrlCallback (callback : CallbackId) (cookies : List CookieWithAccessResult)
  | runSetCanonicalCookieCallback (callback : CallbackId) (success : Bool)
  | runSetCookieFromStringCallback (callback : CallbackId)
  | runGetCookiesStringCallback (callback : CallbackId) (version : Nat)
      (region : ReadOnlySharedMemoryRegion) (cookies : String)
  | runCookiesEnabledForCallback (callback : CallbackId) (enabled : Bool)
  deriving DecidableEq, Repr

/-- Holds for the effects that are calls on `underlying_restricted_cookie_manager_`. -/
def CookieEffect.isUnderlyingCall : CookieEffect → Bool
  | .underlyingGetAllForUrl .. => true
  | .underlyingSetCanonicalCookie .. => true
  | .underlyingAddChangeListener .. => true
  | .underlyingSetCookieFromString .. => true
  | .underlyingGetCookiesString .. => true
  | _ => false

/-- Holds for the effects that run the mojo callback `cb`. -/
def CookieEffect.runsCallback (cb : CallbackId) : CookieEffect → Bool
  | .runGetAllForUrlCallback c _ => c == cb
  | .runSetCanonicalCookieCallback c _ => c == cb
  | .runSetCookieFromStringCallback c => c == cb
  | .runGetCookiesStringCallback c _ _ _ => c == cb
  | .runCookiesEnabledForCallback c _ => c == cb
  | _ => false

/-- The proxy object: `m_profileIoData` is a weak pointer, `none` once the
profile IO data has been destroyed. -/
structure ProxyingRestrictedCookieManagerQt where
  m_profileIoData : Option ProfileIODataQt

namespace ProxyingRestrictedCookieManagerQt

/-- `ProxyingRestrictedCookieManagerQt::allowCookies`. -/
def allowCookies (deps : CookieDeps) (self : ProxyingRestrictedCookieManagerQt)
    (url : GURL) (site_for_cookies : SiteForCookies) : Bool :=
  match self.m_profileIoData with
  | none => false
  | some profileIoData =>
      profileIoData.canGetCookies (deps.toQt site_for_cookies.first_party_url) (deps.toQt url)

/-- `ProxyingRestrictedCookieManagerQt::GetAllForUrl`. -/
def GetAllForUrl (deps : CookieDeps) (self : ProxyingRestrictedCookieManagerQt)
    (url : GURL) (site_for_cookies : SiteForCookies) (args : ForwardedArgs)
    (callback : CallbackId) : List CookieEffect :=
  if allowCookies deps self url site_for_cookies then
    [.underlyingGetAllForUrl url site_for_cookies args callback]
  else
    [.runGetAllForUrlCallback callback []]

/-- `ProxyingRestrictedCookieManagerQt::SetCanonicalCookie`. -/
def SetCanonicalCookie (deps : CookieDeps) (self : ProxyingRestrictedCookieManagerQt)
    (cookie : String) (url : GURL) (site_for_cookies : SiteForCookies) (args : ForwardedArgs)
    (status : Nat) (callback : CallbackId) : List CookieEffect :=
  if allowCookies deps self url site_for_cookies then
    [.underlyingSetCanonicalCookie cookie url site_for_cookies args status callback]
  else
    [.runSetCanonicalCookieCallback callback false]

/-- `ProxyingRestrictedCookieManagerQt::AddChangeListener`: forwarded unconditionally. -/
def AddChangeListener (_deps : CookieDeps) (_self : ProxyingRestrictedCookieManagerQt)
    (url : GURL) (site_for_cookies : SiteForCookies) (args : ForwardedArgs)
    (listener : Nat) (callback : CallbackId) : List CookieEffect :=
  [.underlyingAddChangeListener url site_for_cookies args listener callback]

/-- `ProxyingRestrictedCookieManagerQt::SetCookieFromString`. -/
def SetCookieFromString (deps : CookieDeps) (self : ProxyingRestrictedCookieManagerQt)
    (url : GURL) (site_for_cookies : SiteForCookies) (args : ForwardedArgs)
    (cookie : String) (callback : CallbackId) : List CookieEffect :=
  if allowCookies deps self url site_for_cookies then
    [.underlyingSetCookieFromString url site_for_cookies args cookie callback]
  else
    [.runSetCookieFromStringCallback callback]

/-- `ProxyingRestrictedCookieManagerQt::GetCookiesString`. -/
def GetCookiesString (deps : CookieDeps) (self : ProxyingRestrictedCookieManagerQt)
    (url : GURL) (site_for_cookies : SiteForCookies) (args : ForwardedArgs)
    (callback : CallbackId) : List CookieEffect :=
  if allowCookies deps self url site_for_cookies then
    [.underlyingGetCookiesString url site_for_cookies args callback]
  else
    [.runGetCookiesStringCallback callback deps.kInvalidCookieVersion none ""]

/-- `ProxyingRestrictedCookieManagerQt::CookiesEnabledFor`. -/
def CookiesEnabledFor (deps : CookieDeps) (self : ProxyingRestrictedCookieManagerQt)
    (url : GURL) (site_for_cookies : SiteForCookies) (callback : CallbackId) :
    List CookieEffect :=
  [.runCookiesEnabledForCallback callback (allowCookies deps self url site_for_cookies)]

end ProxyingRestrictedCookieManagerQt

/-- A proxy whose profile IO data blocks every cookie of `blocked.example`. -/
def sampleCookieProxy : ProxyingRestrictedCookieManagerQt :=
  { m_profileIoData := some { canGetCookies := fun _ url => url != "https://blocked.example/" } }

/-- Sample external declarations: `toQt` keeps the URL text. -/
def sampleCookieDeps : CookieDeps :=
  { toQt := fun u => u, kInvalidCookieVersion := 0 }

/-- Sample pass-through arguments. -/
def sampleForwardedArgs : ForwardedArgs :=
  { top_frame_origin := "https://top.example", storage_access_api_status := 0, options := 0,
    is_ad_tagged := false, force_disable_third_party_cookies := false,
    get_version_shared_memory := false }

/-! ## `printing/print_view_manager_qt.cpp` -/

/-- The keys of `printing/print_job_constants.h` written by the print manager, one
constructor per constant. -/
inductive SettingKey where
  | kIsFirstRequest | kPreviewRequestID | kSettingPrinterType
  | kSettingDpiHorizontal | kSettingDpiVertical | kSettingDuplexMode
  | kSettingCopies | kSettingPagesPerSheet | kSettingCollate
  | kSettingPreviewModifiable | kSettingShouldPrintSelectionOnly
  | kSettingShouldPrintBackgrounds | kSettingHeaderFooterEnabled
  | kSettingRasterizePdf | kSettingScaleFactor | kSettingDeviceName | kPreviewUIID
  | kSettingMarginsType | kSettingMarginsCustom
  | kSettingMarginTop | kSettingMarginBottom | kSettingMarginLeft | kSettingMarginRight
  | kSettingLandscape | kSettingMediaSize
  | kSettingMediaSizeWidthMicrons | kSettingMediaSizeHeightMicrons
  | kSettingColor | kSettingPageRange | kSettingPageRangeFrom | kSettingPageRangeTo
  | kSettingHeaderFooterTitle | kSettingHeaderFooterURL
  deriving DecidableEq, Repr

/-- A `base::Value` as far as the print settings use it. -/
inductive Value where
  | bool (b : Bool)
  | int (i : Int)
  | string (s : String)
  | dict (entries : List (SettingKey × Value))
  | list (items : List Value)

/-- A `base::Value::Dict`: at most one entry per key. -/
abbrev Dict := List (SettingKey × Value)

/-- `base::Value::Dict::Set`: overwrite the entry of `key`, or add one. -/
def Dict.Set : Dict → SettingKey → Value → Dict
  | [], key, value => [(key, value)]
  | (k, v) :: rest, key, value =>
      if k = key then (key, value) :: rest else (k, v) :: Dict.Set rest key value

/-- `base::Value::Dict::Find`. -/
def Dict.Find : Dict → SettingKey → Option Value
  | [], _ => none
  | (k, v) :: rest, key => if k = key then some v else Dict.Find rest key

/-- `base::Value::Dict::empty`. -/
def Dict.empty (d : Dict) : Bool := d.isEmpty

/-- Constants and conversions declared outside the print manager: integer values of
the `printing::mojom` enumerators, `printing::kPointsPerInch`, the two frame-id
sentinels of `WebContentsAdapter`, and `toFilePath`. -/
structure PrintDeps where
  kPointsPerInch : Int
  PrinterType_kPdf : Int
  DuplexMode_kSimplex : Int
  MarginType_kDefaultMargins : Int
  MarginType_kCustomMargins : Int
  ColorModel_kColor : Int
  ColorModel_kGrayscale : Int
  kInvalidFrameId : Nat
  kUseMainFrameId : Nat
  toFilePath : String → String

/-- A `content::RenderFrameHost *`, by identity. -/
abbrev RenderFrameHost := Nat

/-- `QMargins` through its four accessors. -/
structure QMargins where
  top : Int
  bottom : Int
  left : Int
  right : Int
  deriving DecidableEq, Repr

/-- `QPageLayout::Orientation`. -/
inductive Orientation where
  | Portrait | Landscape
  deriving DecidableEq, Repr

/-- The observations the print manager makes of a `QPageLayout`.  The two micron fields
are the already truncated `int(pageSize().rect(QPageSize::Millimeter).width() *
kMicronsToMillimeter)` and the same for the height. -/
structure QPageLayout where
  isValid : Bool
  marginsPoints : QMargins
  orientation : Orientation
  pageWidthMicrons : Int
  pageHeightMicrons : Int
  deriving DecidableEq, Repr

/-- `QPageRanges::Range`. -/
structure Range where
  «from» : Int
  «to» : Int
  deriving DecidableEq, Repr

/-- `QPageRanges`, as the list `toRangeList()` returns; `isEmpty()` is emptiness of it. -/
abbrev QPageRanges := List Range

/-- The two attributes read from `client->webEngineSettings()`. -/
structure PrintAttributes where
  PrintHeaderAndFooter : Bool
  PreferCSSMarginsForPrinting : Bool
  deriving DecidableEq, Repr

/-- What the print manager asks of `web_contents()` and of the frame tree. -/
structure WebContents where
  /-- `WebContentsViewQt::from(view)->client()` of the outermost contents, with the
  attributes of its settings; `none` when there is no client. -/
  client : Option PrintAttributes
  should_print_backgrounds : Bool
  title : String
  /-- `url_formatter::FormatUrl` of the last committed URL without user name and password. -/
  formattedUrl : String
  IsCrashed : Bool
  primaryMainFrame : RenderFrameHost
  fullPagePlugin : Option RenderFrameHost
  FindPdfChildFrame : RenderFrameHost → Option RenderFrameHost
  /-- `FrameTreeNode::GloballyFindByID(frameId)` followed by `current_frame_host()`. -/
  frameTreeNode : Nat → Option RenderFrameHost
  IsRenderFrameLive : RenderFrameHost → Bool
  IsPrintRenderFrameConnected : RenderFrameHost → Bool
  /-- `GetCurrentTargetFrame()` of the receiver set. -/
  currentTargetFrame : Option RenderFrameHost
  /-- `RenderFrameHost::FromID` of a frame's global id. -/
  FromID : RenderFrameHost → Option RenderFrameHost

/-- What a method of the print manager does to the outside world. -/
inductive PrintEffect where
  /-- A UI-thread task running the given `PrintToPDFCallback` (moved into the task);
  the data `none` is the null `QSharedPointer<QByteArray>`. -/
  | postPrintCallback (callback : Option CallbackId) (data : Option (List Nat))
  /-- A UI-thread task running a `PrintToPDFFileCallback`. -/
  | postSaveCallback (callback : Option CallbackId) (success : Bool)
  | InitiatePrintPreview (rfh : RenderFrameHost) (has_selection : Bool)
  | OnPrintPreviewDialogClosed (rfh : RenderFrameHost)
  | PrintPreview (rfh : RenderFrameHost) (settings : Dict)
  | StopWorker (document_cookie : Int)
  /-- A thread-pool task running `SavePdfFile`. -/
  | postSavePdfFile (data : Option (List Nat)) (path : String) (callback : Option CallbackId)
  | printRequested
  | baseNavigationStopped
  | basePrimaryMainFrameRenderProcessGone (status : Nat)
  | baseRenderFrameDeleted (rfh : RenderFrameHost)

/-- The member variables of `PrintViewManagerQt`.  Null callbacks are `none`. -/
structure PrintViewManagerQt where
  m_printSettings : Dict
  m_pdfOutputPath : String
  m_pdfPrintCallback : Option CallbackId
  m_pdfSaveCallback : Option CallbackId
  m_printPreviewRfh : Option RenderFrameHost

/-- The outcome of a method: the manager afterwards, the function-local static
`internalRequestId` of `createPrintSettings`, the effects in program order, and whether
a `DCHECK` failed on the way.  A build with `DCHECK`s enabled stops at the failing
`DCHECK`, after the effects listed; the manager recorded is the one a build without
them goes on to leave behind. -/
structure PrintRun where
  self : PrintViewManagerQt
  internalRequestId : Int
  effects : List PrintEffect
  dcheckFailed : Bool := false

/-- `createPrintSettings()`, given the current value of its static counter; returns the
dictionary and the incremented counter. -/
def createPrintSettings (deps : PrintDeps) (internalRequestId : Int) : Dict × Int :=
  let printSettings : Dict := []
  let printSettings := Dict.Set printSettings .kIsFirstRequest (.bool (internalRequestId == 0))
  let internalRequestId := internalRequestId + 1
  let printSettings := Dict.Set printSettings .kPreviewRequestID (.int internalRequestId)
  let printSettings := Dict.Set printSettings .kSettingPrinterType (.int deps.PrinterType_kPdf)
  let printSettings := Dict.Set printSettings .kSettingDpiHorizontal (.int deps.kPointsPerInch)
  let printSettings := Dict.Set printSettings .kSettingDpiVertical (.int deps.kPointsPerInch)
  let printSettings := Dict.Set printSettings .kSettingDuplexMode (.int deps.DuplexMode_kSimplex)
  let printSettings := Dict.Set printSettings .kSettingCopies (.int 1)
  let printSettings := Dict.Set printSettings .kSettingPagesPerSheet (.int 1)
  let printSettings := Dict.Set printSettings .kSettingCollate (.bool false)
  let printSettings := Dict.Set printSettings .kSettingPreviewModifiable (.bool false)
  let printSettings := Dict.Set printSettings .kSettingShouldPrintSelectionOnly (.bool false)
  let printSettings := Dict.Set printSettings .kSettingShouldPrintBackgrounds (.bool true)
  let printSettings := Dict.Set printSettings .kSettingHeaderFooterEnabled (.bool false)
  let printSettings := Dict.Set printSettings .kSettingRasterizePdf (.bool false)
  let printSettings := Dict.Set printSettings .kSettingScaleFactor (.int 100)
  let printSettings := Dict.Set printSettings .kSettingDeviceName (.string "")
  let printSettings := Dict.Set printSettings .kPreviewUIID (.int 12345678)
  (printSettings, internalRequestId)

/-- `createPrintSettingsFromQPageLayout`. -/
def createPrintSettingsFromQPageLayout (deps : PrintDeps) (internalRequestId : Int)
    (pageLayout : QPageLayout) (useCSSMargins : Bool) : Dict × Int :=
  let (printSettings, internalRequestId) := createPrintSettings deps internalRequestId
  let printSettings :=
    if useCSSMargins then
      Dict.Set printSettings .kSettingMarginsType (.int deps.MarginType_kDefaultMargins)
    else
      let pageMarginsInPoints := pageLayout.marginsPoints
      let marginsDict : Dict := []
      let marginsDict := Dict.Set marginsDict .kSettingMarginTop (.int pageMarginsInPoints.top)
      let marginsDict :=
        Dict.Set marginsDict .kSettingMarginBottom (.int pageMarginsInPoints.bottom)
      let marginsDict := Dict.Set marginsDict .kSettingMarginLeft (.int pageMarginsInPoints.left)
      let marginsDict :=
        Dict.Set marginsDict .kSettingMarginRight (.int pageMarginsInPoints.right)
      let printSettings := Dict.Set printSettings .kSettingMarginsCustom (.dict marginsDict)
      Dict.Set printSettings .kSettingMarginsType (.int deps.MarginType_kCustomMargins)
  let printSettings :=
    Dict.Set printSettings .kSettingLandscape (.bool (pageLayout.orientation == .Landscape))
  let sizeDict : Dict := []
  let sizeDict :=
    Dict.Set sizeDict .kSettingMediaSizeWidthMicrons (.int pageLayout.pageWidthMicrons)
  let sizeDict :=
    Dict.Set sizeDict .kSettingMediaSizeHeightMicrons (.int pageLayout.pageHeightMicrons)
  let printSettings := Dict.Set printSettings .kSettingMediaSize (.dict sizeDict)
  (printSettings, internalRequestId)

/-- `createPageRangeSettings`: the loop over `ranges`, appending one dictionary each. -/
def createPageRangeSettings (ranges : List Range) : List Value :=
  ranges.foldl
    (fun pageRangeArray r =>
      let pageRange : Dict := []
      let pageRange := Dict.Set pageRange .kSettingPageRangeFrom (.int r.«from»)
      let pageRange := Dict.Set pageRange .kSettingPageRangeTo (.int r.«to»)
      pageRangeArray ++ [Value.dict pageRange])
    []

namespace PrintViewManagerQt

/-- The constructor: `m_printPreviewRfh(nullptr)`, the other members default-constructed. -/
def init : PrintViewManagerQt :=
  { m_printSettings := [], m_pdfOutputPath := "", m_pdfPrintCallback := none,
    m_pdfSaveCallback := none, m_printPreviewRfh := none }

/-- `PrintViewManagerQt::resetPdfState`. -/
def resetPdfState (self : PrintViewManagerQt) : PrintViewManagerQt :=
  let self := { self with m_pdfOutputPath := "" }
  let self := { self with m_pdfPrintCallback := none }
  let self := { self with m_pdfSaveCallback := none }
  { self with m_printSettings := [] }

/-- `PrintViewManagerQt::PrintToPDFInternal`; the first component is the returned
`bool`.  `DCHECK(!m_printPreviewRfh)` fails when a preview frame is still recorded,
after `InitiatePrintPreview` has been called. -/
def PrintToPDFInternal (deps : PrintDeps) (wc : WebContents) (self : PrintViewManagerQt)
    (internalRequestId : Int) (pageLayout : QPageLayout) (pageRanges : QPageRanges)
    (printInColor : Bool) (frameId : Nat) : Bool × PrintRun :=
  if !pageLayout.isValid then
    (false, ⟨self, internalRequestId, [], false⟩)
  else
    let printHeaderAndFooter :=
      match wc.client with
      | some settings => settings.PrintHeaderAndFooter
      | none => false
    let useCSSMargins :=
      match wc.client with
      | some settings => settings.PreferCSSMarginsForPrinting
      | none => false
    let (printSettings, internalRequestId) :=
      createPrintSettingsFromQPageLayout deps internalRequestId pageLayout useCSSMargins
    let printSettings :=
      Dict.Set printSettings .kSettingShouldPrintBackgrounds (.bool wc.should_print_backgrounds)
    let printSettings :=
      Dict.Set printSettings .kSettingColor
        (.int (if printInColor then deps.ColorModel_kColor else deps.ColorModel_kGrayscale))
    let printSettings :=
      if !pageRanges.isEmpty then
        Dict.Set printSettings .kSettingPageRange (.list (createPageRangeSettings pageRanges))
      else printSettings
    let printSettings :=
      if printHeaderAndFooter then
        let printSettings := Dict.Set printSettings .kSettingHeaderFooterEnabled (.bool true)
        let printSettings := Dict.Set printSettings .kSettingHeaderFooterTitle (.string wc.title)
        Dict.Set printSettings .kSettingHeaderFooterURL (.string wc.formattedUrl)
      else printSettings
    let self := { self with m_printSettings := printSettings }
    if wc.IsCrashed then
      (false, ⟨self, internalRequestId, [], false⟩)
    else if frameId = deps.kInvalidFrameId then
      (false, ⟨self, internalRequestId, [], false⟩)
    else
      let found : Option RenderFrameHost :=
        if frameId = deps.kUseMainFrameId then
          let rfh := wc.primaryMainFrame
          match wc.FindPdfChildFrame (wc.fullPagePlugin.getD rfh) with
          | some pdf_rfh => some pdf_rfh
          | none => some rfh
        else
          wc.frameTreeNode frameId
      match found with
      | none => (false, ⟨self, internalRequestId, [], false⟩)
      | some rfh =>
          let effects := [PrintEffect.InitiatePrintPreview rfh false]
          let dcheckFailed := self.m_printPreviewRfh.isSome
          (true, ⟨{ self with m_printPreviewRfh := some rfh }, internalRequestId, effects,
            dcheckFailed⟩)

/-- `PrintViewManagerQt::PrintToPDFFileWithCallback`. -/
def PrintToPDFFileWithCallback (deps : PrintDeps) (wc : WebContents)
    (self : PrintViewManagerQt) (internalRequestId : Int) (pageLayout : QPageLayout)
    (pageRanges : QPageRanges) (printInColor : Bool) (filePath : String) (frameId : Nat)
    (callback : Option CallbackId) : PrintRun :=
  match callback with
  | none => ⟨self, internalRequestId, [], false⟩
  | some cb =>
      if !Dict.empty self.m_printSettings || filePath.length == 0 then
        ⟨self, internalRequestId, [.postSaveCallback (some cb) false], false⟩
      else
        let self := { self with m_pdfOutputPath := deps.toFilePath filePath }
        let self := { self with m_pdfSaveCallback := some cb }
        let (ok, run) :=
          PrintToPDFInternal deps wc self internalRequestId pageLayout pageRanges printInColor
            frameId
        if !ok then
          let task := PrintEffect.postSaveCallback run.self.m_pdfSaveCallback false
          let self := { run.self with m_pdfSaveCallback := none }
          ⟨resetPdfState self, run.internalRequestId, run.effects ++ [task], run.dcheckFailed⟩
        else run

/-- `PrintViewManagerQt::PrintToPDFWithCallback`. -/
def PrintToPDFWithCallback (deps : PrintDeps) (wc : WebContents)
    (self : PrintViewManagerQt) (internalRequestId : Int) (pageLayout : QPageLayout)
    (pageRanges : QPageRanges) (printInColor : Bool) (frameId : Nat)
    (callback : Option CallbackId) : PrintRun :=
  match callback with
  | none => ⟨self, internalRequestId, [], false⟩
  | some cb =>
      if !Dict.empty self.m_printSettings then
        ⟨self, internalRequestId, [.postPrintCallback (some cb) none], false⟩
      else
        let self := { self with m_pdfPrintCallback := some cb }
        let (ok, run) :=
          PrintToPDFInternal deps wc self internalRequestId pageLayout pageRanges printInColor
            frameId
        if !ok then
          let task := PrintEffect.postPrintCallback run.self.m_pdfPrintCallback none
          let self := { run.self with m_pdfPrintCallback := none }
          ⟨resetPdfState self, run.internalRequestId, run.effects ++ [task], run.dcheckFailed⟩
        else run

/-- `PrintViewManagerQt::PrintPreviewDone`; `none` when `m_printPreviewRfh` is null and
the C++ dereferences a null pointer. -/
def PrintPreviewDone (wc : WebContents) (self : PrintViewManagerQt) :
    Option (PrintViewManagerQt × List PrintEffect) :=
  match self.m_printPreviewRfh with
  | none => none
  | some rfh =>
      let effects :=
        if wc.IsRenderFrameLive rfh && wc.IsPrintRenderFrameConnected rfh then
          [PrintEffect.OnPrintPreviewDialogClosed rfh]
        else []
      some ({ self with m_printPreviewRfh := none }, effects)

/-- `PrintViewManagerQt::NavigationStopped`. -/
def NavigationStopped (self : PrintViewManagerQt) (internalRequestId : Int) : PrintRun :=
  let (self, effects) :=
    if self.m_pdfPrintCallback.isSome then
      ({ self with m_pdfPrintCallback := none },
        [PrintEffect.postPrintCallback self.m_pdfPrintCallback none])
    else (self, [])
  ⟨resetPdfState self, internalRequestId, effects ++ [.baseNavigationStopped], false⟩

/-- `PrintViewManagerQt::PrimaryMainFrameRenderProcessGone`. -/
def PrimaryMainFrameRenderProcessGone (self : PrintViewManagerQt) (internalRequestId : Int)
    (status : Nat) : PrintRun :=
  let (self, effects) :=
    if self.m_pdfPrintCallback.isSome then
      ({ self with m_pdfPrintCallback := none },
        [PrintEffect.postPrintCallback self.m_pdfPrintCallback none])
    else (self, [])
  ⟨resetPdfState self, internalRequestId,
    [.basePrimaryMainFrameRenderProcessGone status] ++ effects, false⟩

/-- `PrintViewManagerQt::RenderFrameDeleted`. -/
def RenderFrameDeleted (wc : WebContents) (self : PrintViewManagerQt)
    (internalRequestId : Int) (render_frame_host : RenderFrameHost) : Option PrintRun :=
  if self.m_printPreviewRfh = some render_frame_host then
    match PrintPreviewDone wc self with
    | none => none
    | some (self, effects) =>
        some ⟨self, internalRequestId, effects ++ [.baseRenderFrameDeleted render_frame_host],
          false⟩
  else
    some ⟨self, internalRequestId, [.baseRenderFrameDeleted render_frame_host], false⟩

/-- `PrintViewManagerQt::RequestPrintPreview`; `none` when a null pointer is
dereferenced. -/
def RequestPrintPreview (wc : WebContents) (self : PrintViewManagerQt)
    (internalRequestId : Int) (webnode_only : Bool) : Option PrintRun :=
  if self.m_printPreviewRfh.isNone && webnode_only then
    let notify := if wc.client.isSome then [PrintEffect.printRequested] else []
    match wc.currentTargetFrame with
    | none => none
    | some target =>
        let closed :=
          match wc.FromID target with
          | some renderFrameHost =>
              if wc.IsRenderFrameLive renderFrameHost then
                [PrintEffect.OnPrintPreviewDialogClosed renderFrameHost]
              else []
          | none => []
        some ⟨self, internalRequestId, notify ++ closed, false⟩
  else if Dict.empty self.m_printSettings then
    match PrintPreviewDone wc self with
    | none => none
    | some (self, effects) => some ⟨self, internalRequestId, effects, false⟩
  else
    match self.m_printPreviewRfh with
    | none => none
    | some rfh =>
        match PrintPreviewDone wc self with
        | none => none
        | some (self', effects) =>
            some ⟨self', internalRequestId,
              [.PrintPreview rfh self.m_printSettings] ++ effects, false⟩

/-- `GetStdVectorFromHandle`: an invalid mapping gives an empty array. -/
def GetStdVectorFromHandle (handle : Option (List Nat)) : Option (List Nat) :=
  match handle with
  | none => some []
  | some data => some data

/-- `GetBytesFromHandle`: an invalid mapping gives `nullptr`. -/
def GetBytesFromHandle (handle : Option (List Nat)) : Option (List Nat) :=
  match handle with
  | none => none
  | some data => some data

/-- `PrintViewManagerQt::MetafileReadyForPrinting`; `metafile_data_region` is `none`
when the region cannot be mapped. -/
def MetafileReadyForPrinting (self : PrintViewManagerQt) (internalRequestId : Int)
    (document_cookie : Int) (metafile_data_region : Option (List Nat)) : PrintRun :=
  let pdf_print_callback := self.m_pdfPrintCallback
  let self := { self with m_pdfPrintCallback := none }
  let pdf_save_callback := self.m_pdfSaveCallback
  let self := { self with m_pdfSaveCallback := none }
  let pdfOutputPath := self.m_pdfOutputPath
  let self := resetPdfState self
  let task :=
    if pdf_print_callback.isSome then
      PrintEffect.postPrintCallback pdf_print_callback
        (GetStdVectorFromHandle metafile_data_region)
    else
      PrintEffect.postSavePdfFile (GetBytesFromHandle metafile_data_region) pdfOutputPath
        pdf_save_callback
  ⟨self, internalRequestId, [.StopWorker document_cookie, task], false⟩

end PrintViewManagerQt

/-- The calls that read or write a member variable of `PrintViewManagerQt`, with their
arguments.  (`SetupScriptedPrintPreview`, `ShowScriptedPrintPreview`, `CheckForCancel`
and `SetAccessibilityTree` touch no member variable.) -/
inductive PrintCall where
  | PrintToPDFFileWithCallback (pageLayout : QPageLayout) (pageRanges : QPageRanges)
      (printInColor : Bool) (filePath : String) (frameId : Nat) (callback : Option CallbackId)
  | PrintToPDFWithCallback (pageLayout : QPageLayout) (pageRanges : QPageRanges)
      (printInColor : Bool) (frameId : Nat) (callback : Option CallbackId)
  | NavigationStopped
  | PrimaryMainFrameRenderProcessGone (status : Nat)
  | RenderFrameDeleted (render_frame_host : RenderFrameHost)
  | RequestPrintPreview (webnode_only : Bool)
  | MetafileReadyForPrinting (document_cookie : Int) (metafile_data_region : Option (List Nat))

/-- Run one call on the manager; `none` when the C++ dereferences a null pointer.  A
run whose `DCHECK` failed is kept: a build without `DCHECK`s goes on from it. -/
def PrintViewManagerQt.call (deps : PrintDeps) (wc : WebContents) (self : PrintViewManagerQt)
    (internalRequestId : Int) : PrintCall → Option PrintRun
  | .PrintToPDFFileWithCallback pageLayout pageRanges printInColor filePath frameId callback =>
      some (PrintToPDFFileWithCallback deps wc self internalRequestId pageLayout pageRanges
        printInColor filePath frameId callback)
  | .PrintToPDFWithCallback pageLayout pageRanges printInColor frameId callback =>
      some (PrintToPDFWithCallback deps wc self internalRequestId pageLayout pageRanges
        printInColor frameId callback)
  | .NavigationStopped => some (NavigationStopped self internalRequestId)
  | .PrimaryMainFrameRenderProcessGone status =>
      some (PrimaryMainFrameRenderProcessGone self internalRequestId status)
  | .RenderFrameDeleted render_frame_host =>
      RenderFrameDeleted wc self internalRequestId render_frame_host
  | .RequestPrintPreview webnode_only =>
      RequestPrintPreview wc self internalRequestId webnode_only
  | .MetafileReadyForPrinting document_cookie metafile_data_region =>
      some (MetafileReadyForPrinting self internalRequestId document_cookie
        metafile_data_region)

/-- The states a `PrintViewManagerQt` can be in: the constructed object, and whatever a
call leaves behind, in any environment. -/
inductive PrintViewManagerQt.Reachable (deps : PrintDeps) : PrintViewManagerQt → Prop where
  | init : Reachable deps PrintViewManagerQt.init
  | call (wc : WebContents) (self : PrintViewManagerQt) (internalRequestId : Int)
      (c : PrintCall) (run : PrintRun) :
      Reachable deps self →
      PrintViewManagerQt.call deps wc self internalRequestId c = some run →
      Reachable deps run.self

/-- Sample values for the constants. -/
def samplePrintDeps : PrintDeps :=
  { kPointsPerInch := 72, PrinterType_kPdf := 2, DuplexMode_kSimplex := 0,
    MarginType_kDefaultMargins := 0, MarginType_kCustomMargins := 3,
    ColorModel_kColor := 2, ColorModel_kGrayscale := 8,
    kInvalidFrameId := 18446744073709551613, kUseMainFrameId := 18446744073709551615,
    toFilePath := fun p => p }

/-- A live page with one main frame (1) and one subframe (frame tree node 5, host 2). -/
def sampleWebContents : WebContents :=
  { client := some { PrintHeaderAndFooter := false, PreferCSSMarginsForPrinting := false },
    should_print_backgrounds := false, title := "Title", formattedUrl := "https://qt.io",
    IsCrashed := false, primaryMainFrame := 1, fullPagePlugin := none,
    FindPdfChildFrame := fun _ => none,
    frameTreeNode := fun id => if id = 5 then some 2 else none,
    IsRenderFrameLive := fun _ => true, IsPrintRenderFrameConnected := fun _ => true,
    currentTargetFrame := some 1, FromID := fun rfh => some rfh }

/-- An A4 portrait layout with 10pt margins. -/
def samplePageLayout : QPageLayout :=
  { isValid := true, marginsPoints := ⟨10, 10, 10, 10⟩, orientation := .Portrait,
    pageWidthMicrons := 210000, pageHeightMicrons := 297000 }

/-- The manager after a successful in-memory print request on the main frame. -/
def samplePendingRun : PrintRun :=
  PrintViewManagerQt.PrintToPDFWithCallback samplePrintDeps sampleWebContents
    PrintViewManagerQt.init 0 samplePageLayout [] true samplePrintDeps.kUseMainFrameId (some 11)

/-- The conditions under which `PrintToPDFInternal` returns `false`: invalid page
layout, crashed web contents, the invalid-frame sentinel, or a frame id other than the
main-frame sentinel for which `FrameTreeNode::GloballyFindByID` finds nothing. -/
def cannotStart (deps : PrintDeps) (wc : WebContents) (pageLayout : QPageLayout)
    (frameId : Nat) : Prop :=
  pageLayout.isValid = false ∨ wc.IsCrashed = true ∨ frameId = deps.kInvalidFrameId
    ∨ (frameId ≠ deps.kUseMainFrameId ∧ wc.frameTreeNode frameId = none)

/-- The manager holds no job: nothing in `m_printSettings`, no output path, no stored
callback. -/
def PrintViewManagerQt.isIdle (self : PrintViewManagerQt) : Prop :=
  Dict.empty self.m_printSettings = true ∧ self.m_pdfOutputPath = ""
    ∧ self.m_pdfPrintCallback = none ∧ self.m_pdfSaveCallback = none

/-- A following in-memory request that can start is started rather than rejected: it
posts nothing and initiates a print preview. -/
def PrintViewManagerQt.acceptsNextRequest (deps : PrintDeps) (self : PrintViewManagerQt) :
    Prop :=
  ∀ (wc : WebContents) (n : Int) (pageLayout : QPageLayout) (pageRanges : QPageRanges)
    (printInColor : Bool) (frameId : Nat) (cb : CallbackId),
    ¬ cannotStart deps wc pageLayout frameId →
    ∃ rfh, (PrintViewManagerQt.PrintToPDFWithCallback deps wc self n pageLayout pageRanges
      printInColor frameId (some cb)).effects = [.InitiatePrintPreview rfh false]

/-! ## `pref_service_adapter.cpp` -/

/-- A `QString`. -/
abbrev QString := String

/-- A `std::string`. -/
abbrev StdString := String

/-- The user pref store handed to `PrefServiceFactory::set_user_prefs`. -/
inductive UserPrefStore where
  | JsonPrefStore (path : String)
  | InMemoryPrefStore
  deriving DecidableEq, Repr

/-- The preferences `PrefServiceAdapter::setup` registers by name. -/
inductive PrefName where
  | kAcceptLanguages | kSpellCheckDictionaries | kSpellCheckForcedDictionaries
  | kSpellCheckBlocklistedDictionaries | kSpellCheckDictionary | kSpellCheckEnable
  | kSpellCheckUseSpellingService | kAccessibilityImageLabelsEnabled
  | kNotificationNextPersistentId | kPushMessagingAppIdentifierMap
  | kPrefMediaDeviceIDSalt | kShownAccessibilityApiType
  | kAutofillEnabledDeprecated | kAutofillProfileEnabled | kAutofillCreditCardEnabled
  | kAutofillCreditCardFidoAuthEnabled
  | kDevToolsFileSystemPaths | kDevToolsEditedFiles | kDevToolsPreferences
  | kDevToolsSyncPreferences | kDevToolsSyncedPreferencesSyncDisabled
  | kDevToolsSyncedPreferencesSyncEnabled
  deriving DecidableEq, Repr

/-- A preference value. -/
inductive PrefValue where
  | boolean (b : Bool)
  | integer (i : Int)
  | string (s : StdString)
  | list (items : List StdString)
  | dictionary
  deriving DecidableEq, Repr

/-- A `PrefService` with a registry of defaults and a user store on top of it.  The
command-line store that the factory also receives is not modelled. -/
structure PrefService where
  user_prefs : UserPrefStore
  registry : List (PrefName × PrefValue)
  userValues : List (PrefName × PrefValue)

namespace PrefService

/-- The effective value: the user value when there is one, else the registered default. -/
def GetValue (self : PrefService) (name : PrefName) : Option PrefValue :=
  match self.userValues.lookup name with
  | some v => some v
  | none => self.registry.lookup name

/-- `PrefService::GetBoolean`. -/
def GetBoolean (self : PrefService) (name : PrefName) : Bool :=
  match self.GetValue name with
  | some (.boolean b) => b
  | _ => false

/-- `PrefService::GetList`, for a list of strings. -/
def GetList (self : PrefService) (name : PrefName) : List StdString :=
  match self.GetValue name with
  | some (.list items) => items
  | _ => []

/-- Write a user value. -/
def SetUserPrefValue (self : PrefService) (name : PrefName) (value : PrefValue) : PrefService :=
  { self with userValues := (name, value) :: self.userValues.filter (fun e => e.1 != name) }

/-- `PrefService::SetBoolean`. -/
def SetBoolean (self : PrefService) (name : PrefName) (value : Bool) : PrefService :=
  self.SetUserPrefValue name (.boolean value)

/-- `PrefService::ClearPref`: drop the user value. -/
def ClearPref (self : PrefService) (name : PrefName) : PrefService :=
  { self with userValues := self.userValues.filter (fun e => e.1 != name) }

end PrefService

/-- What `PrefServiceAdapter::setup` reads from the `ProfileAdapter`;
`ensureDataPathExists` is the result the call gives if it is made. -/
structure ProfileAdapterStorage where
  isOffTheRecord : Bool
  dataPath : QString
  ensureDataPathExists : Bool
  deriving DecidableEq, Repr

/-- Build options and library functions used by the pref service adapter:
`QT_CONFIG(webengine_spellchecker)`, `QDir::separator()`, `toFilePath`, the contents a
`JsonPrefStore` loads from a path, the `QString`/`std::string` conversions, and
`WebEngineLibraryInfo::getPath(base::DIR_APP_DICTIONARIES, showWarnings)`. -/
structure PrefDeps where
  webengine_spellchecker : Bool
  separator : QString
  toFilePath : QString → String
  storedPrefs : String → List (PrefName × PrefValue)
  toStdString : QString → StdString
  fromStdString : StdString → QString
  getPath_DIR_APP_DICTIONARIES : Bool → String

/-- The outcome of `PrefServiceAdapter::setup`: the created service and whether
`ensureDataPathExists()` was called on the profile adapter. -/
structure PrefSetup where
  m_prefService : PrefService
  calledEnsureDataPathExists : Bool

namespace PrefServiceAdapter

/-- The registrations `setup` makes by name, in source order. -/
def registeredPrefs (deps : PrefDeps) : List (PrefName × PrefValue) :=
  (if deps.webengine_spellchecker then
    [(.kAcceptLanguages, .string ""), (.kSpellCheckDictionaries, .list []),
     (.kSpellCheckForcedDictionaries, .list []), (.kSpellCheckBlocklistedDictionaries, .list []),
     (.kSpellCheckDictionary, .string ""), (.kSpellCheckEnable, .boolean false),
     (.kSpellCheckUseSpellingService, .boolean false)]
   else [])
  ++ [(.kAccessibilityImageLabelsEnabled, .boolean false),
      (.kNotificationNextPersistentId, .integer 10000),
      (.kPushMessagingAppIdentifierMap, .dictionary),
      (.kPrefMediaDeviceIDSalt, .string ""),
      (.kShownAccessibilityApiType, .string "qt"),
      (.kAutofillEnabledDeprecated, .boolean false),
      (.kAutofillProfileEnabled, .boolean false),
      (.kAutofillCreditCardEnabled, .boolean false),
      (.kAutofillCreditCardFidoAuthEnabled, .boolean false),
      (.kDevToolsFileSystemPaths, .dictionary), (.kDevToolsEditedFiles, .dictionary),
      (.kDevToolsPreferences, .dictionary), (.kDevToolsSyncPreferences, .boolean false),
      (.kDevToolsSyncedPreferencesSyncDisabled, .dictionary),
      (.kDevToolsSyncedPreferencesSyncEnabled, .dictionary)]

/-- `PrefServiceAdapter::setup`.  The `&&` chain is evaluated left to right, so
`ensureDataPathExists()` runs only for a profile that is not off-the-record and has a
non-empty data path. -/
def setup (deps : PrefDeps) (profileAdapter : ProfileAdapterStorage) : PrefSetup :=
  let userPrefStorePath : QString := ""
  let userPrefStorePath := userPrefStorePath ++ profileAdapter.dataPath
  let calledEnsure := !profileAdapter.isOffTheRecord && !userPrefStorePath.isEmpty
  let user_prefs :=
    if !profileAdapter.isOffTheRecord && !userPrefStorePath.isEmpty
        && profileAdapter.ensureDataPathExists then
      let userPrefStorePath := userPrefStorePath ++ deps.separator
      let userPrefStorePath := userPrefStorePath ++ "user_prefs.json"
      UserPrefStore.JsonPrefStore (deps.toFilePath userPrefStorePath)
    else
      UserPrefStore.InMemoryPrefStore
  let loaded :=
    match user_prefs with
    | .JsonPrefStore path => deps.storedPrefs path
    | .InMemoryPrefStore => []
  let m_prefService : PrefService :=
    { user_prefs := user_prefs, registry := registeredPrefs deps, userValues := loaded }
  let m_prefService :=
    if deps.webengine_spellchecker then
      (m_prefService.ClearPref .kSpellCheckEnable).ClearPref .kSpellCheckDictionaries
    else m_prefService
  { m_prefService := m_prefService, calledEnsureDataPathExists := calledEnsure }

/-- `PrefServiceAdapter::setSpellCheckLanguages`. -/
def setSpellCheckLanguages (deps : PrefDeps) (m_prefService : PrefService)
    (languages : List QString) : PrefService :=
  let dictionaries : List StdString :=
    languages.foldl (fun dictionaries language => dictionaries ++ [deps.toStdString language]) []
  m_prefService.SetUserPrefValue .kSpellCheckDictionaries (.list dictionaries)

/-- `PrefServiceAdapter::spellCheckLanguages`. -/
def spellCheckLanguages (deps : PrefDeps) (m_prefService : PrefService) : List QString :=
  (m_prefService.GetList .kSpellCheckDictionaries).foldl
    (fun spellcheck_dictionaries dictionary =>
      spellcheck_dictionaries ++ [deps.fromStdString dictionary])
    []

/-- `PrefServiceAdapter::isSpellCheckEnabled`. -/
def isSpellCheckEnabled (m_prefService : PrefService) : Bool :=
  m_prefService.GetBoolean .kSpellCheckEnable

/-- `PrefServiceAdapter::setSpellCheckEnabled`. -/
def setSpellCheckEnabled (deps : PrefDeps) (m_prefService : PrefService) (enabled : Bool) :
    PrefService :=
  if enabled == m_prefService.GetBoolean .kSpellCheckEnable then
    m_prefService
  else if !(deps.getPath_DIR_APP_DICTIONARIES enabled).isEmpty then
    m_prefService.SetBoolean .kSpellCheckEnable enabled
  else
    m_prefService

end PrefServiceAdapter

/-- Sample options: spell checker built in, no dictionaries directory installed. -/
def samplePrefDepsNoDictionaries : PrefDeps :=
  { webengine_spellchecker := true, separator := "/", toFilePath := fun p => p,
    storedPrefs := fun _ => [], toStdString := fun q => q, fromStdString := fun t => t,
    getPath_DIR_APP_DICTIONARIES := fun _ => "" }

/-- Sample options: spell checker built in, dictionaries found. -/
def samplePrefDeps : PrefDeps :=
  { samplePrefDepsNoDictionaries with
    getPath_DIR_APP_DICTIONARIES := fun _ => "/usr/share/qt6/qtwebengine_dictionaries" }

/-- A disk-based profile whose data directory can be created. -/
def sampleDiskProfile : ProfileAdapterStorage :=
  { isOffTheRecord := false, dataPath := "/home/u/.local/share/app/QtWebEngine/P",
    ensureDataPathExists := true }

/-- The pref service of `sampleDiskProfile` right after `setup`. -/
def samplePrefService : PrefService :=
  (PrefServiceAdapter.setup samplePrefDepsNoDictionaries sampleDiskProfile).m_prefService

/-! ## `api/qwebengineprofile.cpp` -/

/-- `PersistentPermissionsPolicy`, the same enumerators in `QWebEngineProfile` and in
`ProfileAdapter` (kept in sync, converted by a cast). -/
inductive PersistentPermissionsPolicy where
  | AskEveryTime | StoreInMemory | StoreOnDisk
  deriving DecidableEq, Repr

/-- `QWebEnginePermission::PermissionType`: `Unsupported` and the supported types, the
latter told apart by their enumerator value. -/
inductive PermissionType where
  | Unsupported
  | supported (value : Nat)
  deriving DecidableEq, Repr

/-- A `QWebEnginePermission` as listed by the permission store. -/
structure QWebEnginePermission where
  origin : QUrl
  permissionType : PermissionType
  granted : Bool
  deriving DecidableEq, Repr

/-- The `ProfileAdapter` as the permission listing functions use it: the policy getter
and `listPermissions(origin, permissionType)`. -/
structure ProfileAdapterPermissions where
  persistentPermissionsPolicy : PersistentPermissionsPolicy
  listPermissions : QUrl → PermissionType → List QWebEnginePermission

/-- Calls made on the profile adapter by `QWebEngineProfile`. -/
inductive ProfileAdapterCall where
  | persistentPermissionsPolicy
  | listPermissions (origin : QUrl) (permissionType : PermissionType)
  | acceptDownload (downloadId : Nat) (accepted : Bool) (useDownloadTargetCallback : Bool)
      (path : QString) (savePageFormat : Int)
  | removeDownload (downloadId : Nat)
  deriving DecidableEq, Repr

/-- Holds for the calls that read the permission store. -/
def ProfileAdapterCall.consultsPermissionStore : ProfileAdapterCall → Bool
  | .listPermissions .. => true
  | _ => false

namespace QWebEngineProfile

/-- `QWebEngineProfile::persistentPermissionsPolicy`, with the call it makes. -/
def persistentPermissionsPolicy (adapter : ProfileAdapterPermissions) :
    PersistentPermissionsPolicy × List ProfileAdapterCall :=
  (adapter.persistentPermissionsPolicy, [.persistentPermissionsPolicy])

/-- `QWebEngineProfile::listAllPermissions`; `listPermissions()` takes its default
arguments `QUrl()` and `Unsupported`. -/
def listAllPermissions (adapter : ProfileAdapterPermissions) :
    List QWebEnginePermission × List ProfileAdapterCall :=
  let (policy, calls) := persistentPermissionsPolicy adapter
  if policy = .AskEveryTime then
    ([], calls)
  else
    (adapter.listPermissions "" .Unsupported, calls ++ [.listPermissions "" .Unsupported])

/-- `QWebEngineProfile::listPermissionsForOrigin`. -/
def listPermissionsForOrigin (adapter : ProfileAdapterPermissions) (securityOrigin : QUrl) :
    List QWebEnginePermission × List ProfileAdapterCall :=
  let (policy, calls) := persistentPermissionsPolicy adapter
  if policy = .AskEveryTime then
    ([], calls)
  else
    (adapter.listPermissions securityOrigin .Unsupported,
      calls ++ [.listPermissions securityOrigin .Unsupported])

/-- `QWebEngineProfile::listPermissionsForPermissionType`; `isPersistent` is
`QWebEnginePermission::isPersistent`. -/
def listPermissionsForPermissionType (isPersistent : PermissionType → Bool)
    (adapter : ProfileAdapterPermissions) (permissionType : PermissionType) :
    List QWebEnginePermission × List ProfileAdapterCall :=
  let (policy, calls) := persistentPermissionsPolicy adapter
  if policy = .AskEveryTime then
    ([], calls)
  else if permissionType = .Unsupported then
    ([], calls)
  else if !isPersistent permissionType then
    ([], calls)
  else
    (adapter.listPermissions "" permissionType, calls ++ [.listPermissions "" permissionType])

end QWebEngineProfile

/-- A store holding one notification permission, under the store-on-disk policy. -/
def samplePermissionAdapter : ProfileAdapterPermissions :=
  { persistentPermissionsPolicy := .StoreOnDisk,
    listPermissions := fun origin permissionType =>
      [(⟨"https://qt.io", .supported 7, true⟩ : QWebEnginePermission)].filter
        (fun p => (origin == "" || p.origin == origin)
          && (permissionType == .Unsupported || p.permissionType == permissionType)) }

/-- Sample `isPersistent`: only type 7 is persistent. -/
def sampleIsPersistent : PermissionType → Bool
  | .supported 7 => true
  | _ => false

/-- A `QMap<quint32, T>`: entries in ascending key order, one per key. -/
abbrev QMap (α : Type) := List (Nat × α)

/-- `QMap::insert`: replace the value of an existing key, or add the key in order. -/
def QMap.insert {α : Type} : QMap α → Nat → α → QMap α
  | [], key, value => [(key, value)]
  | (k, v) :: rest, key, value =>
      if key < k then (key, value) :: (k, v) :: rest
      else if key = k then (key, value) :: rest
      else (k, v) :: QMap.insert rest key value

/-- `QMap::value`, with `none` for a missing key. -/
def QMap.value {α : Type} : QMap α → Nat → Option α
  | [], _ => none
  | (k, v) :: rest, key => if key = k then some v else QMap.value rest key

/-- `WebContentsAdapterClient::clientType()`. -/
inductive ClientType where
  | QmlClient | WidgetsClient
  deriving DecidableEq, Repr

/-- `QWebEngineDownloadRequest::DownloadState`. -/
inductive DownloadState where
  | DownloadRequested | DownloadInProgress | DownloadCompleted | DownloadCancelled
  | DownloadInterrupted
  deriving DecidableEq, Repr

/-- The fields of `DownloadItemInfo` that `downloadRequested` reads; `page` is the
client pointer (by identity) with its client type, `none` when null. -/
structure DownloadItemInfo where
  id : Nat
  accepted : Bool
  useDownloadTargetCallback : Bool
  path : QString
  savePageFormat : Int
  startTime : Int
  url : QUrl
  totalBytes : Int
  suggestedFileName : QString
  mimeType : QString
  isSavePageDownload : Bool
  page : Option (Nat × ClientType)
  deriving DecidableEq, Repr

/-- The fields of `QWebEngineDownloadRequestPrivate` set by `downloadRequested`. -/
structure QWebEngineDownloadRequestPrivate where
  downloadId : Nat
  downloadState : DownloadState
  startTime : Int
  downloadUrl : QUrl
  totalBytes : Int
  downloadDirectory : QString
  downloadFileName : QString
  suggestedFileName : QString
  mimeType : QString
  savePageFormat : Int
  isSavePageDownload : Bool
  useDownloadTargetCallback : Bool
  adapterClient : Option Nat
  deriving DecidableEq, Repr

/-- What `QWebEngineProfilePrivate::downloadRequested` does besides updating
`m_ongoingDownloads`. -/
inductive DownloadEffect where
  | adapter (call : ProfileAdapterCall)
  /-- `new QWebEngineDownloadRequest(itemPrivate, q)`. -/
  | newDownloadRequest (itemPrivate : QWebEngineDownloadRequestPrivate)
  /-- The connection of the request's `destroyed` signal to `downloadDestroyed(id)`. -/
  | connectDestroyed (id : Nat)
  /-- `Q_EMIT q->downloadRequested(download)`. -/
  | emitDownloadRequested (downloadId : Nat)
  /-- `itemPrivate->answer()`. -/
  | answer (downloadId : Nat)
  deriving DecidableEq, Repr

/-- Holds for the creation of a `QWebEngineDownloadRequest`. -/
def DownloadEffect.isNewDownloadRequest : DownloadEffect → Bool
  | .newDownloadRequest _ => true
  | _ => false

/-- `QFileInfo(path).path()` and `QFileInfo(path).fileName()`. -/
structure QFileInfoFns where
  path : QString → QString
  fileName : QString → QString

/-- `QWebEngineProfilePrivate`, the download registry. -/
structure QWebEngineProfilePrivate where
  m_ongoingDownloads : QMap QWebEngineDownloadRequestPrivate
  deriving DecidableEq, Repr

/-- `QWebEngineProfilePrivate::downloadRequested`; `receivers` is
`q->receivers(SIGNAL(downloadRequested(QWebEngineDownloadRequest *)))`.  The state
returned is the one the receivers of the signal find; the `Q_ASSERT` is compiled out in
release builds and is not modelled. -/
def QWebEngineProfilePrivate.downloadRequested (fileInfo : QFileInfoFns) (receivers : Nat)
    (self : QWebEngineProfilePrivate) (info : DownloadItemInfo) :
    QWebEngineProfilePrivate × List DownloadEffect :=
  if receivers = 0 then
    (self, [.adapter (.acceptDownload info.id info.accepted info.useDownloadTargetCallback
      info.path info.savePageFormat)])
  else
    let itemPrivate : QWebEngineDownloadRequestPrivate :=
      { downloadId := info.id,
        downloadState :=
          if info.accepted then .DownloadInProgress else .DownloadRequested,
        startTime := info.startTime,
        downloadUrl := info.url,
        totalBytes := info.totalBytes,
        downloadDirectory := fileInfo.path info.path,
        downloadFileName := fileInfo.fileName info.path,
        suggestedFileName := info.suggestedFileName,
        mimeType := info.mimeType,
        savePageFormat := info.savePageFormat,
        isSavePageDownload := info.isSavePageDownload,
        useDownloadTargetCallback := info.useDownloadTargetCallback,
        adapterClient :=
          match info.page with
          | some (page, .WidgetsClient) => some page
          | _ => none }
    let self := { self with
      m_ongoingDownloads := QMap.insert self.m_ongoingDownloads info.id itemPrivate }
    let answered :=
      if info.isSavePageDownload && info.accepted then [DownloadEffect.answer info.id] else []
    (self, [.newDownloadRequest itemPrivate, .connectDestroyed info.id,
      .emitDownloadRequested info.id] ++ answered)

/-- Sample `QFileInfo` functions for paths of the form `/tmp/<name>`. -/
def sampleFileInfo : QFileInfoFns :=
  { path := fun p => (p.take 4), fileName := fun p => p.drop 5 }

/-- A download that has not been accepted yet. -/
def sampleDownloadInfo : DownloadItemInfo :=
  { id := 3, accepted := false, useDownloadTargetCallback := false, path := "/tmp/a.zip",
    savePageFormat := -1, startTime := 0, url := "https://qt.io/a.zip", totalBytes := 100,
    suggestedFileName := "a.zip", mimeType := "application/zip", isSavePageDownload := false,
    page := some (1, .WidgetsClient) }

/-! ## `content_client_qt.cpp` -/

/-- The target platform selected by `Q_OS_OSX` / `Q_OS_WIN` / `Q_OS_LINUX` (and by
`BUILDFLAG(IS_MAC)` / `BUILDFLAG(IS_WIN)` for the CDM file name). -/
inductive TargetOS where
  | linux | osx | win | other
  deriving DecidableEq, Repr

/-- The build flags the CDM registration depends on. -/
structure CdmBuildConfig where
  os : TargetOS
  ENABLE_LIBRARY_CDMS : Bool
  ENABLE_WIDEVINE : Bool
  ENABLE_WIDEVINE_CDM_COMPONENT : Bool
  webengine_pepper_plugins : Bool
  /-- `Q_PROCESSOR_WORDSIZE == 8`, and `WIN64` on Windows. -/
  wordSize64 : Bool
  USE_PROPRIETARY_CODECS : Bool
  ENABLE_PLATFORM_HEVC : Bool
  deriving DecidableEq, Repr

/-- `WIDEVINE_CDM_AVAILABLE_NOT_COMPONENT` is defined. -/
def CdmBuildConfig.WIDEVINE_CDM_AVAILABLE_NOT_COMPONENT (cfg : CdmBuildConfig) : Bool :=
  cfg.ENABLE_LIBRARY_CDMS && (cfg.ENABLE_WIDEVINE && !cfg.ENABLE_WIDEVINE_CDM_COMPONENT)

/-- `kWidevineCdmFileName`. -/
def kWidevineCdmFileName (cfg : CdmBuildConfig) : String :=
  match cfg.os with
  | .osx => "widevinecdm.plugin"
  | .win => "widevinecdm.dll"
  | _ => "libwidevinecdm.so"

/-- The outcome of parsing a CDM hint file: not a dictionary, a dictionary without a
string `Path`, or the `Path`. -/
inductive HintJson where
  | notDict
  | noPath
  | path (widevineCdmDirPath : StdString)
  deriving DecidableEq, Repr

/-- The process and file system as the CDM lookup observes them. -/
structure CdmEnv where
  /-- `GetSwitchValueNative(switches::kCdmWidevinePath)`. -/
  widevine_argument : String
  /-- `GetSwitchValuePath(switches::kClearKeyCdmPathForTesting)`. -/
  clear_key_cdm_path : String
  /-- `base::PathExists`. -/
  PathExists : String → Bool
  /-- `QFileInfo::exists`. -/
  fileExists : QString → Bool
  /-- `QDir(path).exists()`. -/
  dirExists : QString → Bool
  /-- `QDir(path).entryInfoList(Dirs | NoDotAndDotDot, Name | Reversed)`. -/
  entryInfoList : QString → List QString
  /-- `QDir::absolutePath` and `QFileInfo::absoluteFilePath`. -/
  absolutePath : QString → QString
  homePath : QString
  separator : QString
  /-- `QLibraryInfo::path(QLibraryInfo::PluginsPath)`. -/
  pluginsPath : QString
  applicationDirPath : QString
  currentCpuArchitecture : QString
  /-- `getLocalAppDataDir()`. -/
  localAppDataDir : QString
  /-- `getProgramFilesDir(x86Dir)`. -/
  programFilesDir : Bool → QString
  /-- `base::ReadFileToString`; `none` when the file cannot be read. -/
  ReadFileToString : String → Option StdString
  /-- `JSONStringValueDeserializer` followed by `FindString("Path")`. -/
  Deserialize : StdString → HintJson
  toQt : String → QString
  toFilePath : QString → String
  fromStdString : StdString → QString
  /-- `media::GetCdmSupportedAudioCodecs()`. -/
  supportedAudioCodecs : List String

/-- `webenginePluginsPath()`, as computed on its first call. -/
def webenginePluginsPath (env : CdmEnv) : QString :=
  let potentialPluginsPath := env.pluginsPath ++ "/webengine"
  if !env.fileExists potentialPluginsPath then env.applicationDirPath
  else potentialPluginsPath

/-- `ppapiPluginsPath()`, as computed on its first call. -/
def ppapiPluginsPath (env : CdmEnv) : QString :=
  let potentialPluginsPath := env.pluginsPath ++ "/ppapi"
  if !env.fileExists potentialPluginsPath then env.applicationDirPath
  else potentialPluginsPath

/-- `widevineCdmDirHint`. -/
def widevineCdmDirHint (env : CdmEnv) (widevineDir : QString) : QString :=
  let hintFilePath :=
    env.absolutePath widevineDir ++ env.separator ++ "latest-component-updated-widevine-cdm"
  if !env.fileExists hintFilePath then widevineDir
  else
    match env.ReadFileToString (env.toFilePath hintFilePath) with
    | none => widevineDir
    | some jsonString =>
        match env.Deserialize jsonString with
        | .notDict => widevineDir
        | .noPath => widevineDir
        | .path widevineCdmDirPath => env.fromStdString widevineCdmDirPath

/-- The `Q_OS_OSX` part of the search list. -/
def widevineSearchPathsOsx (cfg : CdmBuildConfig) (env : CdmEnv) : List QString :=
  let potentialWidevineDir := "/Applications/Google Chrome.app/Contents/Frameworks"
  let archDir := if env.currentCpuArchitecture == "x86_64" then "mac_x64/" else "mac_arm64/"
  let libraryBase := "/Versions/Current/Libraries/WidevineCdm/_platform_specific/"
  let libraryFilename := "libwidevinecdm.dylib"
  let fromChrome :=
    if env.dirExists potentialWidevineDir then
      (env.entryInfoList potentialWidevineDir).map
        (fun info => env.absolutePath info ++ libraryBase ++ archDir ++ libraryFilename)
    else []
  let oldPotentialWidevineDir :=
    env.homePath ++ "/Library/Application Support/Google/Chrome/WidevineCDM"
  let fromOldChrome :=
    if env.dirExists oldPotentialWidevineDir then
      (env.entryInfoList oldPotentialWidevineDir).map
        (fun info =>
          env.absolutePath info ++ "/_platform_specific/" ++ archDir ++ kWidevineCdmFileName cfg)
    else []
  fromChrome ++ fromOldChrome

/-- The `Q_OS_WIN` part of the search list. -/
def widevineSearchPathsWin (cfg : CdmBuildConfig) (env : CdmEnv) : List QString :=
  let googleChromeDir := "/Google/Chrome/Application"
  let programFileDirs :=
    [env.programFilesDir false ++ googleChromeDir, env.programFilesDir true ++ googleChromeDir]
  let arch := if cfg.wordSize64 then "win_x64/" else "win_x86/"
  let fromProgramFiles :=
    programFileDirs.flatMap (fun dir =>
      if env.dirExists dir then
        (env.entryInfoList dir).map (fun info =>
          env.absolutePath info ++ ("/WidevineCdm/_platform_specific/" ++ arch)
            ++ kWidevineCdmFileName cfg)
      else [])
  let potentialWidevineDir := env.localAppDataDir ++ "/Google/Chrome/User Data/WidevineCDM"
  let fromUserData :=
    if env.dirExists potentialWidevineDir then
      (env.entryInfoList potentialWidevineDir).map (fun info =>
        env.absolutePath info ++ ("/_platform_specific/" ++ arch) ++ kWidevineCdmFileName cfg)
    else []
  fromProgramFiles ++ fromUserData

/-- The `Q_OS_LINUX` part of the search list. -/
def widevineSearchPathsLinux (cfg : CdmBuildConfig) (env : CdmEnv) : List QString :=
  let chromeWidevineDir := env.homePath ++ "/.config/google-chrome/WidevineCdm"
  let fromChrome :=
    if env.dirExists chromeWidevineDir then [widevineCdmDirHint env chromeWidevineDir] else []
  let firefoxPotentialProfilesDir := env.homePath ++ "/.mozilla/firefox"
  let fromFirefox :=
    if env.dirExists firefoxPotentialProfilesDir then
      ((env.entryInfoList firefoxPotentialProfilesDir).map
        (fun info => env.absolutePath info ++ "/gmp-widevinecdm")).filter env.dirExists
    else []
  let chromiumWidevineDir := env.homePath ++ "/.config/chromium/WidevineCdm"
  let fromChromium :=
    if env.dirExists chromiumWidevineDir then [widevineCdmDirHint env chromiumWidevineDir]
    else []
  let potentialWidevineVersionDirs := fromChrome ++ fromFirefox ++ fromChromium
  let library :=
    if cfg.wordSize64 then "/_platform_specific/linux_x64/libwidevinecdm.so"
    else "/_platform_specific/linux_x86/libwidevinecdm.so"
  let versioned :=
    potentialWidevineVersionDirs.flatMap (fun dir =>
      let widevineVersionDirs := env.absolutePath dir :: env.entryInfoList dir
      widevineVersionDirs.flatMap (fun info =>
        [env.absolutePath info ++ "/libwidevinecdm.so", env.absolutePath info ++ library]))
  let fixed :=
    ["/usr/lib/chromium/libwidevinecdm.so", "/usr/lib/chromium-browser/libwidevinecdm.so",
     "/usr/lib64/chromium/libwidevinecdm.so"]
    ++ (if cfg.wordSize64 then
          ["/usr/lib64/chromium-browser/WidevineCdm/_platform_specific/linux_x64/libwidevinecdm.so",
           "/opt/google/chrome/WidevineCdm/_platform_specific/linux_x64/libwidevinecdm.so"]
        else
          ["/usr/lib/chromium-browser/WidevineCdm/_platform_specific/linux_x86/libwidevinecdm.so",
           "/opt/google/chrome/WidevineCdm/_platform_specific/linux_x86/libwidevinecdm.so"])
    ++ ["/opt/google/chrome/libwidevinecdm.so"]
  versioned ++ fixed

/-- The platform search list: the `else` branch of `IsWidevineAvailable`. -/
def widevinePlatformSearchList (cfg : CdmBuildConfig) (env : CdmEnv) : List QString :=
  [webenginePluginsPath env ++ "/" ++ kWidevineCdmFileName cfg]
  ++ (if cfg.webengine_pepper_plugins then
        [ppapiPluginsPath env ++ "/" ++ kWidevineCdmFileName cfg]
      else [])
  ++ (match cfg.os with
      | .osx => widevineSearchPathsOsx cfg env
      | .win => widevineSearchPathsWin cfg env
      | .linux => widevineSearchPathsLinux cfg env
      | .other => [])

/-- The list `pluginPaths` built by `IsWidevineAvailable` before its search loop. -/
def widevinePluginPaths (cfg : CdmBuildConfig) (env : CdmEnv) : List QString :=
  if !env.widevine_argument.isEmpty then [env.toQt env.widevine_argument]
  else widevinePlatformSearchList cfg env

/-- `media::CdmCapability`, with sets kept as duplicate-free lists. -/
structure CdmCapability where
  video_codecs : List String
  audio_codecs : List String
  encryption_schemes : List String
  session_types : List String
  deriving DecidableEq, Repr

/-- Insertion into a set (`emplace` / `insert`): no effect when already present. -/
def setInsert (xs : List String) (x : String) : List String :=
  if x ∈ xs then xs else xs ++ [x]

/-- The body of the `if (base::PathExists(*cdm_path))` block. -/
def fillWidevineCapability (cfg : CdmBuildConfig) (env : CdmEnv) (capability : CdmCapability) :
    CdmCapability :=
  let video_codecs := setInsert capability.video_codecs "kVP8"
  let video_codecs := setInsert video_codecs "kVP9"
  let video_codecs := setInsert video_codecs "kAV1"
  let video_codecs :=
    if cfg.USE_PROPRIETARY_CODECS then setInsert video_codecs "kH264" else video_codecs
  let video_codecs :=
    if cfg.ENABLE_PLATFORM_HEVC then setInsert video_codecs "kHEVC" else video_codecs
  let encryption_schemes := setInsert capability.encryption_schemes "kCenc"
  let encryption_schemes := setInsert encryption_schemes "kCbcs"
  { video_codecs := video_codecs,
    audio_codecs := env.supportedAudioCodecs,
    encryption_schemes := encryption_schemes,
    session_types := setInsert capability.session_types "kTemporary" }

/-- The search loop of `IsWidevineAvailable` over the remaining `pluginPaths`: the
returned `bool`, `*cdm_path` and `*capability`. -/
def widevineSearch (cfg : CdmBuildConfig) (env : CdmEnv) :
    List QString → String → CdmCapability → Bool × String × CdmCapability
  | [], cdm_path, capability => (false, cdm_path, capability)
  | pluginPath :: rest, _, capability =>
      let cdm_path := env.toFilePath pluginPath
      if env.PathExists cdm_path then
        (true, cdm_path, fillWidevineCapability cfg env capability)
      else widevineSearch cfg env rest cdm_path capability

/-- `IsWidevineAvailable(&cdm_path, &capability)`. -/
def IsWidevineAvailable (cfg : CdmBuildConfig) (env : CdmEnv) (cdm_path : String)
    (capability : CdmCapability) : Bool × String × CdmCapability :=
  widevineSearch cfg env (widevinePluginPaths cfg env) cdm_path capability

/-- The key systems registered by `AddContentDecryptionModules`. -/
inductive KeySystem where
  | kWidevineKeySystem
  | kExternalClearKeyDifferentCdmTypeTestKeySystem
  | kExternalClearKeyKeySystem
  deriving DecidableEq, Repr

/-- `content::CdmInfo` (robustness is `kSoftwareSecure` in every registration). -/
structure CdmInfo where
  key_system : KeySystem
  capability : CdmCapability
  supports_sub_key_systems : Bool
  name : String
  type : String
  version : String
  path : String
  deriving DecidableEq, Repr

/-- `ContentClientQt::AddContentDecryptionModules`; `cdms` is `none` for a null
pointer. -/
def AddContentDecryptionModules (cfg : CdmBuildConfig) (env : CdmEnv)
    (cdms : Option (List CdmInfo)) : Option (List CdmInfo) :=
  match cdms with
  | none => none
  | some cdms =>
      let capability : CdmCapability := ⟨[], [], [], []⟩
      let cdms :=
        if cfg.WIDEVINE_CDM_AVAILABLE_NOT_COMPONENT then
          let (available, cdm_path, capability) := IsWidevineAvailable cfg env "" capability
          if available then
            cdms ++ [{ key_system := .kWidevineKeySystem, capability := capability,
                       supports_sub_key_systems := false, name := "kWidevineCdmDisplayName",
                       type := "kWidevineCdmType", version := "", path := cdm_path }]
          else cdms
        else cdms
      let cdms :=
        if cfg.ENABLE_LIBRARY_CDMS then
          let clear_key_cdm_path := env.clear_key_cdm_path
          if !clear_key_cdm_path.isEmpty && env.PathExists clear_key_cdm_path then
            let capability : CdmCapability :=
              ⟨[], [], ["kCenc", "kCbcs"], ["kTemporary", "kPersistentLicense"]⟩
            let cdms :=
              cdms ++ [{ key_system := .kExternalClearKeyDifferentCdmTypeTestKeySystem,
                         capability := capability, supports_sub_key_systems := false,
                         name := "kClearKeyCdmDisplayName",
                         type := "kClearKeyCdmDifferentCdmType", version := "0.1.0.0",
                         path := clear_key_cdm_path }]
            cdms ++ [{ key_system := .kExternalClearKeyKeySystem,
                       capability := capability, supports_sub_key_systems := true,
                       name := "kClearKeyCdmDisplayName", type := "kClearKeyCdmType",
                       version := "0.1.0.0", path := clear_key_cdm_path }]
          else cdms
        else cdms
      some cdms

/-- A Linux build with Widevine enabled as a non-component CDM. -/
def sampleCdmConfig : CdmBuildConfig :=
  { os := .linux, ENABLE_LIBRARY_CDMS := true, ENABLE_WIDEVINE := true,
    ENABLE_WIDEVINE_CDM_COMPONENT := false, webengine_pepper_plugins := false,
    wordSize64 := true, USE_PROPRIETARY_CODECS := false, ENABLE_PLATFORM_HEVC := false }

/-- A machine where only the Ubuntu Chromium copy of the CDM exists. -/
def sampleCdmEnv : CdmEnv :=
  { widevine_argument := "", clear_key_cdm_path := "",
    PathExists := fun p => p == "/usr/lib/chromium-browser/libwidevinecdm.so"
      || p == "/opt/google/chrome/libwidevinecdm.so",
    fileExists := fun _ => false, dirExists := fun _ => false,
    entryInfoList := fun _ => [], absolutePath := fun p => p, homePath := "/home/u",
    separator := "/", pluginsPath := "/usr/lib/qt6/plugins", applicationDirPath := "/opt/app",
    currentCpuArchitecture := "x86_64", localAppDataDir := "", programFilesDir := fun _ => "",
    ReadFileToString := fun _ => none, Deserialize := fun _ => .notDict,
    toQt := fun p => p, toFilePath := fun p => p, fromStdString := fun p => p,
    supportedAudioCodecs := ["kOpus", "kVorbis"] }

/-- Holds for a `CdmInfo` registered under the Widevine key system. -/
def CdmInfo.isWidevine (info : CdmInfo) : Bool :=
  match info.key_system with
  | .kWidevineKeySystem => true
  | _ => false

/-- The candidate `pluginPath` exists on disk, as tested by the search loop. -/
def candidateExists (env : CdmEnv) (pluginPath : QString) : Bool :=
  env.PathExists (env.toFilePath pluginPath)

/-! ## `printing/print_view_manager_qt.cpp`: what a request builds -/

/-- The value of `useCSSMargins` in `PrintToPDFInternal`: the
`PreferCSSMarginsForPrinting` attribute of the client's settings, `false` without a
client. -/
def PrintViewManagerQt.useCSSMargins (wc : WebContents) : Bool :=
  match wc.client with
  | some settings => settings.PreferCSSMarginsForPrinting
  | none => false

/-- The dictionary `PrintToPDFInternal` has stored in `m_printSettings` when it reaches
the `IsCrashed()` check, that is, for a page layout that passed the validity check. -/
def PrintViewManagerQt.builtPrintSettings (deps : PrintDeps) (wc : WebContents)
    (internalRequestId : Int) (pageLayout : QPageLayout) (pageRanges : QPageRanges)
    (printInColor : Bool) : Dict :=
  let printHeaderAndFooter :=
    match wc.client with
    | some settings => settings.PrintHeaderAndFooter
    | none => false
  let printSettings :=
    (createPrintSettingsFromQPageLayout deps internalRequestId pageLayout
      (PrintViewManagerQt.useCSSMargins wc)).1
  let printSettings :=
    Dict.Set printSettings .kSettingShouldPrintBackgrounds (.bool wc.should_print_backgrounds)
  let printSettings :=
    Dict.Set printSettings .kSettingColor
      (.int (if printInColor then deps.ColorModel_kColor else deps.ColorModel_kGrayscale))
  let printSettings :=
    if !pageRanges.isEmpty then
      Dict.Set printSettings .kSettingPageRange (.list (createPageRangeSettings pageRanges))
    else printSettings
  if printHeaderAndFooter then
    let printSettings := Dict.Set printSettings .kSettingHeaderFooterEnabled (.bool true)
    let printSettings := Dict.Set printSettings .kSettingHeaderFooterTitle (.string wc.title)
    Dict.Set printSettings .kSettingHeaderFooterURL (.string wc.formattedUrl)
  else printSettings

/-- The frame on which `PrintToPDFInternal` initiates the print preview; `none` in the
cases in which it returns `false`. -/
def PrintViewManagerQt.previewFrame (deps : PrintDeps) (wc : WebContents)
    (pageLayout : QPageLayout) (frameId : Nat) : Option RenderFrameHost :=
  if !pageLayout.isValid then none
  else if wc.IsCrashed then none
  else if frameId = deps.kInvalidFrameId then none
  else if frameId = deps.kUseMainFrameId then
    match wc.FindPdfChildFrame (wc.fullPagePlugin.getD wc.primaryMainFrame) with
    | some pdf_rfh => some pdf_rfh
    | none => some wc.primaryMainFrame
  else wc.frameTreeNode frameId

/-- Holds for the start of a print preview. -/
def PrintEffect.isInitiatePrintPreview : PrintEffect → Bool
  | .InitiatePrintPreview .. => true
  | _ => false

/-- Holds for a posted task that runs a callback of a print request. -/
def PrintEffect.isPostedCallback : PrintEffect → Bool
  | .postPrintCallback .. => true
  | .postSaveCallback .. => true
  | _ => false

/-- A page layout that fails `isValid()`. -/
def sampleInvalidPageLayout : QPageLayout :=
  { samplePageLayout with isValid := false }

/-- Web contents whose client prefers CSS margins. -/
def sampleCssWebContents : WebContents :=
  { sampleWebContents with
    client := some { PrintHeaderAndFooter := false, PreferCSSMarginsForPrinting := true } }

/-- The manager after a successful save-to-file request (callback 21) on the main
frame. -/
def samplePendingFileRun : PrintRun :=
  PrintViewManagerQt.PrintToPDFFileWithCallback samplePrintDeps sampleWebContents
    PrintViewManagerQt.init 0 samplePageLayout [] true "/tmp/out.pdf"
    samplePrintDeps.kUseMainFrameId (some 21)

/-- The manager after the in-memory request of `samplePendingRun` was cancelled by
`NavigationStopped` before the renderer answered: `resetPdfState` has cleared the print
settings, and `m_printPreviewRfh` still holds the frame of the cancelled request. -/
def sampleStoppedManager : PrintViewManagerQt :=
  (PrintViewManagerQt.NavigationStopped samplePendingRun.self
    samplePendingRun.internalRequestId).self

/-- The manager after the in-memory request of `samplePendingRun` ran to its end: the
renderer answered with `RequestPrintPreview`, which cleared `m_printPreviewRfh`, and the
document arrived in `MetafileReadyForPrinting`. -/
def sampleFinishedManager : PrintViewManagerQt :=
  match PrintViewManagerQt.RequestPrintPreview sampleWebContents samplePendingRun.self
      samplePendingRun.internalRequestId false with
  | some run =>
      (PrintViewManagerQt.MetafileReadyForPrinting run.self run.internalRequestId 1
        (some [37, 80, 68, 70])).self
  | none => samplePendingRun.self

/-! ## Thread assertions in `proxying_restricted_cookie_manager_qt.cpp` and
`content_settings_manager_qt.cpp` -/

/-- `content::BrowserThread::ID`: the UI thread and the IO thread. -/
inductive BrowserThread where
  | uiThread | ioThread
  deriving DecidableEq, Repr

/-- How a method run on a given thread ends, in a build with `DCHECK`s enabled: it
completes with a value, stops at a failed `DCHECK_CURRENTLY_ON(expected)` before doing
anything, or dereferences a null weak pointer. -/
inductive Checked (α : Type) where
  | done (value : α)
  | dcheckFailed (expected : BrowserThread)
  | nullDereference
  deriving DecidableEq, Repr

/-- `DCHECK_CURRENTLY_ON(expected)` as the first statement of a method whose remaining
body is `body`. -/
def DCHECK_CURRENTLY_ON {α : Type} (current expected : BrowserThread) (body : Checked α) :
    Checked α :=
  if current = expected then body else .dcheckFailed expected

/-- What the creation functions of the two mojo wrappers do. -/
inductive BindEffect where
  /-- `GetIOThreadTaskRunner({})->PostTask(...)` of
  `ContentSettingsManagerQt::CreateAndBindOnIoThread`. -/
  | postCreateAndBindOnIoThread (profileIoData : Nat) (receiver : Nat)
  /-- `GetIOThreadTaskRunner({})->PostTask(...)` of
  `ProxyingRestrictedCookieManagerQt::CreateAndBindOnIoThread`. -/
  | postProxyCreateAndBindOnIoThread (profileIoData : Nat) (underlying_rcm : Nat)
      (receiver : Nat)
  /-- `profileIoData->getWeakPtrOnIOThread()`. -/
  | getWeakPtrOnIOThread
  /-- `mojo::MakeSelfOwnedReceiver(wrapper, receiver)`. -/
  | MakeSelfOwnedReceiver (receiver : Nat)
  /-- `m_profile_io_data->canGetCookies(firstPartyUrl, url)`. -/
  | canGetCookies (firstPartyUrl : QUrl) (url : QUrl)
  /-- `std::move(callback).Run(allowed)` of `AllowStorageAccess`. -/
  | runAllowStorageAccessCallback (callback : CallbackId) (allowed : Bool)
  deriving DecidableEq, Repr

/-- The methods of `ProxyingRestrictedCookieManagerQt` between lines 24 and 161, each
with its thread assertion, run on the thread `current`. -/
inductive ProxyMethod where
  | GetAllForUrl (url : GURL) (site : SiteForCookies) (args : ForwardedArgs)
      (callback : CallbackId)
  | SetCanonicalCookie (cookie : String) (url : GURL) (site : SiteForCookies)
      (args : ForwardedArgs) (status : Nat) (callback : CallbackId)
  | AddChangeListener (url : GURL) (site : SiteForCookies) (args : ForwardedArgs)
      (listener : Nat) (callback : CallbackId)
  | SetCookieFromString (url : GURL) (site : SiteForCookies) (args : ForwardedArgs)
      (cookie : String) (callback : CallbackId)
  | GetCookiesString (url : GURL) (site : SiteForCookies) (args : ForwardedArgs)
      (callback : CallbackId)
  | CookiesEnabledFor (url : GURL) (site : SiteForCookies) (callback : CallbackId)
  deriving DecidableEq, Repr

namespace ProxyingRestrictedCookieManagerQt

/-- `ProxyingRestrictedCookieManagerQt::CreateAndBind` on the thread `current`. -/
def CreateAndBind (current : BrowserThread) (profileIoData : Nat) (underlying_rcm : Nat)
    (receiver : Nat) : Checked (List BindEffect) :=
  DCHECK_CURRENTLY_ON current .uiThread
    (.done [.postProxyCreateAndBindOnIoThread profileIoData underlying_rcm receiver])

/-- `ProxyingRestrictedCookieManagerQt::CreateAndBindOnIoThread` on the thread
`current` (the constructor it calls repeats the assertion). -/
def CreateAndBindOnIoThread (current : BrowserThread) (_profileIoData : Nat)
    (_underlying_rcm : Nat) (receiver : Nat) : Checked (List BindEffect) :=
  DCHECK_CURRENTLY_ON current .ioThread
    (.done [.getWeakPtrOnIOThread, .MakeSelfOwnedReceiver receiver])

/-- A mojo method of the proxy run on the thread `current`: the
`DCHECK_CURRENTLY_ON(content::BrowserThread::IO)` each of them starts with, then its
body. -/
def runOnThread (current : BrowserThread) (deps : CookieDeps)
    (self : ProxyingRestrictedCookieManagerQt) : ProxyMethod → Checked (List CookieEffect)
  | .GetAllForUrl url site args callback =>
      DCHECK_CURRENTLY_ON current .ioThread (.done (GetAllForUrl deps self url site args callback))
  | .SetCanonicalCookie cookie url site args status callback =>
      DCHECK_CURRENTLY_ON current .ioThread
        (.done (SetCanonicalCookie deps self cookie url site args status callback))
  | .AddChangeListener url site args listener callback =>
      DCHECK_CURRENTLY_ON current .ioThread
        (.done (AddChangeListener deps self url site args listener callback))
  | .SetCookieFromString url site args cookie callback =>
      DCHECK_CURRENTLY_ON current .ioThread
        (.done (SetCookieFromString deps self url site args cookie callback))
  | .GetCookiesString url site args callback =>
      DCHECK_CURRENTLY_ON current .ioThread
        (.done (GetCookiesString deps self url site args callback))
  | .CookiesEnabledFor url site callback =>
      DCHECK_CURRENTLY_ON current .ioThread (.done (CookiesEnabledFor deps self url site callback))

end ProxyingRestrictedCookieManagerQt

/-- `ContentSettingsManagerQt`: `m_profile_io_data` is a weak pointer, `none` once the
profile IO data has been destroyed. -/
structure ContentSettingsManagerQt where
  m_profile_io_data : Option ProfileIODataQt

namespace ContentSettingsManagerQt

/-- `ContentSettingsManagerQt::Create` on the thread `current`. -/
def Create (current : BrowserThread) (profile_io_data : Nat) (receiver : Nat) :
    Checked (List BindEffect) :=
  DCHECK_CURRENTLY_ON current .uiThread
    (.done [.postCreateAndBindOnIoThread profile_io_data receiver])

/-- `ContentSettingsManagerQt::CreateAndBindOnIoThread` on the thread `current`: the
body has no thread assertion (nor has the constructor it calls). -/
def CreateAndBindOnIoThread (_current : BrowserThread) (_profile_io_data : Nat)
    (receiver : Nat) : Checked (List BindEffect) :=
  .done [.getWeakPtrOnIOThread, .MakeSelfOwnedReceiver receiver]

/-- `ContentSettingsManagerQt::Clone` on the thread `current`. -/
def Clone (current : BrowserThread) (self : ContentSettingsManagerQt) (receiver : Nat) :
    Checked (List BindEffect) :=
  DCHECK_CURRENTLY_ON current .ioThread
    (match self.m_profile_io_data with
     | none => .nullDereference
     | some _ => .done [.getWeakPtrOnIOThread, .MakeSelfOwnedReceiver receiver])

/-- `ContentSettingsManagerQt::AllowStorageAccess` on the thread `current`. -/
def AllowStorageAccess (current : BrowserThread) (deps : CookieDeps)
    (self : ContentSettingsManagerQt) (origin : GURL) (top_frame_origin : GURL)
    (callback : CallbackId) : Checked (List BindEffect) :=
  DCHECK_CURRENTLY_ON current .ioThread
    (match self.m_profile_io_data with
     | none => .nullDereference
     | some profile_io_data =>
         let allowed :=
           profile_io_data.canGetCookies (deps.toQt top_frame_origin) (deps.toQt origin)
         .done [.canGetCookies (deps.toQt top_frame_origin) (deps.toQt origin),
                .runAllowStorageAccessCallback callback allowed])

/-- `ContentSettingsManagerQt::OnContentBlocked`: an empty body. -/
def OnContentBlocked (_current : BrowserThread) : Checked (List BindEffect) :=
  .done []

end ContentSettingsManagerQt

/-! ## `clipboard_qt.cpp`: `ReadHTML` -/

/-- `ui::ClipboardBuffer`. -/
inductive ClipboardBuffer where
  | kCopyPaste | kSelection | kDrag
  deriving DecidableEq, Repr

/-- `QClipboard::Mode`, as far as used here. -/
inductive QClipboardMode where
  | Clipboard | Selection
  deriving DecidableEq, Repr

/-- A `std::u16string`: its UTF-16 code units. -/
abbrev U16String := List Nat

/-- A `std::string` as bytes. -/
abbrev ByteString := List Nat

/-- The part of `QMimeData` that `ReadHTML` reads. -/
structure QMimeData where
  html : QString
  deriving DecidableEq, Repr

/-- The outputs of `CFHtmlExtractMetadata`: the base URL it found, if any, and the
three offsets, each `std::string::npos` when not found. -/
structure CFHtmlMetadata where
  base_url : Option StdString
  html_start : Nat
  start_index : Nat
  end_index : Nat
  deriving DecidableEq, Repr

/-- Build options and library functions used by `ReadHTML`: `Q_OS_WIN`, `toString16`,
`QString::toStdString`, `std::string::npos`, `CFHtmlExtractMetadata` and
`base::UTF8ToUTF16AndAdjustOffsets` (on the two offsets passed). -/
structure ClipboardDeps where
  Q_OS_WIN : Bool
  toString16 : QString → U16String
  toStdString : QString → ByteString
  npos : Nat
  CFHtmlExtractMetadata : ByteString → CFHtmlMetadata
  UTF8ToUTF16AndAdjustOffsets : ByteString → Nat × Nat → U16String × (Nat × Nat)

/-- The out-parameters of `ReadHTML` when it returns; `src_url` is `none` when the
caller passed a null pointer. -/
structure ReadHTMLOut where
  markup : U16String
  src_url : Option StdString
  fragment_start : Nat
  fragment_end : Nat
  deriving DecidableEq, Repr

/-- How a call of `ReadHTML` ends: it returns, a `base::checked_cast` aborts the
process, or it reads `cf_html` past its end. -/
inductive ReadHTMLEnd where
  | returned (out : ReadHTMLOut)
  | checkedCastFailed
  | outOfBoundsRead
  deriving DecidableEq, Repr

/-- `static_cast<uint32_t>` of a `size_t`. -/
def static_cast_uint32 (x : Nat) : Nat := x % 2 ^ 32

/-- `base::checked_cast<uint32_t>` of a `size_t`: `none` when the value does not fit. -/
def checked_cast_uint32 (x : Nat) : Option Nat :=
  if x < 2 ^ 32 then some x else none

/-- The NUL-terminated string that starts `offset` bytes into `data()` of a
`std::string`; `none` when the offset lies past the terminating NUL. -/
def cStringAt (s : ByteString) (offset : Nat) : Option ByteString :=
  if offset ≤ s.length then some ((s.drop offset).takeWhile (fun b => b != 0)) else none

/-- `ClipboardQt::ReadHTML`; `clipboard` is `QGuiApplication::clipboard()->mimeData(mode)`
and `src_url` the previous content of `*src_url`, `none` for a null pointer. -/
def ClipboardQt.ReadHTML (deps : ClipboardDeps) (clipboard : QClipboardMode → Option QMimeData)
    (type : ClipboardBuffer) (src_url : Option StdString) : ReadHTMLEnd :=
  let markup : U16String := []
  let src_url := src_url.map (fun _ => "")
  let fragment_start := 0
  let fragment_end := 0
  match clipboard (if type = .kCopyPaste then .Clipboard else .Selection) with
  | none => .returned ⟨markup, src_url, fragment_start, fragment_end⟩
  | some mimeData =>
      if !deps.Q_OS_WIN then
        let markup := deps.toString16 mimeData.html
        let fragment_end := static_cast_uint32 markup.length
        .returned ⟨markup, src_url, fragment_start, fragment_end⟩
      else
        let cf_html := deps.toStdString mimeData.html
        let found := deps.CFHtmlExtractMetadata cf_html
        let src_url :=
          match src_url, found.base_url with
          | some _, some url => some url
          | other, _ => other
        if found.start_index = deps.npos || found.end_index = deps.npos
            || found.html_start = deps.npos then
          .returned ⟨markup, src_url, fragment_start, fragment_end⟩
        else if found.start_index < found.html_start
            || found.end_index < found.start_index then
          .returned ⟨markup, src_url, fragment_start, fragment_end⟩
        else
          match cStringAt cf_html found.html_start with
          | none => .outOfBoundsRead
          | some utf8 =>
              let (converted, offsets) :=
                deps.UTF8ToUTF16AndAdjustOffsets utf8
                  (found.start_index - found.html_start, found.end_index - found.html_start)
              let markup := converted
              let «end» := min offsets.2 markup.length
              match checked_cast_uint32 (min offsets.1 «end») with
              | none => .checkedCastFailed
              | some fragment_start =>
                  match checked_cast_uint32 «end» with
                  | none => .checkedCastFailed
                  | some fragment_end =>
                      .returned ⟨markup, src_url, fragment_start, fragment_end⟩

/-- The value of `*src_url` when the Windows branch of `ReadHTML` ends: the base URL
that `CFHtmlExtractMetadata` wrote through a non-null pointer, else the cleared string. -/
def ClipboardQt.srcUrlOut (src_url : Option StdString) (found : CFHtmlMetadata) :
    Option StdString :=
  match src_url.map (fun _ => ""), found.base_url with
  | some _, some url => some url
  | other, _ => other

/-- The test of the Windows branch that lets `ReadHTML` go on to the conversion:
`CFHtmlExtractMetadata` found all three offsets (none is `npos`) and
`html_start <= start_index <= end_index`. -/
def ClipboardQt.fragmentFound (deps : ClipboardDeps) (found : CFHtmlMetadata) : Bool :=
  !(found.start_index = deps.npos || found.end_index = deps.npos
      || found.html_start = deps.npos)
    && !(found.start_index < found.html_start || found.end_index < found.start_index)

/-- The result of `base::UTF8ToUTF16AndAdjustOffsets` in the Windows branch: the markup
and the adjusted `offsets[0]`, `offsets[1]`. -/
def ClipboardQt.converted (deps : ClipboardDeps) (utf8 : ByteString) (found : CFHtmlMetadata) :
    U16String × (Nat × Nat) :=
  deps.UTF8ToUTF16AndAdjustOffsets utf8
    (found.start_index - found.html_start, found.end_index - found.html_start)

/-- The local `end` of the Windows branch: `std::min(offsets[1], markup->length())`. -/
def ClipboardQt.fragmentEnd (deps : ClipboardDeps) (utf8 : ByteString) (found : CFHtmlMetadata) :
    Nat :=
  min (ClipboardQt.converted deps utf8 found).2.2 (ClipboardQt.converted deps utf8 found).1.length

/-- Sample non-Windows build; code units are taken from the characters one to one,
which is exact for the ASCII text used with it. -/
def sampleClipboardDeps : ClipboardDeps :=
  { Q_OS_WIN := false,
    toString16 := fun q => q.data.map Char.toNat,
    toStdString := fun q => q.data.map Char.toNat,
    npos := 2 ^ 64 - 1,
    CFHtmlExtractMetadata := fun _ => ⟨none, 2 ^ 64 - 1, 2 ^ 64 - 1, 2 ^ 64 - 1⟩,
    UTF8ToUTF16AndAdjustOffsets := fun s offsets => (s, offsets) }

/-- HTML text of 2^32 characters. -/
def sampleHugeHtml : QString :=
  String.mk (List.replicate 4294967296 'a')

/-- A clipboard holding `sampleHugeHtml`. -/
def sampleHugeClipboard : QClipboardMode → Option QMimeData :=
  fun _ => some ⟨sampleHugeHtml⟩

/-- A clipboard holding a short fragment. -/
def sampleClipboard : QClipboardMode → Option QMimeData :=
  fun _ => some ⟨"<b>hi</b>"⟩

/-- Sample Windows build; its `CFHtmlExtractMetadata` takes the whole clipboard text as
the HTML and as the fragment. -/
def sampleWindowsDeps : ClipboardDeps :=
  { sampleClipboardDeps with
    Q_OS_WIN := true,
    CFHtmlExtractMetadata := fun cf_html => ⟨none, 0, 0, cf_html.length⟩ }

/-! ## Accessibility tree exposed for web content (`browser_accessibility_qt.h`,
`tst_accessibility.cpp`) -/

/-- The `QAccessible::Role` values the tests look at. -/
inductive AccessibleRole where
  | Client | WebDocument | Grouping | StaticText | EditableText | Paragraph | Other
  deriving DecidableEq, Repr

/-- Modelled from the spec: a node of "the host engine's accessibility tree".  Missing
from the sources is `browser_accessibility_qt.cpp`, the implementation behind
`ui::toQAccessibleInterface`.  A node has a role, the frame whose document it belongs
to, and its children in order; the only child of an iframe element is the document of
the frame it embeds. -/
inductive AccessibilityNode where
  | node (role : AccessibleRole) (frame : Nat) (children : List AccessibilityNode)

/-- The children of a node, in order. -/
def AccessibilityNode.children : AccessibilityNode → List AccessibilityNode
  | .node _ _ children => children

/-- The frame a node belongs to. -/
def AccessibilityNode.frame : AccessibilityNode → Nat
  | .node _ frame _ => frame

/-- The role of a node. -/
def AccessibilityNode.role : AccessibilityNode → AccessibleRole
  | .node role _ _ => role

/-- Modelled from the spec: a `QAccessibleInterface` of the tree "exposed through the
toolkit's accessibility interfaces", identified by the child indices that lead to its
node from the view; the empty list is the interface of the view itself.  Missing from
the sources is the interface class of `browser_accessibility_qt.cpp`. -/
abbrev QAccessibleInterface := List Nat

/-- The node an interface stands for; `none` when there is no such node. -/
def AccessibilityNode.nodeAt (view : AccessibilityNode) :
    QAccessibleInterface → Option AccessibilityNode
  | [] => some view
  | i :: rest =>
      match view.children[i]? with
      | some c => c.nodeAt rest
      | none => none

namespace QAccessibleInterface

/-- Modelled from the spec: `childCount()` as part of the "thin query API" over the
tree; the implementation is missing from the sources. -/
def childCount (view : AccessibilityNode) (n : QAccessibleInterface) : Int :=
  match view.nodeAt n with
  | some node => node.children.length
  | none => 0

/-- Modelled from the spec: `child(index)` as part of the "thin query API" over the
tree, `none` for a null result; the implementation is missing from the sources. -/
def child (view : AccessibilityNode) (n : QAccessibleInterface) (index : Int) :
    Option QAccessibleInterface :=
  if 0 ≤ index ∧ index < childCount view n then some (n ++ [index.toNat]) else none

/-- Modelled from the spec: `parent()` as part of the "thin query API" over the tree;
the parent of the view lies outside the web content (`none` here).  The implementation
is missing from the sources. -/
def parent (n : QAccessibleInterface) : Option QAccessibleInterface :=
  if n = [] then none else some n.dropLast

/-- Modelled from the spec: `indexOfChild(child)` as part of the "thin query API" over
the tree, `-1` when `c` is not a child of `n`; the implementation is missing from the
sources. -/
def indexOfChild (view : AccessibilityNode) (n c : QAccessibleInterface) : Int :=
  match c.getLast? with
  | some k => if c.dropLast = n ∧ (view.nodeAt c).isSome then (k : Int) else -1
  | none => -1

/-- The interfaces reachable from the view by repeated `child` calls. -/
inductive Reachable (view : AccessibilityNode) : QAccessibleInterface → Prop where
  | view : Reachable view []
  | child (n c : QAccessibleInterface) (index : Int) :
      Reachable view n → QAccessibleInterface.child view n index = some c → Reachable view c

end QAccessibleInterface

/-- The page of `tst_Accessibility::hierarchy`: view, document, grouping, and below it
a static text and a text input. -/
def sampleHierarchyView : AccessibilityNode :=
  .node .Client 0
    [.node .WebDocument 0
      [.node .Grouping 0 [.node .StaticText 0 [], .node .EditableText 0 []]]]

/-- The page of `tst_Accessibility::crossTreeParent`: the iframe element at position
`[0, 0, 0]` belongs to frame 0, the document below it and its paragraph to frame 1. -/
def sampleCrossTreeView : AccessibilityNode :=
  .node .Client 0
    [.node .WebDocument 0
      [.node .Grouping 0
        [.node .WebDocument 0
          [.node .WebDocument 1 [.node .Paragraph 1 []]]]]]

/-! # Theorems -/

/-! ### Cookie proxy -/

/-- C1: whenever `allowCookies(url, site_for_cookies)` is false, `GetAllForUrl`,
`SetCanonicalCookie`, `SetCookieFromString` and `GetCookiesString` each perform exactly
one effect, namely running their own callback with the empty/negative result (empty
cookie list, `false`, no value, and `(kInvalidCookieVersion, empty region, "")`); in
particular no effect is a call on the underlying manager and the callback runs exactly
once.  A destroyed profile IO data always makes `allowCookies` false. -/
theorem C1_blocked_cookie_access_answers_locally (deps : CookieDeps)
    (self : ProxyingRestrictedCookieManagerQt) (url : GURL) (site : SiteForCookies)
    (args : ForwardedArgs) (cookie : String) (status : Nat) (cb : CallbackId)
    (hblocked : ProxyingRestrictedCookieManagerQt.allowCookies deps self url site = false) :
    (ProxyingRestrictedCookieManagerQt.GetAllForUrl deps self url site args cb
          = [.runGetAllForUrlCallback cb []]
      ∧ ProxyingRestrictedCookieManagerQt.SetCanonicalCookie deps self cookie url site args
            status cb
          = [.runSetCanonicalCookieCallback cb false]
      ∧ ProxyingRestrictedCookieManagerQt.SetCookieFromString deps self url site args cookie cb
          = [.runSetCookieFromStringCallback cb]
      ∧ ProxyingRestrictedCookieManagerQt.GetCookiesString deps self url site args cb
          = [.runGetCookiesStringCallback cb deps.kInvalidCookieVersion none ""])
    ∧ (∀ effects ∈
          [ProxyingRestrictedCookieManagerQt.GetAllForUrl deps self url site args cb,
           ProxyingRestrictedCookieManagerQt.SetCanonicalCookie deps self cookie url site args
             status cb,
           ProxyingRestrictedCookieManagerQt.SetCookieFromString deps self url site args cookie
             cb,
           ProxyingRestrictedCookieManagerQt.GetCookiesString deps self url site args cb],
        (∀ e ∈ effects, e.isUnderlyingCall = false)
          ∧ (effects.filter (CookieEffect.runsCallback cb)).length = 1)
    ∧ (∀ (u : GURL) (s : SiteForCookies),
        ProxyingRestrictedCookieManagerQt.allowCookies deps { m_profileIoData := none } u s
          = false) := by
  refine ⟨?_, ?_, ?_⟩
  · simp [ProxyingRestrictedCookieManagerQt.GetAllForUrl,
      ProxyingRestrictedCookieManagerQt.SetCanonicalCookie,
      ProxyingRestrictedCookieManagerQt.SetCookieFromString,
      ProxyingRestrictedCookieManagerQt.GetCookiesString, hblocked]
  · intro effects heff
    simp only [List.mem_cons, List.mem_singleton, List.not_mem_nil, or_false] at heff
    rcases heff with h | h | h | h <;> subst h <;>
      simp [ProxyingRestrictedCookieManagerQt.GetAllForUrl,
        ProxyingRestrictedCookieManagerQt.SetCanonicalCookie,
        ProxyingRestrictedCookieManagerQt.SetCookieFromString,
        ProxyingRestrictedCookieManagerQt.GetCookiesString, hblocked,
        CookieEffect.isUnderlyingCall, CookieEffect.runsCallback]
  · intro u s
    rfl

/-- C1 witness: a blocked URL on a live profile. -/
theorem C1_blocked_cookie_access_answers_locally_witness :
    ProxyingRestrictedCookieManagerQt.allowCookies sampleCookieDeps sampleCookieProxy
        "https://blocked.example/" ⟨"https://top.example/"⟩ = false
    ∧ ProxyingRestrictedCookieManagerQt.GetAllForUrl sampleCookieDeps sampleCookieProxy
        "https://blocked.example/" ⟨"https://top.example/"⟩ sampleForwardedArgs 7
        = [.runGetAllForUrlCallback 7 []] :=
  ⟨by decide,
   (C1_blocked_cookie_access_answers_locally sampleCookieDeps sampleCookieProxy
      "https://blocked.example/" ⟨"https://top.example/"⟩ sampleForwardedArgs "a=b" 0 7
      (by decide)).1.1⟩

/-! ### Print manager -/

theorem Dict.Set_ne_nil (d : Dict) (k : SettingKey) (v : Value) : Dict.Set d k v ≠ [] := by
  cases d with
  | nil => simp [Dict.Set]
  | cons hd tl =>
      obtain ⟨k', v'⟩ := hd
      simp only [Dict.Set]
      split <;> simp

theorem Dict.empty_Set (d : Dict) (k : SettingKey) (v : Value) :
    Dict.empty (Dict.Set d k v) = false := by
  have h := Dict.Set_ne_nil d k v
  cases hd : Dict.Set d k v with
  | nil => exact absurd hd h
  | cons _ _ => rfl

theorem createPrintSettingsFromQPageLayout_not_empty (deps : PrintDeps) (n : Int)
    (pageLayout : QPageLayout) (useCSSMargins : Bool) :
    Dict.empty (createPrintSettingsFromQPageLayout deps n pageLayout useCSSMargins).1 = false := by
  simp only [createPrintSettingsFromQPageLayout]
  exact Dict.empty_Set _ _ _

/-- What `PrintToPDFInternal` does, case by case. -/
theorem PrintToPDFInternal_spec (deps : PrintDeps) (wc : WebContents)
    (self : PrintViewManagerQt) (n : Int) (pageLayout : QPageLayout) (pageRanges : QPageRanges)
    (printInColor : Bool) (frameId : Nat) :
    let r := PrintViewManagerQt.PrintToPDFInternal deps wc self n pageLayout pageRanges
      printInColor frameId
    r.2.self.m_pdfOutputPath = self.m_pdfOutputPath
      ∧ r.2.self.m_pdfPrintCallback = self.m_pdfPrintCallback
      ∧ r.2.self.m_pdfSaveCallback = self.m_pdfSaveCallback
      ∧ (r.1 = false ↔ cannotStart deps wc pageLayout frameId)
      ∧ (r.1 = false → r.2.effects = [] ∧ r.2.self.m_printPreviewRfh = self.m_printPreviewRfh)
      ∧ (r.1 = true → Dict.empty r.2.self.m_printSettings = false
            ∧ ∃ rfh, r.2.effects = [.InitiatePrintPreview rfh false]
                ∧ r.2.self.m_printPreviewRfh = some rfh) := by
  intro r
  cases hv : pageLayout.isValid
  · simp [r, PrintViewManagerQt.PrintToPDFInternal, hv, cannotStart]
  · cases hc : wc.IsCrashed
    · by_cases hi : frameId = deps.kInvalidFrameId
      · simp [r, PrintViewManagerQt.PrintToPDFInternal, hv, hc, hi, cannotStart]
      · by_cases hm : frameId = deps.kUseMainFrameId
        · cases hp : wc.FindPdfChildFrame (wc.fullPagePlugin.getD wc.primaryMainFrame) <;>
            simp [r, PrintViewManagerQt.PrintToPDFInternal, hv, hc, hi, hm, hp, cannotStart] <;>
            (try simp [← hm, hi]) <;>
            (split <;> try split) <;> exact Dict.empty_Set _ _ _
        · cases hf : wc.frameTreeNode frameId with
          | none =>
              simp [r, PrintViewManagerQt.PrintToPDFInternal, hv, hc, hi, hm, hf, cannotStart]
          | some rfh =>
              simp [r, PrintViewManagerQt.PrintToPDFInternal, hv, hc, hi, hm, hf, cannotStart]
              (split <;> try split) <;> exact Dict.empty_Set _ _ _
    · simp [r, PrintViewManagerQt.PrintToPDFInternal, hv, hc, cannotStart]

theorem PrintViewManagerQt.isIdle_resetPdfState (self : PrintViewManagerQt) :
    (PrintViewManagerQt.resetPdfState self).isIdle := by
  simp [PrintViewManagerQt.isIdle, PrintViewManagerQt.resetPdfState, Dict.empty]

/-- An idle manager starts a request that can start. -/
theorem PrintViewManagerQt.acceptsNextRequest_of_empty (deps : PrintDeps)
    (self : PrintViewManagerQt) (h : Dict.empty self.m_printSettings = true) :
    self.acceptsNextRequest deps := by
  intro wc n pageLayout pageRanges printInColor frameId cb hstart
  have hs := PrintToPDFInternal_spec deps wc { self with m_pdfPrintCallback := some cb } n
    pageLayout pageRanges printInColor frameId
  simp only at hs
  obtain ⟨-, -, -, hiff, -, hok⟩ := hs
  simp only [PrintViewManagerQt.PrintToPDFWithCallback, h, Bool.not_true, Bool.false_eq_true,
    if_false]
  cases hr : (PrintViewManagerQt.PrintToPDFInternal deps wc
      { self with m_pdfPrintCallback := some cb } n pageLayout pageRanges printInColor
      frameId).1 with
  | false => exact absurd (hiff.mp hr) hstart
  | true =>
      obtain ⟨-, rfh, he, -⟩ := hok hr
      exact ⟨rfh, by simpa using he⟩

/-- A failing `PrintToPDFFileWithCallback` on a manager with empty settings. -/
theorem PrintToPDFFileWithCallback_fails (deps : PrintDeps) (wc : WebContents)
    (self : PrintViewManagerQt) (n : Int) (pageLayout : QPageLayout) (pageRanges : QPageRanges)
    (printInColor : Bool) (filePath : String) (frameId : Nat) (cb : CallbackId)
    (hempty : Dict.empty self.m_printSettings = true) (hpath : filePath.length ≠ 0)
    (hfail : cannotStart deps wc pageLayout frameId) :
    (PrintViewManagerQt.PrintToPDFFileWithCallback deps wc self n pageLayout pageRanges
        printInColor filePath frameId (some cb)).effects = [.postSaveCallback (some cb) false]
      ∧ (PrintViewManagerQt.PrintToPDFFileWithCallback deps wc self n pageLayout pageRanges
        printInColor filePath frameId (some cb)).self.isIdle := by
  have hs := PrintToPDFInternal_spec deps wc
    { self with m_pdfOutputPath := deps.toFilePath filePath, m_pdfSaveCallback := some cb } n
    pageLayout pageRanges printInColor frameId
  simp only at hs
  obtain ⟨-, -, hsave, hiff, hno, -⟩ := hs
  have hr := hiff.mpr hfail
  obtain ⟨he, -⟩ := hno hr
  simp only [PrintViewManagerQt.PrintToPDFFileWithCallback, hempty, Bool.not_true,
    Bool.false_or, beq_iff_eq, hpath, if_false, hr, he, hsave, List.nil_append]
  exact ⟨by simp, PrintViewManagerQt.isIdle_resetPdfState _⟩

/-- A failing `PrintToPDFWithCallback` on a manager with empty settings. -/
theorem PrintToPDFWithCallback_fails (deps : PrintDeps) (wc : WebContents)
    (self : PrintViewManagerQt) (n : Int) (pageLayout : QPageLayout) (pageRanges : QPageRanges)
    (printInColor : Bool) (frameId : Nat) (cb : CallbackId)
    (hempty : Dict.empty self.m_printSettings = true)
    (hfail : cannotStart deps wc pageLayout frameId) :
    (PrintViewManagerQt.PrintToPDFWithCallback deps wc self n pageLayout pageRanges
        printInColor frameId (some cb)).effects = [.postPrintCallback (some cb) none]
      ∧ (PrintViewManagerQt.PrintToPDFWithCallback deps wc self n pageLayout pageRanges
        printInColor frameId (some cb)).self.isIdle := by
  have hs := PrintToPDFInternal_spec deps wc { self with m_pdfPrintCallback := some cb } n
    pageLayout pageRanges printInColor frameId
  simp only at hs
  obtain ⟨-, hprint, -, hiff, hno, -⟩ := hs
  have hr := hiff.mpr hfail
  obtain ⟨he, -⟩ := hno hr
  simp only [PrintViewManagerQt.PrintToPDFWithCallback, hempty, Bool.not_true,
    Bool.false_eq_true, if_false, hr, he, hprint, List.nil_append]
  exact ⟨by simp, PrintViewManagerQt.isIdle_resetPdfState _⟩

/-- Either request leaves the manager with pending settings or idle. -/
theorem PrintToPDFFileWithCallback_preserves (deps : PrintDeps) (wc : WebContents)
    (self : PrintViewManagerQt) (n : Int) (pageLayout : QPageLayout) (pageRanges : QPageRanges)
    (printInColor : Bool) (filePath : String) (frameId : Nat) (callback : Option CallbackId)
    (hinv : Dict.empty self.m_printSettings = true → self.isIdle) :
    Dict.empty (PrintViewManagerQt.PrintToPDFFileWithCallback deps wc self n pageLayout
        pageRanges printInColor filePath frameId callback).self.m_printSettings = true →
      (PrintViewManagerQt.PrintToPDFFileWithCallback deps wc self n pageLayout pageRanges
        printInColor filePath frameId callback).self.isIdle := by
  cases callback with
  | none => simpa [PrintViewManagerQt.PrintToPDFFileWithCallback] using hinv
  | some cb =>
      cases hempty : Dict.empty self.m_printSettings with
      | false => simp [PrintViewManagerQt.PrintToPDFFileWithCallback, hempty]
      | true =>
          by_cases hpath : filePath.length = 0
          · simpa [PrintViewManagerQt.PrintToPDFFileWithCallback, hempty, hpath] using hinv
          · by_cases hfail : cannotStart deps wc pageLayout frameId
            · intro _
              exact (PrintToPDFFileWithCallback_fails deps wc self n pageLayout pageRanges
                printInColor filePath frameId cb hempty hpath hfail).2
            · intro hafter
              have hs := PrintToPDFInternal_spec deps wc
                { self with m_pdfOutputPath := deps.toFilePath filePath,
                            m_pdfSaveCallback := some cb } n
                pageLayout pageRanges printInColor frameId
              simp only at hs
              obtain ⟨-, -, -, hiff, -, hok⟩ := hs
              cases hr : (PrintViewManagerQt.PrintToPDFInternal deps wc
                  { self with m_pdfOutputPath := deps.toFilePath filePath,
                              m_pdfSaveCallback := some cb } n
                  pageLayout pageRanges printInColor frameId).1 with
              | false => exact absurd (hiff.mp hr) hfail
              | true =>
                  have hne := (hok hr).1
                  simp only [PrintViewManagerQt.PrintToPDFFileWithCallback, hempty,
                    Bool.not_true, Bool.false_or, beq_iff_eq, hpath, if_false, hr] at hafter
                  simp [hne] at hafter

theorem PrintToPDFWithCallback_preserves (deps : PrintDeps) (wc : WebContents)
    (self : PrintViewManagerQt) (n : Int) (pageLayout : QPageLayout) (pageRanges : QPageRanges)
    (printInColor : Bool) (frameId : Nat) (callback : Option CallbackId)
    (hinv : Dict.empty self.m_printSettings = true → self.isIdle) :
    Dict.empty (PrintViewManagerQt.PrintToPDFWithCallback deps wc self n pageLayout
        pageRanges printInColor frameId callback).self.m_printSettings = true →
      (PrintViewManagerQt.PrintToPDFWithCallback deps wc self n pageLayout pageRanges
        printInColor frameId callback).self.isIdle := by
  cases callback with
  | none => simpa [PrintViewManagerQt.PrintToPDFWithCallback] using hinv
  | some cb =>
      cases hempty : Dict.empty self.m_printSettings with
      | false => simp [PrintViewManagerQt.PrintToPDFWithCallback, hempty]
      | true =>
          by_cases hfail : cannotStart deps wc pageLayout frameId
          · intro _
            exact (PrintToPDFWithCallback_fails deps wc self n pageLayout pageRanges
              printInColor frameId cb hempty hfail).2
          · intro hafter
            have hs := PrintToPDFInternal_spec deps wc
              { self with m_pdfPrintCallback := some cb } n
              pageLayout pageRanges printInColor frameId
            simp only at hs
            obtain ⟨-, -, -, hiff, -, hok⟩ := hs
            cases hr : (PrintViewManagerQt.PrintToPDFInternal deps wc
                { self with m_pdfPrintCallback := some cb } n
                pageLayout pageRanges printInColor frameId).1 with
            | false => exact absurd (hiff.mp hr) hfail
            | true =>
                have hne := (hok hr).1
                simp only [PrintViewManagerQt.PrintToPDFWithCallback, hempty,
                  Bool.not_true, Bool.false_eq_true, if_false, hr] at hafter
                simp [hne] at hafter

theorem PrintPreviewDone_fields (wc : WebContents) (self self' : PrintViewManagerQt)
    (effects : List PrintEffect)
    (h : PrintViewManagerQt.PrintPreviewDone wc self = some (self', effects)) :
    self'.m_printSettings = self.m_printSettings ∧ self'.m_pdfOutputPath = self.m_pdfOutputPath
      ∧ self'.m_pdfPrintCallback = self.m_pdfPrintCallback
      ∧ self'.m_pdfSaveCallback = self.m_pdfSaveCallback := by
  unfold PrintViewManagerQt.PrintPreviewDone at h
  cases hrfh : self.m_printPreviewRfh with
  | none => simp [hrfh] at h
  | some rfh =>
      simp only [hrfh, Option.some.injEq, Prod.mk.injEq] at h
      obtain ⟨hself, -⟩ := h
      subst hself
      exact ⟨rfl, rfl, rfl, rfl⟩

/-- In every reachable state, empty print settings mean that no path and no callback
is stored. -/
theorem PrintViewManagerQt.Reachable.idle_of_empty (deps : PrintDeps)
    (self : PrintViewManagerQt) (h : PrintViewManagerQt.Reachable deps self) :
    Dict.empty self.m_printSettings = true → self.isIdle := by
  induction h with
  | init => intro _; simp [PrintViewManagerQt.isIdle, PrintViewManagerQt.init, Dict.empty]
  | call wc s n c run _ hcall ih =>
      cases c with
      | PrintToPDFFileWithCallback pageLayout pageRanges printInColor filePath frameId callback =>
          simp only [PrintViewManagerQt.call, Option.some.injEq] at hcall
          subst hcall
          exact PrintToPDFFileWithCallback_preserves deps wc s n pageLayout pageRanges
            printInColor filePath frameId callback ih
      | PrintToPDFWithCallback pageLayout pageRanges printInColor frameId callback =>
          simp only [PrintViewManagerQt.call, Option.some.injEq] at hcall
          subst hcall
          exact PrintToPDFWithCallback_preserves deps wc s n pageLayout pageRanges
            printInColor frameId callback ih
      | NavigationStopped =>
          simp only [PrintViewManagerQt.call, Option.some.injEq] at hcall
          subst hcall
          intro _
          exact PrintViewManagerQt.isIdle_resetPdfState _
      | PrimaryMainFrameRenderProcessGone status =>
          simp only [PrintViewManagerQt.call, Option.some.injEq] at hcall
          subst hcall
          intro _
          exact PrintViewManagerQt.isIdle_resetPdfState _
      | RenderFrameDeleted render_frame_host =>
          simp only [PrintViewManagerQt.call, PrintViewManagerQt.RenderFrameDeleted] at hcall
          split at hcall
          · cases hd : PrintViewManagerQt.PrintPreviewDone wc s with
            | none => simp [hd] at hcall
            | some res =>
                obtain ⟨s', effects⟩ := res
                simp only [hd, Option.some.injEq] at hcall
                subst hcall
                obtain ⟨h1, h2, h3, h4⟩ := PrintPreviewDone_fields wc s s' effects hd
                simpa [PrintViewManagerQt.isIdle, h1, h2, h3, h4] using ih
          · simp only [Option.some.injEq] at hcall
            subst hcall
            exact ih
      | RequestPrintPreview webnode_only =>
          simp only [PrintViewManagerQt.call, PrintViewManagerQt.RequestPrintPreview] at hcall
          split at hcall
          · cases ht : wc.currentTargetFrame with
            | none => simp [ht] at hcall
            | some target =>
                simp only [ht, Option.some.injEq] at hcall
                subst hcall
                exact ih
          · split at hcall
            · cases hd : PrintViewManagerQt.PrintPreviewDone wc s with
              | none => simp [hd] at hcall
              | some res =>
                  obtain ⟨s', effects⟩ := res
                  simp only [hd, Option.some.injEq] at hcall
                  subst hcall
                  obtain ⟨h1, h2, h3, h4⟩ := PrintPreviewDone_fields wc s s' effects hd
                  simpa [PrintViewManagerQt.isIdle, h1, h2, h3, h4] using ih
            · cases hrfh : s.m_printPreviewRfh with
              | none => simp [hrfh] at hcall
              | some rfh =>
                  cases hd : PrintViewManagerQt.PrintPreviewDone wc s with
                  | none => simp [hrfh, hd] at hcall
                  | some res =>
                      obtain ⟨s', effects⟩ := res
                      simp only [hrfh, hd, Option.some.injEq] at hcall
                      subst hcall
                      obtain ⟨h1, h2, h3, h4⟩ := PrintPreviewDone_fields wc s s' effects hd
                      simpa [PrintViewManagerQt.isIdle, h1, h2, h3, h4] using ih
      | MetafileReadyForPrinting document_cookie metafile_data_region =>
          simp only [PrintViewManagerQt.call, Option.some.injEq] at hcall
          subst hcall
          intro _
          exact PrintViewManagerQt.isIdle_resetPdfState _

/-- C2: while a print is pending (`m_printSettings` non-empty), a new request with a
non-null callback starts nothing.  `PrintToPDFWithCallback` posts exactly the new
callback with a null byte array, `PrintToPDFFileWithCallback` posts exactly the new
callback with `false`, and in both cases every member of the manager (print settings,
output path, both stored callbacks, preview frame) is unchanged. -/
theorem C2_pending_print_rejects_new_request (deps : PrintDeps) (wc : WebContents)
    (self : PrintViewManagerQt) (n : Int) (pageLayout : QPageLayout) (pageRanges : QPageRanges)
    (printInColor : Bool) (filePath : String) (frameId : Nat) (cb : CallbackId)
    (hpending : Dict.empty self.m_printSettings = false) :
    PrintViewManagerQt.PrintToPDFWithCallback deps wc self n pageLayout pageRanges
        printInColor frameId (some cb)
      = { self := self, internalRequestId := n,
          effects := [.postPrintCallback (some cb) none] }
    ∧ PrintViewManagerQt.PrintToPDFFileWithCallback deps wc self n pageLayout pageRanges
        printInColor filePath frameId (some cb)
      = { self := self, internalRequestId := n,
          effects := [.postSaveCallback (some cb) false] } := by
  constructor
  · simp [PrintViewManagerQt.PrintToPDFWithCallback, hpending]
  · simp [PrintViewManagerQt.PrintToPDFFileWithCallback, hpending]

/-- C2 witness: a second request while the first one (callback 11) is pending. -/
theorem C2_pending_print_rejects_new_request_witness :
    Dict.empty samplePendingRun.self.m_printSettings = false
    ∧ (PrintViewManagerQt.PrintToPDFWithCallback samplePrintDeps sampleWebContents
        samplePendingRun.self 1 samplePageLayout [] true 5 (some 12)).self.m_pdfPrintCallback
        = some 11
    ∧ (PrintViewManagerQt.PrintToPDFFileWithCallback samplePrintDeps sampleWebContents
        samplePendingRun.self 1 samplePageLayout [] true "/tmp/out.pdf" 5 (some 12)).effects
        = [.postSaveCallback (some 12) false] :=
  have h := C2_pending_print_rejects_new_request samplePrintDeps sampleWebContents
    samplePendingRun.self 1 samplePageLayout [] true "/tmp/out.pdf" 5 12 (by decide)
  ⟨by decide, by rw [h.1]; decide, by rw [h.2]⟩

/-- C3: on a manager that holds no job (any reachable state with empty
`m_printSettings`), a request with a non-null callback that cannot be started (invalid
page layout, crashed web contents, `kInvalidFrameId`, or a frame id that names no frame
tree node; for the file variant also an empty file path) posts exactly one task, the
callback with the failure value (`false`, respectively a null byte array), initiates no
preview, and leaves the manager idle: settings empty, path cleared, both callbacks
null.  A following request is therefore not rejected as busy. -/
theorem C3_failed_start_reports_once_and_returns_to_idle (deps : PrintDeps)
    (wc : WebContents) (self : PrintViewManagerQt) (n : Int) (pageLayout : QPageLayout)
    (pageRanges : QPageRanges) (printInColor : Bool) (frameId : Nat) (cb : CallbackId)
    (hreach : PrintViewManagerQt.Reachable deps self)
    (hempty : Dict.empty self.m_printSettings = true)
    (hfail : cannotStart deps wc pageLayout frameId) :
    (∀ filePath : String,
      (PrintViewManagerQt.PrintToPDFFileWithCallback deps wc self n pageLayout pageRanges
          printInColor filePath frameId (some cb)).effects = [.postSaveCallback (some cb) false]
      ∧ (PrintViewManagerQt.PrintToPDFFileWithCallback deps wc self n pageLayout pageRanges
          printInColor filePath frameId (some cb)).self.isIdle
      ∧ (PrintViewManagerQt.PrintToPDFFileWithCallback deps wc self n pageLayout pageRanges
          printInColor filePath frameId (some cb)).self.acceptsNextRequest deps)
    ∧ ((PrintViewManagerQt.PrintToPDFWithCallback deps wc self n pageLayout pageRanges
          printInColor frameId (some cb)).effects = [.postPrintCallback (some cb) none]
      ∧ (PrintViewManagerQt.PrintToPDFWithCallback deps wc self n pageLayout pageRanges
          printInColor frameId (some cb)).self.isIdle
      ∧ (PrintViewManagerQt.PrintToPDFWithCallback deps wc self n pageLayout pageRanges
          printInColor frameId (some cb)).self.acceptsNextRequest deps)
    ∧ (∀ (wc' : WebContents) (pageLayout' : QPageLayout) (frameId' : Nat) (filePath : String),
      filePath.length = 0 →
      (PrintViewManagerQt.PrintToPDFFileWithCallback deps wc' self n pageLayout' pageRanges
          printInColor filePath frameId' (some cb)).effects
          = [.postSaveCallback (some cb) false]
      ∧ (PrintViewManagerQt.PrintToPDFFileWithCallback deps wc' self n pageLayout' pageRanges
          printInColor filePath frameId' (some cb)).self.isIdle
      ∧ (PrintViewManagerQt.PrintToPDFFileWithCallback deps wc' self n pageLayout' pageRanges
          printInColor filePath frameId' (some cb)).self.acceptsNextRequest deps) := by
  have hidle := PrintViewManagerQt.Reachable.idle_of_empty deps self hreach hempty
  have hnopath : ∀ (wc' : WebContents) (pageLayout' : QPageLayout) (frameId' : Nat)
      (filePath : String), filePath.length = 0 →
      PrintViewManagerQt.PrintToPDFFileWithCallback deps wc' self n pageLayout' pageRanges
          printInColor filePath frameId' (some cb)
        = { self := self, internalRequestId := n,
            effects := [.postSaveCallback (some cb) false] } := by
    intro wc' pageLayout' frameId' filePath hlen
    simp [PrintViewManagerQt.PrintToPDFFileWithCallback, hlen]
  refine ⟨?_, ?_, ?_⟩
  · intro filePath
    by_cases hpath : filePath.length = 0
    · rw [hnopath wc pageLayout frameId filePath hpath]
      exact ⟨rfl, hidle, PrintViewManagerQt.acceptsNextRequest_of_empty deps self hempty⟩
    · have h := PrintToPDFFileWithCallback_fails deps wc self n pageLayout pageRanges
        printInColor filePath frameId cb hempty hpath hfail
      exact ⟨h.1, h.2, PrintViewManagerQt.acceptsNextRequest_of_empty deps _ h.2.1⟩
  · have h := PrintToPDFWithCallback_fails deps wc self n pageLayout pageRanges
      printInColor frameId cb hempty hfail
    exact ⟨h.1, h.2, PrintViewManagerQt.acceptsNextRequest_of_empty deps _ h.2.1⟩
  · intro wc' pageLayout' frameId' filePath hlen
    rw [hnopath wc' pageLayout' frameId' filePath hlen]
    exact ⟨rfl, hidle, PrintViewManagerQt.acceptsNextRequest_of_empty deps self hempty⟩

/-- C3 witness: a request for frame tree node 9, which does not exist, on a freshly
constructed manager. -/
theorem C3_failed_start_reports_once_and_returns_to_idle_witness :
    cannotStart samplePrintDeps sampleWebContents samplePageLayout 9
    ∧ (PrintViewManagerQt.PrintToPDFWithCallback samplePrintDeps sampleWebContents
        PrintViewManagerQt.init 0 samplePageLayout [] true 9 (some 4)).effects
        = [.postPrintCallback (some 4) none]
    ∧ (PrintViewManagerQt.PrintToPDFFileWithCallback samplePrintDeps sampleWebContents
        PrintViewManagerQt.init 0 samplePageLayout [] true "/tmp/out.pdf" 9
        (some 4)).self.isIdle :=
  have hfail : cannotStart samplePrintDeps sampleWebContents samplePageLayout 9 :=
    Or.inr (Or.inr (Or.inr ⟨by decide, by decide⟩))
  have h := C3_failed_start_reports_once_and_returns_to_idle samplePrintDeps
    sampleWebContents PrintViewManagerQt.init 0 samplePageLayout [] true 9 4
    PrintViewManagerQt.Reachable.init (by decide) hfail
  ⟨hfail, h.2.1.1, (h.1 "/tmp/out.pdf").2.1⟩

/-! ### Pref service adapter -/

theorem PrefService.user_prefs_ClearPref (self : PrefService) (name : PrefName) :
    (self.ClearPref name).user_prefs = self.user_prefs := rfl

theorem PrefService.GetValue_SetUserPrefValue (self : PrefService) (name : PrefName)
    (value : PrefValue) : (self.SetUserPrefValue name value).GetValue name = some value := by
  simp [PrefService.GetValue, PrefService.SetUserPrefValue, List.lookup]

theorem foldl_append_singleton_eq_map {α β : Type} (f : α → β) (l : List α) (acc : List β) :
    l.foldl (fun out x => out ++ [f x]) acc = acc ++ l.map f := by
  induction l generalizing acc with
  | nil => simp
  | cons x xs ih => simp [ih]

/-- C4: `PrefServiceAdapter::setup` gives an off-the-record profile an in-memory user
pref store, never a JSON file store, and does not even call `ensureDataPathExists()`
for it.  A JSON store is installed exactly when the profile is not off-the-record, its
data path is non-empty and `ensureDataPathExists()` succeeds; its file is then the data
path followed by the directory separator and `user_prefs.json`; in every other case the
store is in memory. -/
theorem C4_user_pref_store_choice (deps : PrefDeps) (profileAdapter : ProfileAdapterStorage) :
    (profileAdapter.isOffTheRecord = true →
      (PrefServiceAdapter.setup deps profileAdapter).m_prefService.user_prefs
          = .InMemoryPrefStore
        ∧ (PrefServiceAdapter.setup deps profileAdapter).calledEnsureDataPathExists = false)
    ∧ ((∃ path, (PrefServiceAdapter.setup deps profileAdapter).m_prefService.user_prefs
          = .JsonPrefStore path)
        ↔ (profileAdapter.isOffTheRecord = false ∧ profileAdapter.dataPath.isEmpty = false
            ∧ profileAdapter.ensureDataPathExists = true))
    ∧ (∀ path, (PrefServiceAdapter.setup deps profileAdapter).m_prefService.user_prefs
          = .JsonPrefStore path →
        path = deps.toFilePath
          (profileAdapter.dataPath ++ deps.separator ++ "user_prefs.json"))
    ∧ (¬ (profileAdapter.isOffTheRecord = false ∧ profileAdapter.dataPath.isEmpty = false
            ∧ profileAdapter.ensureDataPathExists = true) →
        (PrefServiceAdapter.setup deps profileAdapter).m_prefService.user_prefs
          = .InMemoryPrefStore) := by
  have hstore : (PrefServiceAdapter.setup deps profileAdapter).m_prefService.user_prefs
      = if !profileAdapter.isOffTheRecord && !profileAdapter.dataPath.isEmpty
            && profileAdapter.ensureDataPathExists then
          UserPrefStore.JsonPrefStore
            (deps.toFilePath (profileAdapter.dataPath ++ deps.separator ++ "user_prefs.json"))
        else UserPrefStore.InMemoryPrefStore := by
    simp only [PrefServiceAdapter.setup, String.empty_append]
    split <;> rfl
  have hcalled : (PrefServiceAdapter.setup deps profileAdapter).calledEnsureDataPathExists
      = (!profileAdapter.isOffTheRecord && !profileAdapter.dataPath.isEmpty) := by
    simp only [PrefServiceAdapter.setup, String.empty_append]
  rw [hstore, hcalled]
  cases profileAdapter.isOffTheRecord <;> cases profileAdapter.dataPath.isEmpty <;>
    cases profileAdapter.ensureDataPathExists <;> simp

/-- C8: after `setSpellCheckLanguages(L)`, `spellCheckLanguages()` returns `L`, same
elements in the same order, for every list `L` of names that survive the
`QString` → `std::string` → `QString` conversion the two functions apply. -/
theorem C8_spell_check_languages_read_back (deps : PrefDeps) (m_prefService : PrefService)
    (languages : List QString)
    (hconv : ∀ language ∈ languages,
      deps.fromStdString (deps.toStdString language) = language) :
    PrefServiceAdapter.spellCheckLanguages deps
      (PrefServiceAdapter.setSpellCheckLanguages deps m_prefService languages) = languages := by
  simp only [PrefServiceAdapter.spellCheckLanguages, PrefServiceAdapter.setSpellCheckLanguages,
    PrefService.GetList, PrefService.GetValue_SetUserPrefValue,
    foldl_append_singleton_eq_map, List.nil_append, List.map_map]
  calc languages.map (deps.fromStdString ∘ deps.toStdString)
      = languages.map id := List.map_congr_left (fun x hx => hconv x hx)
    _ = languages := List.map_id _

/-- C8 witness: two dictionary names written and read back. -/
theorem C8_spell_check_languages_read_back_witness :
    PrefServiceAdapter.spellCheckLanguages samplePrefDeps
      (PrefServiceAdapter.setSpellCheckLanguages samplePrefDeps samplePrefService
        ["en-US", "de-DE"]) = ["en-US", "de-DE"] :=
  C8_spell_check_languages_read_back samplePrefDeps samplePrefService ["en-US", "de-DE"]
    (fun _ _ => rfl)

/-- C9 counterexample: with no dictionaries directory (`getPath` returns an empty
path) and the spell checker disabled, `setSpellCheckEnabled(true)` leaves
`isSpellCheckEnabled()` false. -/
theorem C9_enable_without_dictionaries_counterexample :
    PrefServiceAdapter.isSpellCheckEnabled samplePrefService = false
    ∧ PrefServiceAdapter.isSpellCheckEnabled
        (PrefServiceAdapter.setSpellCheckEnabled samplePrefDepsNoDictionaries samplePrefService
          true) ≠ true := by
  decide

/-- C9 (amended): after `setSpellCheckEnabled(enable)`, `isSpellCheckEnabled()` returns
`enable` whenever the value was `enable` already or
`WebEngineLibraryInfo::getPath(base::DIR_APP_DICTIONARIES, enable)` is non-empty; and
enabling a disabled spell checker while that path is empty leaves it disabled. -/
theorem C9_set_spell_check_enabled_needs_dictionaries (deps : PrefDeps)
    (m_prefService : PrefService) (enable : Bool) :
    ((PrefServiceAdapter.isSpellCheckEnabled m_prefService = enable
        ∨ (deps.getPath_DIR_APP_DICTIONARIES enable).isEmpty = false) →
      PrefServiceAdapter.isSpellCheckEnabled
        (PrefServiceAdapter.setSpellCheckEnabled deps m_prefService enable) = enable)
    ∧ ((deps.getPath_DIR_APP_DICTIONARIES true).isEmpty = true →
      PrefServiceAdapter.isSpellCheckEnabled m_prefService = false →
      PrefServiceAdapter.isSpellCheckEnabled
        (PrefServiceAdapter.setSpellCheckEnabled deps m_prefService true) = false) := by
  have hall : ∀ e : Bool, PrefServiceAdapter.isSpellCheckEnabled
        (PrefServiceAdapter.setSpellCheckEnabled deps m_prefService e)
      = if (deps.getPath_DIR_APP_DICTIONARIES e).isEmpty then
          PrefServiceAdapter.isSpellCheckEnabled m_prefService
        else e := by
    intro e
    simp only [PrefServiceAdapter.isSpellCheckEnabled, PrefServiceAdapter.setSpellCheckEnabled]
    by_cases hsame : e = m_prefService.GetBoolean .kSpellCheckEnable
    · simp only [beq_iff_eq, hsame, if_true]
      split <;> rfl
    · have hne : (e == m_prefService.GetBoolean .kSpellCheckEnable) = false := by
        simpa using hsame
      cases hpath : (deps.getPath_DIR_APP_DICTIONARIES e).isEmpty
      · simp only [hne, Bool.false_eq_true, if_false, Bool.not_false, if_true]
        simp only [PrefService.GetBoolean, PrefService.SetBoolean,
          PrefService.GetValue_SetUserPrefValue]
      · simp only [hne, Bool.false_eq_true, if_false, Bool.not_true, if_true]
  refine ⟨?_, ?_⟩
  · intro h
    rw [hall enable]
    rcases h with h | h
    · rw [h]; split <;> rfl
    · simp [h]
  · intro hpath hprior
    rw [hall true, hpath, if_pos rfl, hprior]

/-- C9 witness: with dictionaries installed the spell checker is switched on; with
none it stays off. -/
theorem C9_set_spell_check_enabled_needs_dictionaries_witness :
    PrefServiceAdapter.isSpellCheckEnabled
        (PrefServiceAdapter.setSpellCheckEnabled samplePrefDeps samplePrefService true) = true
    ∧ PrefServiceAdapter.isSpellCheckEnabled
        (PrefServiceAdapter.setSpellCheckEnabled samplePrefDepsNoDictionaries samplePrefService
          true) = false :=
  ⟨(C9_set_spell_check_enabled_needs_dictionaries samplePrefDeps samplePrefService true).1
      (Or.inr (by decide)),
   (C9_set_spell_check_enabled_needs_dictionaries samplePrefDepsNoDictionaries
      samplePrefService true).2 (by decide) (by decide)⟩

/-! ### Profile: permission listing -/

/-- C5: under the `AskEveryTime` policy, `listAllPermissions()`,
`listPermissionsForOrigin(origin)` and `listPermissionsForPermissionType(type)` return
the empty list for every origin and type, and the only call they make on the profile
adapter is the policy getter: the permission store is not consulted. -/
theorem C5_ask_every_time_lists_nothing (isPersistent : PermissionType → Bool)
    (adapter : ProfileAdapterPermissions) (securityOrigin : QUrl)
    (permissionType : PermissionType)
    (hpolicy : (QWebEngineProfile.persistentPermissionsPolicy adapter).1 = .AskEveryTime) :
    QWebEngineProfile.listAllPermissions adapter = ([], [.persistentPermissionsPolicy])
    ∧ QWebEngineProfile.listPermissionsForOrigin adapter securityOrigin
        = ([], [.persistentPermissionsPolicy])
    ∧ QWebEngineProfile.listPermissionsForPermissionType isPersistent adapter permissionType
        = ([], [.persistentPermissionsPolicy])
    ∧ ∀ c ∈ (QWebEngineProfile.listAllPermissions adapter).2
          ++ (QWebEngineProfile.listPermissionsForOrigin adapter securityOrigin).2
          ++ (QWebEngineProfile.listPermissionsForPermissionType isPersistent adapter
                permissionType).2,
        c.consultsPermissionStore = false := by
  simp only [QWebEngineProfile.persistentPermissionsPolicy] at hpolicy
  simp [QWebEngineProfile.listAllPermissions, QWebEngineProfile.listPermissionsForOrigin,
    QWebEngineProfile.listPermissionsForPermissionType,
    QWebEngineProfile.persistentPermissionsPolicy, hpolicy,
    ProfileAdapterCall.consultsPermissionStore]

/-- C5 witness: the sample store switched to `AskEveryTime` lists nothing although it
holds a permission. -/
theorem C5_ask_every_time_lists_nothing_witness :
    samplePermissionAdapter.listPermissions "" .Unsupported ≠ []
    ∧ QWebEngineProfile.listAllPermissions
        { samplePermissionAdapter with persistentPermissionsPolicy := .AskEveryTime }
        = ([], [.persistentPermissionsPolicy]) :=
  ⟨by decide,
   (C5_ask_every_time_lists_nothing sampleIsPersistent
      { samplePermissionAdapter with persistentPermissionsPolicy := .AskEveryTime }
      "https://qt.io" (.supported 7) rfl).1⟩

/-- C6: `listPermissionsForPermissionType(type)` returns the empty list, without
consulting the store, for every type that is `Unsupported` or not persistent, whatever
the policy; and it returns the adapter's `listPermissions(QUrl(), type)` exactly when
the type is supported and persistent and the policy is not `AskEveryTime`; in every
other case the result is empty and the store is not consulted. -/
theorem C6_list_by_type_only_for_persistent_types (isPersistent : PermissionType → Bool)
    (adapter : ProfileAdapterPermissions) (permissionType : PermissionType) :
    ((permissionType = .Unsupported ∨ isPersistent permissionType = false) →
      QWebEngineProfile.listPermissionsForPermissionType isPersistent adapter permissionType
        = ([], [.persistentPermissionsPolicy]))
    ∧ ((permissionType ≠ .Unsupported ∧ isPersistent permissionType = true
          ∧ adapter.persistentPermissionsPolicy ≠ .AskEveryTime) →
      QWebEngineProfile.listPermissionsForPermissionType isPersistent adapter permissionType
        = (adapter.listPermissions "" permissionType,
            [.persistentPermissionsPolicy, .listPermissions "" permissionType]))
    ∧ (¬ (permissionType ≠ .Unsupported ∧ isPersistent permissionType = true
          ∧ adapter.persistentPermissionsPolicy ≠ .AskEveryTime) →
      QWebEngineProfile.listPermissionsForPermissionType isPersistent adapter permissionType
        = ([], [.persistentPermissionsPolicy])) := by
  by_cases hp : adapter.persistentPermissionsPolicy = .AskEveryTime <;>
    by_cases hu : permissionType = .Unsupported <;>
    cases hi : isPersistent permissionType <;>
    simp [QWebEngineProfile.listPermissionsForPermissionType,
      QWebEngineProfile.persistentPermissionsPolicy, hp, hu, hi]

/-- C6 witness: the persistent type 7 is listed from the store, the non-persistent
type 3 is not. -/
theorem C6_list_by_type_only_for_persistent_types_witness :
    QWebEngineProfile.listPermissionsForPermissionType sampleIsPersistent
        samplePermissionAdapter (.supported 7)
      = ([⟨"https://qt.io", .supported 7, true⟩],
          [.persistentPermissionsPolicy, .listPermissions "" (.supported 7)])
    ∧ QWebEngineProfile.listPermissionsForPermissionType sampleIsPersistent
        samplePermissionAdapter (.supported 3) = ([], [.persistentPermissionsPolicy]) :=
  ⟨((C6_list_by_type_only_for_persistent_types sampleIsPersistent samplePermissionAdapter
      (.supported 7)).2.1 ⟨by decide, by decide, by decide⟩).trans (by decide),
   (C6_list_by_type_only_for_persistent_types sampleIsPersistent samplePermissionAdapter
      (.supported 3)).1 (Or.inr (by decide))⟩

/-! ### Profile: downloads -/

theorem QMap.value_insert_self {α : Type} (m : QMap α) (key : Nat) (value : α) :
    QMap.value (QMap.insert m key value) key = some value := by
  induction m with
  | nil => simp [QMap.insert, QMap.value]
  | cons hd tl ih =>
      obtain ⟨k, v⟩ := hd
      simp only [QMap.insert]
      by_cases h1 : key < k
      · simp [h1, QMap.value]
      · by_cases h2 : key = k
        · simp [h2, QMap.value]
        · simp [h1, h2, QMap.value, ih]

theorem QMap.value_insert_other {α : Type} (m : QMap α) (key other : Nat) (value : α)
    (hne : other ≠ key) : QMap.value (QMap.insert m key value) other = QMap.value m other := by
  induction m with
  | nil => simp [QMap.insert, QMap.value, hne]
  | cons hd tl ih =>
      obtain ⟨k, v⟩ := hd
      simp only [QMap.insert]
      by_cases h1 : key < k
      · simp [h1, QMap.value, hne]
      · by_cases h2 : key = k
        · subst h2
          simp [QMap.value, hne]
        · simp only [h1, h2, if_false, QMap.value, ih]

/-- C7: with no receiver connected to `downloadRequested`, the download is answered at
once through `acceptDownload` with the info's own id, accepted flag,
`useDownloadTargetCallback`, path and save-page format; nothing else happens, no
request is created and `m_ongoingDownloads` is unchanged.  With a receiver connected,
exactly one request is created; it is the entry of `m_ongoingDownloads` under `info.id`
(other entries are untouched), it carries `info.id`, and its state is
`DownloadInProgress` if `info.accepted` and `DownloadRequested` otherwise. -/
theorem C7_download_requested (fileInfo : QFileInfoFns) (receivers : Nat)
    (self : QWebEngineProfilePrivate) (info : DownloadItemInfo) :
    (receivers = 0 →
      QWebEngineProfilePrivate.downloadRequested fileInfo receivers self info
        = (self, [.adapter (.acceptDownload info.id info.accepted
            info.useDownloadTargetCallback info.path info.savePageFormat)]))
    ∧ (receivers ≠ 0 →
      ∃ itemPrivate : QWebEngineDownloadRequestPrivate,
        (QWebEngineProfilePrivate.downloadRequested fileInfo receivers self info).2.filter
            DownloadEffect.isNewDownloadRequest = [.newDownloadRequest itemPrivate]
        ∧ QMap.value (QWebEngineProfilePrivate.downloadRequested fileInfo receivers self
            info).1.m_ongoingDownloads info.id = some itemPrivate
        ∧ (∀ other, other ≠ info.id →
            QMap.value (QWebEngineProfilePrivate.downloadRequested fileInfo receivers self
              info).1.m_ongoingDownloads other = QMap.value self.m_ongoingDownloads other)
        ∧ itemPrivate.downloadId = info.id
        ∧ itemPrivate.downloadState
            = (if info.accepted then DownloadState.DownloadInProgress
               else DownloadState.DownloadRequested)) := by
  constructor
  · intro h
    simp [QWebEngineProfilePrivate.downloadRequested, h]
  · intro h
    simp only [QWebEngineProfilePrivate.downloadRequested, h, if_false]
    refine ⟨_, ?_, QMap.value_insert_self _ _ _, ?_, rfl, rfl⟩
    · cases info.isSavePageDownload && info.accepted <;>
        simp [DownloadEffect.isNewDownloadRequest]
    · intro other hne
      exact QMap.value_insert_other _ _ _ _ hne

/-- C7 witness: the same unaccepted download without and with a connected receiver. -/
theorem C7_download_requested_witness :
    QWebEngineProfilePrivate.downloadRequested sampleFileInfo 0 ⟨[]⟩ sampleDownloadInfo
      = (⟨[]⟩, [.adapter (.acceptDownload 3 false false "/tmp/a.zip" (-1))])
    ∧ ∃ itemPrivate : QWebEngineDownloadRequestPrivate,
        QMap.value (QWebEngineProfilePrivate.downloadRequested sampleFileInfo 1 ⟨[]⟩
          sampleDownloadInfo).1.m_ongoingDownloads 3 = some itemPrivate
        ∧ itemPrivate.downloadState = .DownloadRequested :=
  ⟨(C7_download_requested sampleFileInfo 0 ⟨[]⟩ sampleDownloadInfo).1 rfl,
   let ⟨itemPrivate, _, hvalue, _, _, hstate⟩ :=
     (C7_download_requested sampleFileInfo 1 ⟨[]⟩ sampleDownloadInfo).2 (by decide)
   ⟨itemPrivate, hvalue, hstate⟩⟩

/-! ### Content client: Widevine CDM -/

/-- The search loop returns the first existing candidate, if any. -/
theorem widevineSearch_spec (cfg : CdmBuildConfig) (env : CdmEnv) (pluginPaths : List QString)
    (cdm_path : String) (capability : CdmCapability) :
    (∀ p, pluginPaths.find? (candidateExists env) = some p →
        widevineSearch cfg env pluginPaths cdm_path capability
          = (true, env.toFilePath p, fillWidevineCapability cfg env capability))
    ∧ (pluginPaths.find? (candidateExists env) = none →
        (widevineSearch cfg env pluginPaths cdm_path capability).1 = false) := by
  induction pluginPaths generalizing cdm_path with
  | nil => simp [widevineSearch]
  | cons pluginPath rest ih =>
      cases hex : env.PathExists (env.toFilePath pluginPath) with
      | true => simp [widevineSearch, List.find?, candidateExists, hex]
      | false =>
          simp only [widevineSearch, List.find?, candidateExists, hex, Bool.false_eq_true,
            if_false]
          exact ih (env.toFilePath pluginPath)

/-- C10: the candidate list of `IsWidevineAvailable` is the single command-line path
when the Widevine path switch is non-empty and the platform search list otherwise;
`IsWidevineAvailable` returns true if and only if some candidate exists on disk; when
it returns true, `cdm_path` is the first existing candidate in list order, and
`AddContentDecryptionModules` (in a build with the non-component Widevine CDM) appends
exactly one Widevine `CdmInfo`, carrying that path; when no candidate exists, no
Widevine `CdmInfo` is appended. -/
theorem C10_widevine_registered_behind_path_guard (cfg : CdmBuildConfig) (env : CdmEnv)
    (cdm_path : String) (capability : CdmCapability) (cdms : List CdmInfo) :
    (widevinePluginPaths cfg env
        = if env.widevine_argument.isEmpty then widevinePlatformSearchList cfg env
          else [env.toQt env.widevine_argument])
    ∧ ((IsWidevineAvailable cfg env cdm_path capability).1 = true
        ↔ ∃ p ∈ widevinePluginPaths cfg env, candidateExists env p = true)
    ∧ ((IsWidevineAvailable cfg env cdm_path capability).1 = true →
        ∃ p, (widevinePluginPaths cfg env).find? (candidateExists env) = some p
          ∧ (IsWidevineAvailable cfg env cdm_path capability).2.1 = env.toFilePath p
          ∧ (cfg.WIDEVINE_CDM_AVAILABLE_NOT_COMPONENT = true →
              ∃ appended info,
                AddContentDecryptionModules cfg env (some cdms) = some (cdms ++ appended)
                ∧ appended.filter CdmInfo.isWidevine = [info]
                ∧ info.path = env.toFilePath p))
    ∧ ((∀ p ∈ widevinePluginPaths cfg env, candidateExists env p = false) →
        ∃ appended,
          AddContentDecryptionModules cfg env (some cdms) = some (cdms ++ appended)
          ∧ appended.filter CdmInfo.isWidevine = []) := by
  refine ⟨?_, ?_, ?_, ?_⟩
  · simp only [widevinePluginPaths]
    cases env.widevine_argument.isEmpty <;> simp
  · cases hfind : (widevinePluginPaths cfg env).find? (candidateExists env) with
    | none =>
        have h := (widevineSearch_spec cfg env _ cdm_path capability).2 hfind
        simp only [IsWidevineAvailable, h, Bool.false_eq_true, false_iff, not_exists, not_and]
        intro p hp
        simpa using List.find?_eq_none.mp hfind p hp
    | some p =>
        have h := (widevineSearch_spec cfg env _ cdm_path capability).1 p hfind
        simp only [IsWidevineAvailable, h, true_iff]
        exact ⟨p, List.mem_of_find?_eq_some hfind, List.find?_some hfind⟩
  · intro havail
    cases hfind : (widevinePluginPaths cfg env).find? (candidateExists env) with
    | none =>
        have h := (widevineSearch_spec cfg env _ cdm_path capability).2 hfind
        simp [IsWidevineAvailable, h] at havail
    | some p =>
        have h := (widevineSearch_spec cfg env _ cdm_path capability).1 p hfind
        refine ⟨p, rfl, by simp [IsWidevineAvailable, h], ?_⟩
        intro hflag
        have h0 := (widevineSearch_spec cfg env _ "" ⟨[], [], [], []⟩).1 p hfind
        simp only [AddContentDecryptionModules, hflag, if_true, IsWidevineAvailable, h0]
        cases cfg.ENABLE_LIBRARY_CDMS <;>
          cases (!env.clear_key_cdm_path.isEmpty && env.PathExists env.clear_key_cdm_path) <;>
          simp [CdmInfo.isWidevine]
  · intro hnone
    have hfind : (widevinePluginPaths cfg env).find? (candidateExists env) = none := by
      rw [List.find?_eq_none]
      intro p hp
      simp [hnone p hp]
    have h0 := (widevineSearch_spec cfg env _ "" ⟨[], [], [], []⟩).2 hfind
    simp only [AddContentDecryptionModules, IsWidevineAvailable]
    rcases hs : widevineSearch cfg env (widevinePluginPaths cfg env) ""
        ⟨[], [], [], []⟩ with ⟨available, path, cap⟩
    rw [hs] at h0
    simp only at h0
    subst h0
    cases cfg.WIDEVINE_CDM_AVAILABLE_NOT_COMPONENT <;> cases cfg.ENABLE_LIBRARY_CDMS <;>
      cases (!env.clear_key_cdm_path.isEmpty && env.PathExists env.clear_key_cdm_path) <;>
      simp [CdmInfo.isWidevine]

/-- C10 witness: on the sample machine the first existing candidate is the Ubuntu
Chromium copy, not the later Google Chrome copy, and it is the one registered. -/
theorem C10_widevine_registered_behind_path_guard_witness :
    (IsWidevineAvailable sampleCdmConfig sampleCdmEnv "" ⟨[], [], [], []⟩).1 = true
    ∧ ∃ p, (widevinePluginPaths sampleCdmConfig sampleCdmEnv).find?
          (candidateExists sampleCdmEnv) = some p
        ∧ p = "/usr/lib/chromium-browser/libwidevinecdm.so"
        ∧ ∃ appended info,
            AddContentDecryptionModules sampleCdmConfig sampleCdmEnv (some [])
              = some ([] ++ appended)
            ∧ appended.filter CdmInfo.isWidevine = [info]
            ∧ info.path = sampleCdmEnv.toFilePath p :=
  have havail :
      (IsWidevineAvailable sampleCdmConfig sampleCdmEnv "" ⟨[], [], [], []⟩).1 = true := by
    decide
  let ⟨p, hfind, _, hadd⟩ :=
    (C10_widevine_registered_behind_path_guard sampleCdmConfig sampleCdmEnv ""
      ⟨[], [], [], []⟩ []).2.2.1 havail
  ⟨havail, p, hfind,
    Option.some.inj (hfind.symm.trans (by decide)), hadd (by decide)⟩

/-! ### Print manager: settings construction -/

theorem Dict.Find_Set (d : Dict) (k k' : SettingKey) (v : Value) :
    Dict.Find (Dict.Set d k v) k' = if k = k' then some v else Dict.Find d k' := by
  induction d with
  | nil => simp [Dict.Set, Dict.Find]
  | cons hd tl ih =>
      obtain ⟨k0, v0⟩ := hd
      by_cases h0 : k0 = k <;> by_cases h1 : k0 = k' <;> by_cases h2 : k = k' <;>
        simp_all [Dict.Set, Dict.Find]

theorem createPrintSettingsFromQPageLayout_counter (deps : PrintDeps) (n : Int)
    (pageLayout : QPageLayout) (useCSSMargins : Bool) :
    (createPrintSettingsFromQPageLayout deps n pageLayout useCSSMargins).2 = n + 1 := rfl

/-- `PrintToPDFInternal` in closed form. -/
theorem PrintToPDFInternal_eq (deps : PrintDeps) (wc : WebContents)
    (self : PrintViewManagerQt) (n : Int) (pageLayout : QPageLayout) (pageRanges : QPageRanges)
    (printInColor : Bool) (frameId : Nat) :
    PrintViewManagerQt.PrintToPDFInternal deps wc self n pageLayout pageRanges printInColor
        frameId
      = if pageLayout.isValid = false then (false, ⟨self, n, [], false⟩)
        else
          match PrintViewManagerQt.previewFrame deps wc pageLayout frameId with
          | none =>
              (false,
                ⟨{ self with
                    m_printSettings := (PrintViewManagerQt.builtPrintSettings deps wc n
                      pageLayout pageRanges printInColor) }, n + 1, [], false⟩)
          | some rfh =>
              (true,
                ⟨{ self with
                    m_printSettings := (PrintViewManagerQt.builtPrintSettings deps wc n
                      pageLayout pageRanges printInColor),
                    m_printPreviewRfh := some rfh }, n + 1,
                  [.InitiatePrintPreview rfh false], self.m_printPreviewRfh.isSome⟩) := by
  have hc := createPrintSettingsFromQPageLayout_counter deps n pageLayout
    (PrintViewManagerQt.useCSSMargins wc)
  cases hv : pageLayout.isValid
  · simp [PrintViewManagerQt.PrintToPDFInternal, hv]
  · cases hcr : wc.IsCrashed
    · by_cases hi : frameId = deps.kInvalidFrameId
      · simp [PrintViewManagerQt.PrintToPDFInternal, PrintViewManagerQt.previewFrame,
          PrintViewManagerQt.builtPrintSettings, PrintViewManagerQt.useCSSMargins, hv, hcr, hi]
          at hc ⊢
        exact hc
      · by_cases hm : frameId = deps.kUseMainFrameId
        · cases hp : wc.FindPdfChildFrame (wc.fullPagePlugin.getD wc.primaryMainFrame) <;>
            simp [PrintViewManagerQt.PrintToPDFInternal, PrintViewManagerQt.previewFrame,
              PrintViewManagerQt.builtPrintSettings, PrintViewManagerQt.useCSSMargins, hv, hcr,
              hi, hm, hp] at hc ⊢ <;> simp [← hm, hi, hc]
        · cases hf : wc.frameTreeNode frameId <;>
            simp [PrintViewManagerQt.PrintToPDFInternal, PrintViewManagerQt.previewFrame,
              PrintViewManagerQt.builtPrintSettings, PrintViewManagerQt.useCSSMargins, hv, hcr,
              hi, hm, hf] at hc ⊢ <;> exact hc
    · simp [PrintViewManagerQt.PrintToPDFInternal, PrintViewManagerQt.previewFrame,
        PrintViewManagerQt.builtPrintSettings, PrintViewManagerQt.useCSSMargins, hv, hcr]
        at hc ⊢
      exact hc

/-- `createPrintSettings` writes none of the margin keys and not the page-range key. -/
theorem createPrintSettings_Find_none (deps : PrintDeps) (n : Int) :
    Dict.Find (createPrintSettings deps n).1 .kSettingMarginsType = none
    ∧ Dict.Find (createPrintSettings deps n).1 .kSettingMarginsCustom = none
    ∧ Dict.Find (createPrintSettings deps n).1 .kSettingPageRange = none := by
  simp only [createPrintSettings, Dict.Find_Set]
  simp [Dict.Find]

/-- The margin entries and the page-range entry of the dictionary built from a page
layout. -/
theorem createPrintSettingsFromQPageLayout_Find (deps : PrintDeps) (n : Int)
    (pageLayout : QPageLayout) (useCSSMargins : Bool) :
    Dict.Find (createPrintSettingsFromQPageLayout deps n pageLayout useCSSMargins).1
        .kSettingMarginsType
      = some (.int (if useCSSMargins then deps.MarginType_kDefaultMargins
                    else deps.MarginType_kCustomMargins))
    ∧ Dict.Find (createPrintSettingsFromQPageLayout deps n pageLayout useCSSMargins).1
        .kSettingMarginsCustom
      = (if useCSSMargins then none
         else some (.dict [(.kSettingMarginTop, .int pageLayout.marginsPoints.top),
                           (.kSettingMarginBottom, .int pageLayout.marginsPoints.bottom),
                           (.kSettingMarginLeft, .int pageLayout.marginsPoints.left),
                           (.kSettingMarginRight, .int pageLayout.marginsPoints.right)]))
    ∧ Dict.Find (createPrintSettingsFromQPageLayout deps n pageLayout useCSSMargins).1
        .kSettingPageRange = none := by
  obtain ⟨h1, h2, h3⟩ := createPrintSettings_Find_none deps n
  unfold createPrintSettingsFromQPageLayout
  generalize createPrintSettings deps n = built at h1 h2 h3 ⊢
  obtain ⟨printSettings, counter⟩ := built
  cases useCSSMargins <;> simp_all [Dict.Find_Set, Dict.Set]

/-- The margin entries and the page-range entry of the dictionary a request stores. -/
theorem builtPrintSettings_Find (deps : PrintDeps) (wc : WebContents) (n : Int)
    (pageLayout : QPageLayout) (pageRanges : QPageRanges) (printInColor : Bool) :
    Dict.Find (PrintViewManagerQt.builtPrintSettings deps wc n pageLayout pageRanges
        printInColor) .kSettingMarginsType
      = some (.int (if PrintViewManagerQt.useCSSMargins wc then deps.MarginType_kDefaultMargins
                    else deps.MarginType_kCustomMargins))
    ∧ Dict.Find (PrintViewManagerQt.builtPrintSettings deps wc n pageLayout pageRanges
        printInColor) .kSettingMarginsCustom
      = (if PrintViewManagerQt.useCSSMargins wc then none
         else some (.dict [(.kSettingMarginTop, .int pageLayout.marginsPoints.top),
                           (.kSettingMarginBottom, .int pageLayout.marginsPoints.bottom),
                           (.kSettingMarginLeft, .int pageLayout.marginsPoints.left),
                           (.kSettingMarginRight, .int pageLayout.marginsPoints.right)]))
    ∧ Dict.Find (PrintViewManagerQt.builtPrintSettings deps wc n pageLayout pageRanges
        printInColor) .kSettingPageRange
      = (if pageRanges.isEmpty then none
         else some (.list (createPageRangeSettings pageRanges))) := by
  obtain ⟨h1, h2, h3⟩ := createPrintSettingsFromQPageLayout_Find deps n pageLayout
    (PrintViewManagerQt.useCSSMargins wc)
  simp only [PrintViewManagerQt.builtPrintSettings]
  cases pageRanges.isEmpty <;>
    cases (match wc.client with
      | some settings => settings.PrintHeaderAndFooter
      | none => false) <;>
    simp [Dict.Find_Set, h1, h2, h3]

theorem createPageRangeSettings_eq_map (ranges : List Range) :
    createPageRangeSettings ranges
      = ranges.map (fun r =>
          Value.dict [(.kSettingPageRangeFrom, .int r.«from»),
                      (.kSettingPageRangeTo, .int r.«to»)]) := by
  simp only [createPageRangeSettings]
  rw [foldl_append_singleton_eq_map (fun r : Range =>
    Value.dict (Dict.Set (Dict.Set [] .kSettingPageRangeFrom (.int r.«from»))
      .kSettingPageRangeTo (.int r.«to»)))]
  simp [Dict.Set]

/-- C11 counterexample: with a page layout that fails `isValid()`, `PrintToPDFInternal`
returns before building any settings, so a non-empty `QPageRanges` does not get the
page-range key set. -/
theorem C11_invalid_layout_sets_no_page_range_counterexample :
    ([⟨1, 2⟩] : QPageRanges).isEmpty = false
    ∧ (Dict.Find
        (PrintViewManagerQt.PrintToPDFInternal samplePrintDeps sampleWebContents
          PrintViewManagerQt.init 0 sampleInvalidPageLayout [⟨1, 2⟩] true
          samplePrintDeps.kUseMainFrameId).2.self.m_printSettings
        .kSettingPageRange).isSome = false := by
  decide

/-- C11 (amended): `createPageRangeSettings` returns a list of the same length as its
input whose `i`-th entry is a dictionary with `pageRangeFrom` and `pageRangeTo` equal to
the `i`-th range's `from` and `to`.  For a valid page layout, `PrintToPDFInternal` sets
the page-range key in the print settings if and only if the given `QPageRanges` is
non-empty, and then to that list; for an invalid page layout it returns `false` and
leaves the print settings as they were. -/
theorem C11_page_ranges_preserved (deps : PrintDeps) (wc : WebContents)
    (self : PrintViewManagerQt) (n : Int) (pageLayout : QPageLayout) (pageRanges : QPageRanges)
    (printInColor : Bool) (frameId : Nat) (ranges : List Range) :
    (createPageRangeSettings ranges).length = ranges.length
    ∧ (∀ (i : Nat) (h : i < ranges.length), ∃ pageRange : Dict,
        (createPageRangeSettings ranges)[i]? = some (.dict pageRange)
        ∧ Dict.Find pageRange .kSettingPageRangeFrom
            = some (.int (ranges.get ⟨i, h⟩).«from»)
        ∧ Dict.Find pageRange .kSettingPageRangeTo
            = some (.int (ranges.get ⟨i, h⟩).«to»))
    ∧ (pageLayout.isValid = true →
        ((Dict.Find (PrintViewManagerQt.PrintToPDFInternal deps wc self n pageLayout
              pageRanges printInColor frameId).2.self.m_printSettings
              .kSettingPageRange).isSome = true
          ↔ pageRanges.isEmpty = false)
        ∧ (pageRanges.isEmpty = false →
            Dict.Find (PrintViewManagerQt.PrintToPDFInternal deps wc self n pageLayout
              pageRanges printInColor frameId).2.self.m_printSettings .kSettingPageRange
              = some (.list (createPageRangeSettings pageRanges))))
    ∧ (pageLayout.isValid = false →
        PrintViewManagerQt.PrintToPDFInternal deps wc self n pageLayout pageRanges
          printInColor frameId = (false, ⟨self, n, [], false⟩)) := by
  refine ⟨?_, ?_, ?_, ?_⟩
  · simp [createPageRangeSettings_eq_map]
  · intro i h
    refine ⟨[(.kSettingPageRangeFrom, .int (ranges.get ⟨i, h⟩).«from»),
      (.kSettingPageRangeTo, .int (ranges.get ⟨i, h⟩).«to»)], ?_, ?_, ?_⟩
    · simp [createPageRangeSettings_eq_map, List.getElem?_eq_getElem h]
    · simp [Dict.Find]
    · simp [Dict.Find]
  · intro hvalid
    obtain ⟨-, -, hrange⟩ := builtPrintSettings_Find deps wc n pageLayout pageRanges
      printInColor
    have hsettings : (PrintViewManagerQt.PrintToPDFInternal deps wc self n pageLayout
        pageRanges printInColor frameId).2.self.m_printSettings
        = PrintViewManagerQt.builtPrintSettings deps wc n pageLayout pageRanges
            printInColor := by
      rw [PrintToPDFInternal_eq]
      simp only [hvalid, Bool.true_eq_false, if_false]
      cases PrintViewManagerQt.previewFrame deps wc pageLayout frameId <;> rfl
    rw [hsettings, hrange]
    cases pageRanges.isEmpty <;> simp
  · intro hinvalid
    rw [PrintToPDFInternal_eq]
    simp [hinvalid]

/-- C11 witness: two ranges on a valid layout. -/
theorem C11_page_ranges_preserved_witness :
    (createPageRangeSettings [⟨1, 2⟩, ⟨4, 4⟩]).length = 2
    ∧ (Dict.Find (PrintViewManagerQt.PrintToPDFInternal samplePrintDeps sampleWebContents
          PrintViewManagerQt.init 0 samplePageLayout [⟨1, 2⟩, ⟨4, 4⟩] true
          samplePrintDeps.kUseMainFrameId).2.self.m_printSettings
          .kSettingPageRange).isSome = true :=
  have h := C11_page_ranges_preserved samplePrintDeps sampleWebContents
    PrintViewManagerQt.init 0 samplePageLayout [⟨1, 2⟩, ⟨4, 4⟩] true
    samplePrintDeps.kUseMainFrameId [⟨1, 2⟩, ⟨4, 4⟩]
  ⟨h.1, ((h.2.2.1 rfl).1).mpr rfl⟩

/-- C12: the dictionary built by `createPrintSettingsFromQPageLayout` has margins type
`kDefaultMargins` and no custom-margins entry when `useCSSMargins` is on, and margins
type `kCustomMargins` with a custom-margins entry holding exactly the layout's top,
bottom, left and right margins in points when it is off.  `PrintToPDFInternal` passes
the `PreferCSSMarginsForPrinting` attribute as `useCSSMargins`, and `false` when no
adapter client is available, so the print settings it stores for a valid page layout
have their margins decided in this way. -/
theorem C12_css_margins_setting_decides_margins (deps : PrintDeps) (wc : WebContents)
    (self : PrintViewManagerQt) (n : Int) (pageLayout : QPageLayout) (pageRanges : QPageRanges)
    (printInColor : Bool) (frameId : Nat) :
    (Dict.Find (createPrintSettingsFromQPageLayout deps n pageLayout true).1
          .kSettingMarginsType = some (.int deps.MarginType_kDefaultMargins)
      ∧ Dict.Find (createPrintSettingsFromQPageLayout deps n pageLayout true).1
          .kSettingMarginsCustom = none)
    ∧ (Dict.Find (createPrintSettingsFromQPageLayout deps n pageLayout false).1
          .kSettingMarginsType = some (.int deps.MarginType_kCustomMargins)
      ∧ Dict.Find (createPrintSettingsFromQPageLayout deps n pageLayout false).1
          .kSettingMarginsCustom
          = some (.dict [(.kSettingMarginTop, .int pageLayout.marginsPoints.top),
                         (.kSettingMarginBottom, .int pageLayout.marginsPoints.bottom),
                         (.kSettingMarginLeft, .int pageLayout.marginsPoints.left),
                         (.kSettingMarginRight, .int pageLayout.marginsPoints.right)]))
    ∧ (PrintViewManagerQt.useCSSMargins wc
        = (wc.client.map (fun settings => settings.PreferCSSMarginsForPrinting)).getD false)
    ∧ (pageLayout.isValid = true →
        Dict.Find (PrintViewManagerQt.PrintToPDFInternal deps wc self n pageLayout pageRanges
            printInColor frameId).2.self.m_printSettings .kSettingMarginsType
          = Dict.Find (createPrintSettingsFromQPageLayout deps n pageLayout
              (PrintViewManagerQt.useCSSMargins wc)).1 .kSettingMarginsType
        ∧ Dict.Find (PrintViewManagerQt.PrintToPDFInternal deps wc self n pageLayout
            pageRanges printInColor frameId).2.self.m_printSettings .kSettingMarginsCustom
          = Dict.Find (createPrintSettingsFromQPageLayout deps n pageLayout
              (PrintViewManagerQt.useCSSMargins wc)).1 .kSettingMarginsCustom) := by
  obtain ⟨ht1, ht2, -⟩ := createPrintSettingsFromQPageLayout_Find deps n pageLayout true
  obtain ⟨hf1, hf2, -⟩ := createPrintSettingsFromQPageLayout_Find deps n pageLayout false
  refine ⟨⟨by simpa using ht1, by simpa using ht2⟩, ⟨by simpa using hf1, by simpa using hf2⟩,
    ?_, ?_⟩
  · cases hc : wc.client <;> simp [PrintViewManagerQt.useCSSMargins, hc]
  · intro hvalid
    obtain ⟨hb1, hb2, -⟩ := builtPrintSettings_Find deps wc n pageLayout pageRanges
      printInColor
    obtain ⟨hc1, hc2, -⟩ := createPrintSettingsFromQPageLayout_Find deps n pageLayout
      (PrintViewManagerQt.useCSSMargins wc)
    have hsettings : (PrintViewManagerQt.PrintToPDFInternal deps wc self n pageLayout
        pageRanges printInColor frameId).2.self.m_printSettings
        = PrintViewManagerQt.builtPrintSettings deps wc n pageLayout pageRanges
            printInColor := by
      rw [PrintToPDFInternal_eq]
      simp only [hvalid, Bool.true_eq_false, if_false]
      cases PrintViewManagerQt.previewFrame deps wc pageLayout frameId <;> rfl
    rw [hsettings, hb1, hb2, hc1, hc2]
    exact ⟨rfl, rfl⟩

/-- C12 witness: the same request with the setting off and on. -/
theorem C12_css_margins_setting_decides_margins_witness :
    Dict.Find (PrintViewManagerQt.PrintToPDFInternal samplePrintDeps sampleWebContents
        PrintViewManagerQt.init 0 samplePageLayout [] true
        samplePrintDeps.kUseMainFrameId).2.self.m_printSettings .kSettingMarginsType
      = some (.int samplePrintDeps.MarginType_kCustomMargins)
    ∧ Dict.Find (PrintViewManagerQt.PrintToPDFInternal samplePrintDeps sampleCssWebContents
        PrintViewManagerQt.init 0 samplePageLayout [] true
        samplePrintDeps.kUseMainFrameId).2.self.m_printSettings .kSettingMarginsType
      = some (.int samplePrintDeps.MarginType_kDefaultMargins) :=
  have hoff := C12_css_margins_setting_decides_margins samplePrintDeps sampleWebContents
    PrintViewManagerQt.init 0 samplePageLayout [] true samplePrintDeps.kUseMainFrameId
  have hon := C12_css_margins_setting_decides_margins samplePrintDeps sampleCssWebContents
    PrintViewManagerQt.init 0 samplePageLayout [] true samplePrintDeps.kUseMainFrameId
  ⟨((hoff.2.2.2 rfl).1).trans hoff.2.1.1, ((hon.2.2.2 rfl).1).trans hon.1.1⟩

/-! ### Print manager: dependence on earlier requests -/

/-- The tasks and preview calls of `PrintToPDFWithCallback`, in closed form. -/
theorem PrintToPDFWithCallback_effects (deps : PrintDeps) (wc : WebContents)
    (self : PrintViewManagerQt) (n : Int) (pageLayout : QPageLayout) (pageRanges : QPageRanges)
    (printInColor : Bool) (frameId : Nat) (cb : CallbackId) :
    (PrintViewManagerQt.PrintToPDFWithCallback deps wc self n pageLayout pageRanges
        printInColor frameId (some cb)).effects
      = if Dict.empty self.m_printSettings = false then [.postPrintCallback (some cb) none]
        else
          match PrintViewManagerQt.previewFrame deps wc pageLayout frameId with
          | some rfh => [.InitiatePrintPreview rfh false]
          | none => [.postPrintCallback (some cb) none] := by
  cases hempty : Dict.empty self.m_printSettings
  · simp [PrintViewManagerQt.PrintToPDFWithCallback, hempty]
  · simp only [PrintViewManagerQt.PrintToPDFWithCallback, hempty, Bool.not_true,
      Bool.false_eq_true, if_false, PrintToPDFInternal_eq, Bool.true_eq_false]
    cases hv : pageLayout.isValid
    · simp [PrintViewManagerQt.previewFrame, hv]
    · cases hp : PrintViewManagerQt.previewFrame deps wc pageLayout frameId <;> simp

/-- The tasks and preview calls of `PrintToPDFFileWithCallback`, in closed form. -/
theorem PrintToPDFFileWithCallback_effects (deps : PrintDeps) (wc : WebContents)
    (self : PrintViewManagerQt) (n : Int) (pageLayout : QPageLayout) (pageRanges : QPageRanges)
    (printInColor : Bool) (filePath : String) (frameId : Nat) (cb : CallbackId) :
    (PrintViewManagerQt.PrintToPDFFileWithCallback deps wc self n pageLayout pageRanges
        printInColor filePath frameId (some cb)).effects
      = if Dict.empty self.m_printSettings = false ∨ filePath.length = 0 then
          [.postSaveCallback (some cb) false]
        else
          match PrintViewManagerQt.previewFrame deps wc pageLayout frameId with
          | some rfh => [.InitiatePrintPreview rfh false]
          | none => [.postSaveCallback (some cb) false] := by
  cases hempty : Dict.empty self.m_printSettings
  · simp [PrintViewManagerQt.PrintToPDFFileWithCallback, hempty]
  · by_cases hpath : filePath.length = 0
    · simp [PrintViewManagerQt.PrintToPDFFileWithCallback, hempty, hpath]
    · simp only [PrintViewManagerQt.PrintToPDFFileWithCallback, hempty, Bool.not_true,
        Bool.false_or, beq_iff_eq, hpath, if_false, PrintToPDFInternal_eq, Bool.true_eq_false,
        false_or]
      cases hv : pageLayout.isValid
      · simp [PrintViewManagerQt.previewFrame, hv]
      · cases hp : PrintViewManagerQt.previewFrame deps wc pageLayout frameId <;> simp

/-- C13 counterexample: the same request, with the same arguments and the same web
contents, starts a job on a fresh manager and reports failure on the manager that the
first request left behind. -/
theorem C13_second_identical_request_fails_counterexample :
    ((PrintViewManagerQt.PrintToPDFWithCallback samplePrintDeps sampleWebContents
        PrintViewManagerQt.init 0 samplePageLayout [] true samplePrintDeps.kUseMainFrameId
        (some 11)).effects.filter PrintEffect.isInitiatePrintPreview).length = 1
    ∧ ((PrintViewManagerQt.PrintToPDFWithCallback samplePrintDeps sampleWebContents
        PrintViewManagerQt.init 0 samplePageLayout [] true samplePrintDeps.kUseMainFrameId
        (some 11)).effects.filter PrintEffect.isPostedCallback).length = 0
    ∧ ((PrintViewManagerQt.PrintToPDFWithCallback samplePrintDeps sampleWebContents
        samplePendingRun.self 1 samplePageLayout [] true samplePrintDeps.kUseMainFrameId
        (some 11)).effects.filter PrintEffect.isInitiatePrintPreview).length = 0
    ∧ ((PrintViewManagerQt.PrintToPDFWithCallback samplePrintDeps sampleWebContents
        samplePendingRun.self 1 samplePageLayout [] true samplePrintDeps.kUseMainFrameId
        (some 11)).effects.filter PrintEffect.isPostedCallback).length = 1 := by
  decide

theorem builtPrintSettings_not_empty (deps : PrintDeps) (wc : WebContents) (n : Int)
    (pageLayout : QPageLayout) (pageRanges : QPageRanges) (printInColor : Bool) :
    Dict.empty (PrintViewManagerQt.builtPrintSettings deps wc n pageLayout pageRanges
      printInColor) = false := by
  simp only [PrintViewManagerQt.builtPrintSettings]
  split <;> (try split) <;> exact Dict.empty_Set _ _ _

/-- What `PrintToPDFWithCallback` leaves behind besides its effects: whether the
`DCHECK` on the preview frame failed, and whether a print is pending afterwards. -/
theorem PrintToPDFWithCallback_after (deps : PrintDeps) (wc : WebContents)
    (self : PrintViewManagerQt) (n : Int) (pageLayout : QPageLayout) (pageRanges : QPageRanges)
    (printInColor : Bool) (frameId : Nat) (cb : CallbackId) :
    (PrintViewManagerQt.PrintToPDFWithCallback deps wc self n pageLayout pageRanges
        printInColor frameId (some cb)).dcheckFailed
      = (Dict.empty self.m_printSettings
          && (PrintViewManagerQt.previewFrame deps wc pageLayout frameId).isSome
          && self.m_printPreviewRfh.isSome)
    ∧ Dict.empty (PrintViewManagerQt.PrintToPDFWithCallback deps wc self n pageLayout
        pageRanges printInColor frameId (some cb)).self.m_printSettings
      = (Dict.empty self.m_printSettings
          && (PrintViewManagerQt.previewFrame deps wc pageLayout frameId).isNone) := by
  have hbuilt := builtPrintSettings_not_empty deps wc n pageLayout pageRanges printInColor
  cases hempty : Dict.empty self.m_printSettings
  · simp [PrintViewManagerQt.PrintToPDFWithCallback, hempty]
  · simp only [PrintViewManagerQt.PrintToPDFWithCallback, hempty, Bool.not_true,
      Bool.false_eq_true, if_false, PrintToPDFInternal_eq, Bool.true_eq_false]
    cases hv : pageLayout.isValid
    · simp [PrintViewManagerQt.previewFrame, PrintViewManagerQt.resetPdfState, Dict.empty, hv]
    · have hbuilt' : ¬ PrintViewManagerQt.builtPrintSettings deps wc n pageLayout pageRanges
          printInColor = [] := by simpa [Dict.empty] using hbuilt
      cases hp : PrintViewManagerQt.previewFrame deps wc pageLayout frameId <;>
        simp [PrintViewManagerQt.resetPdfState, Dict.empty, hbuilt']

/-- What `PrintToPDFFileWithCallback` leaves behind besides its effects. -/
theorem PrintToPDFFileWithCallback_after (deps : PrintDeps) (wc : WebContents)
    (self : PrintViewManagerQt) (n : Int) (pageLayout : QPageLayout) (pageRanges : QPageRanges)
    (printInColor : Bool) (filePath : String) (frameId : Nat) (cb : CallbackId) :
    (PrintViewManagerQt.PrintToPDFFileWithCallback deps wc self n pageLayout pageRanges
        printInColor filePath frameId (some cb)).dcheckFailed
      = (Dict.empty self.m_printSettings && decide (filePath.length ≠ 0)
          && (PrintViewManagerQt.previewFrame deps wc pageLayout frameId).isSome
          && self.m_printPreviewRfh.isSome)
    ∧ Dict.empty (PrintViewManagerQt.PrintToPDFFileWithCallback deps wc self n pageLayout
        pageRanges printInColor filePath frameId (some cb)).self.m_printSettings
      = (Dict.empty self.m_printSettings
          && (decide (filePath.length = 0)
              || (PrintViewManagerQt.previewFrame deps wc pageLayout frameId).isNone)) := by
  have hbuilt := builtPrintSettings_not_empty deps wc n pageLayout pageRanges printInColor
  cases hempty : Dict.empty self.m_printSettings
  · simp [PrintViewManagerQt.PrintToPDFFileWithCallback, hempty]
  · by_cases hpath : filePath.length = 0
    · simp [PrintViewManagerQt.PrintToPDFFileWithCallback, hempty, hpath]
    · simp only [PrintViewManagerQt.PrintToPDFFileWithCallback, hempty, Bool.not_true,
        Bool.false_or, beq_iff_eq, hpath, if_false, PrintToPDFInternal_eq, Bool.true_eq_false]
      cases hv : pageLayout.isValid
      · simp [PrintViewManagerQt.previewFrame, PrintViewManagerQt.resetPdfState, Dict.empty, hv]
      · have hbuilt' : ¬ PrintViewManagerQt.builtPrintSettings deps wc n pageLayout pageRanges
            printInColor = [] := by simpa [Dict.empty] using hbuilt
        cases hp : PrintViewManagerQt.previewFrame deps wc pageLayout frameId <;>
          simp [PrintViewManagerQt.resetPdfState, Dict.empty, hbuilt', hpath]

/-- The case left out of C13: after a request was cancelled by `NavigationStopped`
before the renderer answered, no print is pending but `m_printPreviewRfh` is still set,
and the next request that starts a job runs into `DCHECK(!m_printPreviewRfh)`. -/
theorem stale_preview_frame_fails_dcheck :
    Dict.empty sampleStoppedManager.m_printSettings = true
    ∧ sampleStoppedManager.m_printPreviewRfh = some 1
    ∧ (PrintViewManagerQt.PrintToPDFWithCallback samplePrintDeps sampleWebContents
        sampleStoppedManager 1 samplePageLayout [] true 5 (some 12)).effects
        = [.InitiatePrintPreview 2 false]
    ∧ (PrintViewManagerQt.PrintToPDFWithCallback samplePrintDeps sampleWebContents
        sampleStoppedManager 1 samplePageLayout [] true 5 (some 12)).dcheckFailed = true :=
  ⟨by decide, by decide, rfl, by decide⟩

/-- C13 (amended): the manager keeps state of its own that decides the outcome of a
request, namely whether a print is pending (`m_printSettings` non-empty).  Take two
managers that agree on whether a print is pending and that, when none is pending, hold
no preview frame (`m_printPreviewRfh` null, as on a new manager), whatever requests were
made to them before and whatever else they hold.  For the same arguments and web
contents `PrintToPDFWithCallback`, and likewise `PrintToPDFFileWithCallback`, has the
same outcome on both: the same posted tasks and the same preview started, no failed
`DCHECK`, and a print pending afterwards on both or on neither.  A request with a
non-null callback made while a print is pending reports failure: it posts the callback
with the failure value and changes nothing. -/
theorem C13_outcome_depends_only_on_pending_print (deps : PrintDeps) (wc : WebContents)
    (s1 s2 : PrintViewManagerQt) (n1 n2 : Int) (pageLayout : QPageLayout)
    (pageRanges : QPageRanges) (printInColor : Bool) (filePath : String) (frameId : Nat)
    (callback : Option CallbackId)
    (hsame : Dict.empty s1.m_printSettings = Dict.empty s2.m_printSettings)
    (hrfh1 : Dict.empty s1.m_printSettings = true → s1.m_printPreviewRfh = none)
    (hrfh2 : Dict.empty s2.m_printSettings = true → s2.m_printPreviewRfh = none) :
    ((PrintViewManagerQt.PrintToPDFWithCallback deps wc s1 n1 pageLayout pageRanges
          printInColor frameId callback).effects
        = (PrintViewManagerQt.PrintToPDFWithCallback deps wc s2 n2 pageLayout pageRanges
          printInColor frameId callback).effects
      ∧ (PrintViewManagerQt.PrintToPDFWithCallback deps wc s1 n1 pageLayout pageRanges
          printInColor frameId callback).dcheckFailed = false
      ∧ (PrintViewManagerQt.PrintToPDFWithCallback deps wc s2 n2 pageLayout pageRanges
          printInColor frameId callback).dcheckFailed = false
      ∧ Dict.empty (PrintViewManagerQt.PrintToPDFWithCallback deps wc s1 n1 pageLayout
          pageRanges printInColor frameId callback).self.m_printSettings
        = Dict.empty (PrintViewManagerQt.PrintToPDFWithCallback deps wc s2 n2 pageLayout
          pageRanges printInColor frameId callback).self.m_printSettings)
    ∧ ((PrintViewManagerQt.PrintToPDFFileWithCallback deps wc s1 n1 pageLayout pageRanges
          printInColor filePath frameId callback).effects
        = (PrintViewManagerQt.PrintToPDFFileWithCallback deps wc s2 n2 pageLayout pageRanges
          printInColor filePath frameId callback).effects
      ∧ (PrintViewManagerQt.PrintToPDFFileWithCallback deps wc s1 n1 pageLayout pageRanges
          printInColor filePath frameId callback).dcheckFailed = false
      ∧ (PrintViewManagerQt.PrintToPDFFileWithCallback deps wc s2 n2 pageLayout pageRanges
          printInColor filePath frameId callback).dcheckFailed = false
      ∧ Dict.empty (PrintViewManagerQt.PrintToPDFFileWithCallback deps wc s1 n1 pageLayout
          pageRanges printInColor filePath frameId callback).self.m_printSettings
        = Dict.empty (PrintViewManagerQt.PrintToPDFFileWithCallback deps wc s2 n2 pageLayout
          pageRanges printInColor filePath frameId callback).self.m_printSettings)
    ∧ (∀ cb : CallbackId, Dict.empty s1.m_printSettings = false → callback = some cb →
        PrintViewManagerQt.PrintToPDFWithCallback deps wc s1 n1 pageLayout pageRanges
            printInColor frameId callback
          = { self := s1, internalRequestId := n1,
              effects := [.postPrintCallback (some cb) none] }
        ∧ PrintViewManagerQt.PrintToPDFFileWithCallback deps wc s1 n1 pageLayout pageRanges
            printInColor filePath frameId callback
          = { self := s1, internalRequestId := n1,
              effects := [.postSaveCallback (some cb) false] }) := by
  refine ⟨?_, ?_, ?_⟩
  · cases callback with
    | none => exact ⟨rfl, rfl, rfl, hsame⟩
    | some cb =>
        obtain ⟨hd1, he1⟩ := PrintToPDFWithCallback_after deps wc s1 n1 pageLayout pageRanges
          printInColor frameId cb
        obtain ⟨hd2, he2⟩ := PrintToPDFWithCallback_after deps wc s2 n2 pageLayout pageRanges
          printInColor frameId cb
        rw [PrintToPDFWithCallback_effects, PrintToPDFWithCallback_effects, hd1, hd2, he1, he2,
          hsame]
        refine ⟨rfl, ?_, ?_, rfl⟩
        · cases h : Dict.empty s2.m_printSettings
          · simp
          · simp [hrfh1 (hsame.trans h)]
        · cases h : Dict.empty s2.m_printSettings
          · simp
          · simp [hrfh2 h]
  · cases callback with
    | none => exact ⟨rfl, rfl, rfl, hsame⟩
    | some cb =>
        obtain ⟨hd1, he1⟩ := PrintToPDFFileWithCallback_after deps wc s1 n1 pageLayout
          pageRanges printInColor filePath frameId cb
        obtain ⟨hd2, he2⟩ := PrintToPDFFileWithCallback_after deps wc s2 n2 pageLayout
          pageRanges printInColor filePath frameId cb
        rw [PrintToPDFFileWithCallback_effects, PrintToPDFFileWithCallback_effects, hd1, hd2,
          he1, he2, hsame]
        refine ⟨rfl, ?_, ?_, rfl⟩
        · cases h : Dict.empty s2.m_printSettings
          · simp
          · simp [hrfh1 (hsame.trans h)]
        · cases h : Dict.empty s2.m_printSettings
          · simp
          · simp [hrfh2 h]
  · intro cb hpending hcb
    subst hcb
    constructor
    · simp [PrintViewManagerQt.PrintToPDFWithCallback, hpending]
    · simp [PrintViewManagerQt.PrintToPDFFileWithCallback, hpending]

/-- C13 witness: a new manager and one on which an earlier request ran to its end
start the same job, and the manager with that job pending reports failure. -/
theorem C13_outcome_depends_only_on_pending_print_witness :
    (PrintViewManagerQt.PrintToPDFWithCallback samplePrintDeps sampleWebContents
        PrintViewManagerQt.init 0 samplePageLayout [] true 5 (some 12)).effects
      = (PrintViewManagerQt.PrintToPDFWithCallback samplePrintDeps sampleWebContents
        sampleFinishedManager 1 samplePageLayout [] true 5 (some 12)).effects
    ∧ (PrintViewManagerQt.PrintToPDFWithCallback samplePrintDeps sampleWebContents
        sampleFinishedManager 1 samplePageLayout [] true 5 (some 12)).effects
      = [.InitiatePrintPreview 2 false]
    ∧ (PrintViewManagerQt.PrintToPDFWithCallback samplePrintDeps sampleWebContents
        sampleFinishedManager 1 samplePageLayout [] true 5 (some 12)).dcheckFailed = false
    ∧ (PrintViewManagerQt.PrintToPDFWithCallback samplePrintDeps sampleWebContents
        samplePendingRun.self 1 samplePageLayout [] true 5 (some 12)).effects
      = [.postPrintCallback (some 12) none] :=
  have hidle := C13_outcome_depends_only_on_pending_print samplePrintDeps sampleWebContents
    PrintViewManagerQt.init sampleFinishedManager 0 1 samplePageLayout [] true "/tmp/out.pdf" 5
    (some 12) (by decide) (by decide) (by decide)
  have hpending := C13_outcome_depends_only_on_pending_print samplePrintDeps
    sampleWebContents samplePendingRun.self samplePendingRun.self 1 1 samplePageLayout [] true
    "/tmp/out.pdf" 5 (some 12) rfl (by decide) (by decide)
  ⟨hidle.1.1, rfl, hidle.1.2.2.1, by rw [(hpending.2.2 12 (by decide) rfl).1]⟩

/-- C14: with a null callback, `PrintToPDFWithCallback` and `PrintToPDFFileWithCallback`
return at once, for every manager state and all other arguments: no task is posted, no
print preview is started (the effect list is empty) and every field of the manager, as
well as the request counter, is unchanged. -/
theorem C14_null_callback_is_ignored (deps : PrintDeps) (wc : WebContents)
    (self : PrintViewManagerQt) (n : Int) (pageLayout : QPageLayout) (pageRanges : QPageRanges)
    (printInColor : Bool) (filePath : String) (frameId : Nat) :
    PrintViewManagerQt.PrintToPDFWithCallback deps wc self n pageLayout pageRanges
        printInColor frameId none
      = { self := self, internalRequestId := n, effects := [] }
    ∧ PrintViewManagerQt.PrintToPDFFileWithCallback deps wc self n pageLayout pageRanges
        printInColor filePath frameId none
      = { self := self, internalRequestId := n, effects := [] } :=
  ⟨rfl, rfl⟩

/-! ### Print manager: cancelling -/

/-- What `NavigationStopped` and `PrimaryMainFrameRenderProcessGone` do in every state:
the manager ends up idle, and the only task posted is the in-memory callback, if one is
stored.  The save-to-file callback is reset without being posted. -/
theorem cancel_spec (self : PrintViewManagerQt) (n : Int) (status : Nat) :
    (PrintViewManagerQt.NavigationStopped self n).self.isIdle
    ∧ (PrintViewManagerQt.NavigationStopped self n).effects
        = (match self.m_pdfPrintCallback with
           | some cb => [.postPrintCallback (some cb) none]
           | none => []) ++ [.baseNavigationStopped]
    ∧ (PrintViewManagerQt.PrimaryMainFrameRenderProcessGone self n status).self.isIdle
    ∧ (PrintViewManagerQt.PrimaryMainFrameRenderProcessGone self n status).effects
        = [.basePrimaryMainFrameRenderProcessGone status]
          ++ (match self.m_pdfPrintCallback with
              | some cb => [.postPrintCallback (some cb) none]
              | none => []) := by
  refine ⟨PrintViewManagerQt.isIdle_resetPdfState _, ?_,
    PrintViewManagerQt.isIdle_resetPdfState _, ?_⟩
  · cases h : self.m_pdfPrintCallback <;> simp [PrintViewManagerQt.NavigationStopped, h]
  · cases h : self.m_pdfPrintCallback <;>
      simp [PrintViewManagerQt.PrimaryMainFrameRenderProcessGone, h]

/-- C18, the code at the failing input: a manager with a pending save-to-file job
(callback 21) is idle after `NavigationStopped` and after
`PrimaryMainFrameRenderProcessGone`, but neither of them posts any callback task: the
stored save callback is reset without being run.  The same two calls on a pending
in-memory job (callback 11) post that callback once. -/
theorem C18_cancel_drops_save_to_file_callback :
    samplePendingFileRun.self.m_pdfSaveCallback = some 21
    ∧ Dict.empty samplePendingFileRun.self.m_printSettings = false
    ∧ ((PrintViewManagerQt.NavigationStopped samplePendingFileRun.self 1).effects.filter
        PrintEffect.isPostedCallback).length = 0
    ∧ (PrintViewManagerQt.NavigationStopped samplePendingFileRun.self 1).self.m_pdfSaveCallback
        = none
    ∧ ((PrintViewManagerQt.PrimaryMainFrameRenderProcessGone samplePendingFileRun.self 1
        0).effects.filter PrintEffect.isPostedCallback).length = 0
    ∧ (PrintViewManagerQt.PrimaryMainFrameRenderProcessGone samplePendingFileRun.self 1
        0).self.m_pdfSaveCallback = none
    ∧ ((PrintViewManagerQt.NavigationStopped samplePendingRun.self 1).effects.filter
        PrintEffect.isPostedCallback).length = 1 := by
  decide

/-! ### Thread assertions -/

/-- The methods that do assert their thread: off the IO thread every mojo method of
the cookie proxy, its `CreateAndBindOnIoThread`, and `Clone` and `AllowStorageAccess` of
the content settings manager stop at the assertion before any effect; off the UI
thread so do `CreateAndBind` and `Create`; on the right thread the two entry points post
the binding task. -/
theorem thread_assertions_present (deps : CookieDeps)
    (proxy : ProxyingRestrictedCookieManagerQt) (manager : ContentSettingsManagerQt)
    (method : ProxyMethod) (profileIoData underlying_rcm receiver : Nat)
    (origin top_frame_origin : GURL) (callback : CallbackId) :
    ProxyingRestrictedCookieManagerQt.runOnThread .uiThread deps proxy method = .dcheckFailed .ioThread
    ∧ ProxyingRestrictedCookieManagerQt.CreateAndBindOnIoThread .uiThread profileIoData
        underlying_rcm receiver = .dcheckFailed .ioThread
    ∧ ContentSettingsManagerQt.Clone .uiThread manager receiver = .dcheckFailed .ioThread
    ∧ ContentSettingsManagerQt.AllowStorageAccess .uiThread deps manager origin top_frame_origin
        callback = .dcheckFailed .ioThread
    ∧ ProxyingRestrictedCookieManagerQt.CreateAndBind .ioThread profileIoData underlying_rcm
        receiver = .dcheckFailed .uiThread
    ∧ ContentSettingsManagerQt.Create .ioThread profileIoData receiver = .dcheckFailed .uiThread
    ∧ ProxyingRestrictedCookieManagerQt.CreateAndBind .uiThread profileIoData underlying_rcm
        receiver = .done [.postProxyCreateAndBindOnIoThread profileIoData underlying_rcm receiver]
    ∧ ContentSettingsManagerQt.Create .uiThread profileIoData receiver
        = .done [.postCreateAndBindOnIoThread profileIoData receiver] := by
  refine ⟨?_, rfl, rfl, rfl, rfl, rfl, rfl, rfl⟩
  cases method <;> rfl

/-- C15, the code at the failing input: run on the UI thread,
`ContentSettingsManagerQt::CreateAndBindOnIoThread` is stopped by no assertion and goes
on to call `getWeakPtrOnIOThread()` on the profile IO data and to bind the receiver,
whereas `ProxyingRestrictedCookieManagerQt::CreateAndBindOnIoThread` stops at its
`DCHECK_CURRENTLY_ON(content::BrowserThread::IO)`. -/
theorem C15_content_settings_bind_has_no_thread_assertion :
    ContentSettingsManagerQt.CreateAndBindOnIoThread .uiThread 1 2
      = .done [.getWeakPtrOnIOThread, .MakeSelfOwnedReceiver 2]
    ∧ ProxyingRestrictedCookieManagerQt.CreateAndBindOnIoThread .uiThread 1 3 2
      = .dcheckFailed .ioThread := by
  decide

/-! ### Clipboard: `ReadHTML` -/

theorem checked_cast_uint32_eq_some (x y : Nat) (h : checked_cast_uint32 x = some y) :
    y = x := by
  unfold checked_cast_uint32 at h
  split at h
  · exact (Option.some.inj h).symm
  · exact absurd h (by simp)

/-- Whenever `ReadHTML` returns, the fragment lies within the markup. -/
theorem ReadHTML_fragment_within (deps : ClipboardDeps)
    (clipboard : QClipboardMode → Option QMimeData) (type : ClipboardBuffer)
    (src_url : Option StdString) (out : ReadHTMLOut)
    (h : ClipboardQt.ReadHTML deps clipboard type src_url = .returned out) :
    out.fragment_start ≤ out.fragment_end ∧ out.fragment_end ≤ out.markup.length := by
  unfold ClipboardQt.ReadHTML at h
  simp only at h
  split at h
  · cases h
    simp
  · split at h
    · cases h
      simp only [static_cast_uint32]
      exact ⟨Nat.zero_le _, Nat.mod_le _ _⟩
    · split at h
      · cases h
        simp
      · split at h
        · cases h
          simp
        · split at h
          · cases h
          · split at h
            · cases h
            · split at h
              · cases h
              · rename_i hstart _ _ hend
                cases h
                have h1 := checked_cast_uint32_eq_some _ _ hstart
                have h2 := checked_cast_uint32_eq_some _ _ hend
                simp only [h1, h2]
                exact ⟨Nat.min_le_right _ _, Nat.min_le_right _ _⟩

/-- `ReadHTML` on a platform other than Windows, in closed form. -/
theorem ReadHTML_not_windows (deps : ClipboardDeps)
    (clipboard : QClipboardMode → Option QMimeData) (type : ClipboardBuffer)
    (src_url : Option StdString) (html : QString) (hwin : deps.Q_OS_WIN = false)
    (hmime : clipboard (if type = .kCopyPaste then .Clipboard else .Selection)
      = some ⟨html⟩) :
    ClipboardQt.ReadHTML deps clipboard type src_url
      = .returned ⟨deps.toString16 html, src_url.map (fun _ => ""), 0,
          (deps.toString16 html).length % 2 ^ 32⟩ := by
  simp only [ClipboardQt.ReadHTML, hmime, hwin, Bool.not_false, if_true, static_cast_uint32]

/-- The sample HTML has 2^32 code units. -/
theorem sampleHugeHtml_length :
    (sampleClipboardDeps.toString16 sampleHugeHtml).length = 4294967296 := by
  simp only [sampleClipboardDeps, sampleHugeHtml, List.length_map, List.length_replicate]

/-- `ReadHTML` on Windows, in closed form. -/
theorem ReadHTML_windows (deps : ClipboardDeps)
    (clipboard : QClipboardMode → Option QMimeData) (type : ClipboardBuffer)
    (src_url : Option StdString) (mimeData : QMimeData) (hwin : deps.Q_OS_WIN = true)
    (hmime : clipboard (if type = .kCopyPaste then .Clipboard else .Selection)
      = some mimeData) :
    ClipboardQt.ReadHTML deps clipboard type src_url
      = if ClipboardQt.fragmentFound deps
            (deps.CFHtmlExtractMetadata (deps.toStdString mimeData.html)) = false then
          .returned ⟨[], ClipboardQt.srcUrlOut src_url
            (deps.CFHtmlExtractMetadata (deps.toStdString mimeData.html)), 0, 0⟩
        else
          match cStringAt (deps.toStdString mimeData.html)
              (deps.CFHtmlExtractMetadata (deps.toStdString mimeData.html)).html_start with
          | none => .outOfBoundsRead
          | some utf8 =>
              if ClipboardQt.fragmentEnd deps utf8
                  (deps.CFHtmlExtractMetadata (deps.toStdString mimeData.html)) < 2 ^ 32 then
                .returned
                  ⟨(ClipboardQt.converted deps utf8
                      (deps.CFHtmlExtractMetadata (deps.toStdString mimeData.html))).1,
                    ClipboardQt.srcUrlOut src_url
                      (deps.CFHtmlExtractMetadata (deps.toStdString mimeData.html)),
                    min (ClipboardQt.converted deps utf8
                        (deps.CFHtmlExtractMetadata (deps.toStdString mimeData.html))).2.1
                      (ClipboardQt.fragmentEnd deps utf8
                        (deps.CFHtmlExtractMetadata (deps.toStdString mimeData.html))),
                    ClipboardQt.fragmentEnd deps utf8
                      (deps.CFHtmlExtractMetadata (deps.toStdString mimeData.html))⟩
              else .checkedCastFailed := by
  simp only [ClipboardQt.ReadHTML, hmime, hwin, Bool.not_true, Bool.false_eq_true, if_false,
    ClipboardQt.fragmentFound, ClipboardQt.fragmentEnd, ClipboardQt.converted]
  generalize deps.CFHtmlExtractMetadata (deps.toStdString mimeData.html) = found
  cases hA : (decide (found.start_index = deps.npos) || decide (found.end_index = deps.npos)
      || decide (found.html_start = deps.npos))
  · cases hB : (decide (found.start_index < found.html_start)
        || decide (found.end_index < found.start_index))
    · simp only [Bool.false_eq_true, if_false, Bool.not_false, Bool.and_self, Bool.true_eq_false]
      cases cStringAt (deps.toStdString mimeData.html) found.html_start with
      | none => rfl
      | some utf8 =>
          simp only [checked_cast_uint32]
          by_cases hlt : min
              (deps.UTF8ToUTF16AndAdjustOffsets utf8
                (found.start_index - found.html_start, found.end_index - found.html_start)).2.2
              (deps.UTF8ToUTF16AndAdjustOffsets utf8
                (found.start_index - found.html_start,
                  found.end_index - found.html_start)).1.length < 2 ^ 32
          · have hlt' := Nat.lt_of_le_of_lt (Nat.min_le_right
              (deps.UTF8ToUTF16AndAdjustOffsets utf8
                (found.start_index - found.html_start,
                  found.end_index - found.html_start)).2.1 _) hlt
            simp only [hlt, hlt', if_true]
            rfl
          · simp only [hlt, if_false]
            split <;> rfl
    · simp only [Bool.false_eq_true, if_false, if_true, Bool.not_false, Bool.not_true,
        Bool.and_false]
      rfl
  · simp only [if_true, Bool.not_true, Bool.false_and]
    rfl

theorem cStringAt_eq_none (s : ByteString) (offset : Nat) :
    cStringAt s offset = none ↔ s.length < offset := by
  unfold cStringAt
  split
  · simp only [reduceCtorEq, false_iff]
    omega
  · simp only [true_iff]
    omega

/-- The sample Windows build on a clipboard text without NUL characters: the whole text
is the fragment, and a text of 2^32 code units or more stops at `base::checked_cast`. -/
theorem ReadHTML_sampleWindowsDeps (html : QString) (type : ClipboardBuffer)
    (hnul : ∀ b ∈ html.data.map Char.toNat, (b != 0) = true)
    (hlen : (html.data.map Char.toNat).length ≠ 2 ^ 64 - 1) :
    ClipboardQt.ReadHTML sampleWindowsDeps (fun _ => some ⟨html⟩) type none
      = if (html.data.map Char.toNat).length < 2 ^ 32 then
          .returned ⟨html.data.map Char.toNat, none, 0, (html.data.map Char.toNat).length⟩
        else .checkedCastFailed := by
  rw [ReadHTML_windows sampleWindowsDeps (fun _ => some ⟨html⟩) type none ⟨html⟩ rfl rfl]
  simp only [sampleWindowsDeps, sampleClipboardDeps]
  generalize html.data.map Char.toNat = bytes at hnul hlen ⊢
  have htake : bytes.takeWhile (fun b => b != 0) = bytes :=
    List.takeWhile_eq_self_iff.mpr hnul
  have hfound : ClipboardQt.fragmentFound
      { Q_OS_WIN := true, toString16 := fun q => List.map Char.toNat q.data,
        toStdString := fun q => List.map Char.toNat q.data, npos := 2 ^ 64 - 1,
        CFHtmlExtractMetadata := fun cf_html => ⟨none, 0, 0, cf_html.length⟩,
        UTF8ToUTF16AndAdjustOffsets := fun s offsets => (s, offsets) }
      ⟨none, 0, 0, bytes.length⟩ = true := by
    have hlen' : ¬ bytes.length = 18446744073709551615 := hlen
    simp [ClipboardQt.fragmentFound, hlen']
  simp only [hfound, Bool.true_eq_false, if_false, cStringAt, Nat.zero_le, if_true,
    List.drop_zero, htake, ClipboardQt.fragmentEnd, ClipboardQt.converted, Nat.sub_zero,
    Nat.min_self, Nat.zero_min, ClipboardQt.srcUrlOut, Option.map_none']

/-- The Windows branch on the clipboard text of 2^32 code units: `base::checked_cast`
stops the process where the branch for other platforms returns a wrapped offset. -/
theorem ReadHTML_windows_checked_cast_stops :
    ClipboardQt.ReadHTML sampleWindowsDeps sampleHugeClipboard .kCopyPaste none
      = .checkedCastFailed := by
  have h := ReadHTML_sampleWindowsDeps sampleHugeHtml .kCopyPaste
    (by
      intro b hb
      simp only [sampleHugeHtml, List.map_replicate] at hb
      rw [List.eq_of_mem_replicate hb]
      decide)
    (by
      simp only [sampleHugeHtml, List.length_map, List.length_replicate]
      decide)
  simp only [sampleHugeHtml, List.length_map, List.length_replicate] at h
  exact h.trans (if_neg (by decide))

/-- C17 counterexample: a clipboard holding HTML of 2^32 code units.  On a platform
other than Windows `ReadHTML` returns a markup of length 4294967296 and `fragment_end`
0, so `fragment_end` is not the markup length; on Windows it does not return, stopped by
`base::checked_cast`. -/
theorem C17_fragment_end_wraps_counterexample :
    ClipboardQt.ReadHTML sampleClipboardDeps sampleHugeClipboard .kCopyPaste none
        = .returned ⟨sampleClipboardDeps.toString16 sampleHugeHtml, none, 0, 0⟩
      ∧ (sampleClipboardDeps.toString16 sampleHugeHtml).length = 4294967296
      ∧ (0 : Nat) ≠ (sampleClipboardDeps.toString16 sampleHugeHtml).length
      ∧ ClipboardQt.ReadHTML sampleWindowsDeps sampleHugeClipboard .kCopyPaste none
        = .checkedCastFailed := by
  have hmod : (sampleClipboardDeps.toString16 sampleHugeHtml).length % 2 ^ 32 = 0 := by
    rw [sampleHugeHtml_length]
    decide
  have hret := ReadHTML_not_windows sampleClipboardDeps sampleHugeClipboard .kCopyPaste none
    sampleHugeHtml rfl rfl
  refine ⟨?_, sampleHugeHtml_length, ?_, ReadHTML_windows_checked_cast_stops⟩
  · rw [hret, hmod]
    rfl
  · rw [sampleHugeHtml_length]
    decide

/-- C17 (amended): whenever `ReadHTML` returns, its outputs satisfy
`0 <= fragment_start <= fragment_end <= markup.length()`.  With no MIME data on the
clipboard it returns an empty markup and both offsets 0.  On platforms other than
Windows it always returns, with `fragment_start` 0 and with `fragment_end` equal to the
markup length whenever that length is below 2^32.  On Windows there are exactly two ways
not to return, both after `CFHtmlExtractMetadata` found the three offsets in order: the
HTML start offset lies past the end of the clipboard text, or the fragment end
`min(offsets[1], markup.length())` is 2^32 or more, where `base::checked_cast` stops the
process.  Otherwise `ReadHTML` returns on Windows too: an empty markup and both offsets
0 when the offsets were not found in order, else the converted markup with
`fragment_end = min(offsets[1], markup.length())` and
`fragment_start = min(offsets[0], fragment_end)`. -/
theorem C17_read_html_fragment_within_markup (deps : ClipboardDeps)
    (clipboard : QClipboardMode → Option QMimeData) (type : ClipboardBuffer)
    (src_url : Option StdString) :
    (∀ out, ClipboardQt.ReadHTML deps clipboard type src_url = .returned out →
        0 ≤ out.fragment_start ∧ out.fragment_start ≤ out.fragment_end
          ∧ out.fragment_end ≤ out.markup.length)
    ∧ (clipboard (if type = .kCopyPaste then .Clipboard else .Selection) = none →
        ClipboardQt.ReadHTML deps clipboard type src_url
          = .returned ⟨[], src_url.map (fun _ => ""), 0, 0⟩)
    ∧ (deps.Q_OS_WIN = false →
        ∃ out, ClipboardQt.ReadHTML deps clipboard type src_url = .returned out
          ∧ out.fragment_start = 0
          ∧ (out.markup.length < 2 ^ 32 → out.fragment_end = out.markup.length))
    ∧ (deps.Q_OS_WIN = true →
        ∀ mimeData : QMimeData,
          clipboard (if type = .kCopyPaste then .Clipboard else .Selection) = some mimeData →
          (ClipboardQt.ReadHTML deps clipboard type src_url = .outOfBoundsRead
            ↔ ClipboardQt.fragmentFound deps
                (deps.CFHtmlExtractMetadata (deps.toStdString mimeData.html)) = true
              ∧ (deps.toStdString mimeData.html).length
                < (deps.CFHtmlExtractMetadata (deps.toStdString mimeData.html)).html_start)
          ∧ (ClipboardQt.ReadHTML deps clipboard type src_url = .checkedCastFailed
            ↔ ClipboardQt.fragmentFound deps
                (deps.CFHtmlExtractMetadata (deps.toStdString mimeData.html)) = true
              ∧ ∃ utf8, cStringAt (deps.toStdString mimeData.html)
                    (deps.CFHtmlExtractMetadata (deps.toStdString mimeData.html)).html_start
                  = some utf8
                ∧ 2 ^ 32 ≤ ClipboardQt.fragmentEnd deps utf8
                    (deps.CFHtmlExtractMetadata (deps.toStdString mimeData.html)))
          ∧ (ClipboardQt.fragmentFound deps
                (deps.CFHtmlExtractMetadata (deps.toStdString mimeData.html)) = false →
              ∃ out, ClipboardQt.ReadHTML deps clipboard type src_url = .returned out
                ∧ out.markup = [] ∧ out.fragment_start = 0 ∧ out.fragment_end = 0)
          ∧ (∀ utf8,
              ClipboardQt.fragmentFound deps
                (deps.CFHtmlExtractMetadata (deps.toStdString mimeData.html)) = true →
              cStringAt (deps.toStdString mimeData.html)
                  (deps.CFHtmlExtractMetadata (deps.toStdString mimeData.html)).html_start
                = some utf8 →
              ClipboardQt.fragmentEnd deps utf8
                  (deps.CFHtmlExtractMetadata (deps.toStdString mimeData.html)) < 2 ^ 32 →
              ∃ out, ClipboardQt.ReadHTML deps clipboard type src_url = .returned out
                ∧ out.markup = (ClipboardQt.converted deps utf8
                    (deps.CFHtmlExtractMetadata (deps.toStdString mimeData.html))).1
                ∧ out.fragment_start
                    = min (ClipboardQt.converted deps utf8
                        (deps.CFHtmlExtractMetadata (deps.toStdString mimeData.html))).2.1
                      (ClipboardQt.fragmentEnd deps utf8
                        (deps.CFHtmlExtractMetadata (deps.toStdString mimeData.html)))
                ∧ out.fragment_end = ClipboardQt.fragmentEnd deps utf8
                    (deps.CFHtmlExtractMetadata (deps.toStdString mimeData.html)))) := by
  refine ⟨?_, ?_, ?_, ?_⟩
  · intro out h
    have hw := ReadHTML_fragment_within deps clipboard type src_url out h
    exact ⟨Nat.zero_le _, hw.1, hw.2⟩
  · intro hnone
    simp only [ClipboardQt.ReadHTML, hnone]
  · intro hwin
    cases hmime : clipboard (if type = .kCopyPaste then .Clipboard else .Selection) with
    | none =>
        refine ⟨⟨[], src_url.map (fun _ => ""), 0, 0⟩, ?_, rfl, ?_⟩
        · simp only [ClipboardQt.ReadHTML, hmime]
        · intro _
          rfl
    | some mimeData =>
        obtain ⟨html⟩ := mimeData
        refine ⟨_, ReadHTML_not_windows deps clipboard type src_url html hwin hmime, rfl, ?_⟩
        intro hlt
        exact Nat.mod_eq_of_lt hlt
  · intro hwin mimeData hmime
    rw [ReadHTML_windows deps clipboard type src_url mimeData hwin hmime]
    generalize deps.CFHtmlExtractMetadata (deps.toStdString mimeData.html) = found
    cases hfound : ClipboardQt.fragmentFound deps found
    · simp
    · cases hcs : cStringAt (deps.toStdString mimeData.html) found.html_start with
      | none =>
          have hpast := (cStringAt_eq_none _ _).mp hcs
          simp [hpast]
      | some utf8 =>
          have hnot : ¬ (deps.toStdString mimeData.html).length < found.html_start := by
            intro hpast
            rw [(cStringAt_eq_none _ _).mpr hpast] at hcs
            exact absurd hcs (by simp)
          by_cases hlt : ClipboardQt.fragmentEnd deps utf8 found < 4294967296
          · simp [hlt, hnot]
          · simp [hlt, hnot]
            omega

/-- C17 witness: the same short fragment on a platform other than Windows and on
Windows. -/
theorem C17_read_html_fragment_within_markup_witness :
    (∃ out, ClipboardQt.ReadHTML sampleClipboardDeps sampleClipboard .kCopyPaste none
        = .returned out
      ∧ out.fragment_start = 0 ∧ out.fragment_end = 9 ∧ out.markup.length = 9)
    ∧ (∃ out, ClipboardQt.ReadHTML sampleWindowsDeps sampleClipboard .kCopyPaste none
        = .returned out
      ∧ out.fragment_start = 0 ∧ out.fragment_end = 9 ∧ out.markup.length = 9) :=
  have hnot := (C17_read_html_fragment_within_markup sampleClipboardDeps sampleClipboard
    .kCopyPaste none).2.2.1 rfl
  have hwin := ((C17_read_html_fragment_within_markup sampleWindowsDeps sampleClipboard
    .kCopyPaste none).2.2.2 rfl ⟨"<b>hi</b>"⟩ rfl).2.2.2
      [60, 98, 62, 104, 105, 60, 47, 98, 62] (by decide) (by decide) (by decide)
  ⟨let ⟨out, hret, hstart, hsmall⟩ := hnot
   have hout : out = ⟨sampleClipboardDeps.toString16 "<b>hi</b>", none, 0, 9⟩ :=
     ReadHTMLEnd.returned.inj (hret.symm.trans (by decide))
   ⟨out, hret, hstart, by rw [hout], by rw [hout]; decide⟩,
   let ⟨out, hret, hmarkup, hstart, hend⟩ := hwin
   ⟨out, hret, by rw [hstart]; decide, by rw [hend]; decide, by rw [hmarkup]; decide⟩⟩

/-! ### Accessibility tree -/

theorem AccessibilityNode.nodeAt_append (view : AccessibilityNode)
    (n : QAccessibleInterface) (node : AccessibilityNode) (k : Nat)
    (h : view.nodeAt n = some node) :
    view.nodeAt (n ++ [k]) = node.children[k]? := by
  induction n generalizing view with
  | nil =>
      simp only [AccessibilityNode.nodeAt, Option.some.injEq] at h
      subst h
      simp only [List.nil_append, AccessibilityNode.nodeAt]
      cases view.children[k]? <;> rfl
  | cons i rest ih =>
      simp only [AccessibilityNode.nodeAt, List.cons_append] at h ⊢
      cases hc : view.children[i]? with
      | none => simp [hc] at h
      | some c =>
          simp only [hc] at h ⊢
          exact ih c h

/-- Every reachable interface stands for a node. -/
theorem QAccessibleInterface.Reachable.nodeAt_isSome (view : AccessibilityNode)
    (n : QAccessibleInterface) (h : QAccessibleInterface.Reachable view n) :
    ∃ node, view.nodeAt n = some node := by
  induction h with
  | view => exact ⟨view, rfl⟩
  | child n c index _ hchild ih =>
      obtain ⟨node, hnode⟩ := ih
      simp only [QAccessibleInterface.child, QAccessibleInterface.childCount, hnode] at hchild
      split at hchild
      · rename_i hidx
        simp only [Option.some.injEq] at hchild
        subst hchild
        rw [AccessibilityNode.nodeAt_append view n node index.toNat hnode]
        have hlt : index.toNat < node.children.length := by omega
        exact ⟨node.children[index.toNat], List.getElem?_eq_getElem hlt⟩
      · simp at hchild

/-- C16: in the tree exposed for web content, for every accessible interface `n`
reachable from the view and every index `i` with `0 <= i < n.childCount()`,
`n.child(i)` is non-null and stands for a node, `n.child(i).parent()` is `n`, and
`n.indexOfChild(n.child(i))` is `i`; the child is reachable again, so this holds at
every depth, and it holds whatever frames the two nodes belong to, in particular
between an iframe element and the document of the frame it embeds. -/
theorem C16_accessible_children_know_their_parent (view : AccessibilityNode)
    (n : QAccessibleInterface) (i : Int) (hreach : QAccessibleInterface.Reachable view n)
    (hlow : 0 ≤ i) (hhigh : i < QAccessibleInterface.childCount view n) :
    ∃ c, QAccessibleInterface.child view n i = some c
      ∧ (∃ node, view.nodeAt c = some node)
      ∧ QAccessibleInterface.parent c = some n
      ∧ QAccessibleInterface.indexOfChild view n c = i
      ∧ QAccessibleInterface.Reachable view c := by
  have hchild : QAccessibleInterface.child view n i = some (n ++ [i.toNat]) := by
    simp [QAccessibleInterface.child, hlow, hhigh]
  have hreach' := QAccessibleInterface.Reachable.child n _ i hreach hchild
  obtain ⟨node, hnode⟩ := QAccessibleInterface.Reachable.nodeAt_isSome view _ hreach'
  refine ⟨n ++ [i.toNat], hchild, ⟨node, hnode⟩, ?_, ?_, hreach'⟩
  · simp [QAccessibleInterface.parent]
  · simp only [QAccessibleInterface.indexOfChild, List.getLast?_concat, List.dropLast_concat,
      hnode, Option.isSome_some, and_self, if_true]
    omega

/-- C16 witness: in the page of `crossTreeParent`, the iframe element (frame 0) and
the document of the embedded frame (frame 1) agree on parent, child and index. -/
theorem C16_accessible_children_know_their_parent_witness :
    (sampleCrossTreeView.nodeAt [0, 0, 0]).map AccessibilityNode.frame = some 0
    ∧ (sampleCrossTreeView.nodeAt [0, 0, 0, 0]).map AccessibilityNode.frame = some 1
    ∧ ∃ c, QAccessibleInterface.child sampleCrossTreeView [0, 0, 0] 0 = some c
        ∧ QAccessibleInterface.parent c = some [0, 0, 0]
        ∧ QAccessibleInterface.indexOfChild sampleCrossTreeView [0, 0, 0] c = 0 :=
  have hreach : QAccessibleInterface.Reachable sampleCrossTreeView [0, 0, 0] :=
    .child [0, 0] _ 0 (.child [0] _ 0 (.child [] _ 0 .view (by decide)) (by decide))
      (by decide)
  let ⟨c, hchild, _, hparent, hindex, _⟩ :=
    C16_accessible_children_know_their_parent sampleCrossTreeView [0, 0, 0] 0 hreach
      (by decide) (by decide)
  ⟨by decide, by decide, c, hchild, hparent, hindex⟩

/-- The comparisons of `tst_Accessibility::hierarchy` on parents, children, indices,
child counts and roles, replayed on the model of its page. -/
theorem tst_Accessibility_hierarchy_on_model :
    (sampleHierarchyView.nodeAt []).map AccessibilityNode.role = some .Client
    ∧ QAccessibleInterface.childCount sampleHierarchyView [] = 1
    ∧ QAccessibleInterface.child sampleHierarchyView [] 0 = some [0]
    ∧ (sampleHierarchyView.nodeAt [0]).map AccessibilityNode.role = some .WebDocument
    ∧ QAccessibleInterface.parent [0] = some []
    ∧ QAccessibleInterface.indexOfChild sampleHierarchyView [] [0] = 0
    ∧ QAccessibleInterface.childCount sampleHierarchyView [0] = 1
    ∧ QAccessibleInterface.child sampleHierarchyView [0] 0 = some [0, 0]
    ∧ QAccessibleInterface.parent [0, 0] = some [0]
    ∧ QAccessibleInterface.indexOfChild sampleHierarchyView [0] [0, 0] = 0
    ∧ QAccessibleInterface.childCount sampleHierarchyView [0, 0] = 2
    ∧ QAccessibleInterface.child sampleHierarchyView [0, 0] 0 = some [0, 0, 0]
    ∧ (sampleHierarchyView.nodeAt [0, 0, 0]).map AccessibilityNode.role = some .StaticText
    ∧ QAccessibleInterface.parent [0, 0, 0] = some [0, 0]
    ∧ QAccessibleInterface.indexOfChild sampleHierarchyView [0, 0] [0, 0, 0] = 0
    ∧ QAccessibleInterface.childCount sampleHierarchyView [0, 0, 0] = 0
    ∧ QAccessibleInterface.child sampleHierarchyView [0, 0] 1 = some [0, 0, 1]
    ∧ (sampleHierarchyView.nodeAt [0, 0, 1]).map AccessibilityNode.role = some .EditableText
    ∧ QAccessibleInterface.parent [0, 0, 1] = some [0, 0]
    ∧ QAccessibleInterface.indexOfChild sampleHierarchyView [0, 0] [0, 0, 1] = 1
    ∧ QAccessibleInterface.childCount sampleHierarchyView [0, 0, 1] = 0 := by
  decide

/-- The comparisons of `tst_Accessibility::crossTreeParent` on parents, children, child
counts and roles, replayed on the model of its page. -/
theorem tst_Accessibility_crossTreeParent_on_model :
    (sampleCrossTreeView.nodeAt [0]).map AccessibilityNode.role = some .WebDocument
    ∧ QAccessibleInterface.childCount sampleCrossTreeView [0] = 1
    ∧ QAccessibleInterface.child sampleCrossTreeView [0] 0 = some [0, 0]
    ∧ QAccessibleInterface.parent [0, 0] = some [0]
    ∧ QAccessibleInterface.child sampleCrossTreeView [0, 0] 0 = some [0, 0, 0]
    ∧ (sampleCrossTreeView.nodeAt [0, 0, 0]).map AccessibilityNode.role = some .WebDocument
    ∧ (QAccessibleInterface.parent [0, 0, 0]).bind QAccessibleInterface.parent = some [0]
    ∧ QAccessibleInterface.childCount sampleCrossTreeView [0, 0, 0] = 1
    ∧ QAccessibleInterface.child sampleCrossTreeView [0, 0, 0] 0 = some [0, 0, 0, 0]
    ∧ (sampleCrossTreeView.nodeAt [0, 0, 0, 0]).map AccessibilityNode.role
        = some .WebDocument
    ∧ QAccessibleInterface.child sampleCrossTreeView [0, 0, 0, 0] 0 = some [0, 0, 0, 0, 0]
    ∧ (sampleCrossTreeView.nodeAt [0, 0, 0, 0, 0]).map AccessibilityNode.role
        = some .Paragraph
    ∧ QAccessibleInterface.parent [0, 0, 0, 0, 0] = some [0, 0, 0, 0]
    ∧ ((((QAccessibleInterface.parent [0, 0, 0, 0, 0]).bind QAccessibleInterface.parent).bind
          QAccessibleInterface.parent).bind QAccessibleInterface.parent).bind
        QAccessibleInterface.parent = some [] := by
  decide

end QtWebEngineCore
